import Mathlib

/-!
# Collision shapes of godot-jolt: `src/jolt_shape_3d.cpp`

A shallow embedding of the shape classes of `jolt_shape_3d.cpp` and the
properties of their owner bookkeeping, change notification, cache and
`set_data` / `get_data` pipeline.

Conventions of the embedding.

* An owner (`JoltCollisionObject3D*`) is identified by a natural number.
* C++ methods that mutate `this` become functions returning the new state.
* Calls into collaborators (owner callbacks, error sink, native engine) are
  recorded as values: lists of calls or reports next to the new state.
* 32-bit floats are kept abstract (`Float32Ops`): the definitions use only the
  comparisons and operations the source applies to them, so every statement
  holds for IEEE semantics (NaN included) as well as for exact arithmetic.
-/

namespace GodotJolt

/-! ## Owner map -/

/-- Identity of an owning collision object: the value of the
`JoltCollisionObject3D*` pointer. -/
abbrev Owner := Nat

/-- Modelled from the spec: the member `ref_counts_by_owner`, whose type is
declared in the header `jolt_shape_3d.hpp` (not among the sources). The spec
describes it as a mapping from owner identity to a reference count. It is kept
as a list of entries in iteration order, one entry per key, as in a node based
hash map; counts are integers. -/
abbrev OwnerMap := List (Owner × Int)

/-- The count stored for `o`, if `o` has an entry (`find`). -/
def ref_count (m : OwnerMap) (o : Owner) : Option Int :=
  match m with
  | [] => none
  | e :: rest => if e.1 = o then some e.2 else ref_count rest o

/-- The keys of the map, in iteration order. -/
def owners (m : OwnerMap) : List Owner := m.map Prod.fst

/-- Effect of `ref_counts_by_owner[p_owner]` on the map: an absent key is
inserted with a value-initialised count `0`. -/
def subscript (m : OwnerMap) (o : Owner) : OwnerMap :=
  match m with
  | [] => [(o, 0)]
  | e :: rest => if e.1 = o then e :: rest else e :: subscript rest o

/-- Write through the reference returned by `operator[]`: apply `f` to the
count of `o`. -/
def update (m : OwnerMap) (o : Owner) (f : Int → Int) : OwnerMap :=
  match m with
  | [] => []
  | e :: rest => if e.1 = o then (e.1, f e.2) :: rest else e :: update rest o f

/-- The call `ref_counts_by_owner.erase(p_owner)`. -/
def erase (m : OwnerMap) (o : Owner) : OwnerMap :=
  match m with
  | [] => []
  | e :: rest => if e.1 = o then rest else e :: erase rest o

/-- Owner map after `JoltShape3D::add_owner`:
`ref_counts_by_owner[p_owner]++`. -/
def add_owner_map (m : OwnerMap) (p_owner : Owner) : OwnerMap :=
  update (subscript m p_owner) p_owner (fun c => c + 1)

/-- Owner map after `JoltShape3D::remove_owner`:
`if (--ref_counts_by_owner[p_owner] <= 0) erase(p_owner)`. -/
def remove_owner_map (m : OwnerMap) (p_owner : Owner) : OwnerMap :=
  let decremented := update (subscript m p_owner) p_owner (fun c => c - 1)
  if (ref_count decremented p_owner).getD 0 ≤ 0 then erase decremented p_owner
  else decremented

/-- Well-formed owner map: one entry per key. -/
def unique_keys (m : OwnerMap) : Prop := (owners m).Nodup

instance (m : OwnerMap) : Decidable (unique_keys m) := by
  unfold unique_keys; infer_instance

/-- Base class `JoltShape3D`: the cached native handle `jolt_ref` (`none` is
the empty reference) and the owner map. `H` is the type of native shape
handles. -/
structure JoltShape3D (H : Type) where
  jolt_ref : Option H
  ref_counts_by_owner : OwnerMap
deriving DecidableEq, Repr

/-- The method `JoltShape3D::add_owner`. -/
def JoltShape3D.add_owner {H : Type} (s : JoltShape3D H) (p_owner : Owner) :
    JoltShape3D H :=
  { s with ref_counts_by_owner := add_owner_map s.ref_counts_by_owner p_owner }

/-- The method `JoltShape3D::remove_owner`. -/
def JoltShape3D.remove_owner {H : Type} (s : JoltShape3D H) (p_owner : Owner) :
    JoltShape3D H :=
  { s with ref_counts_by_owner := remove_owner_map s.ref_counts_by_owner p_owner }

/-- One call of `add_owner` or `remove_owner`. -/
inductive OwnerCall where
  | add (p_owner : Owner)
  | remove (p_owner : Owner)
deriving DecidableEq, Repr

/-- Perform one owner call on a shape. -/
def JoltShape3D.perform {H : Type} (s : JoltShape3D H) : OwnerCall → JoltShape3D H
  | .add o => s.add_owner o
  | .remove o => s.remove_owner o

/-- Perform a sequence of owner calls, first call first. -/
def JoltShape3D.perform_all {H : Type} (s : JoltShape3D H) (calls : List OwnerCall) :
    JoltShape3D H :=
  calls.foldl JoltShape3D.perform s

/-! ## Values of the host -/

/-- The operations of the 32-bit `float` type that the source applies: the
constants `0.0f`, `1.0f` and `CMP_EPSILON`, arithmetic, `x / 2.0f`, `max`,
the conversion from `int32_t`, and the comparisons `<`, `<=`, `==` as boolean
functions (all false on a NaN operand in IEEE arithmetic). The only laws
assumed are `0 <= 0` and `not (0 < 0)`. -/
class Float32Ops (F : Type) where
  zero : F
  one : F
  cmp_epsilon : F
  add : F → F → F
  sub : F → F → F
  mul : F → F → F
  neg : F → F
  half : F → F
  max : F → F → F
  of_int32 : Int → F
  lt : F → F → Bool
  le : F → F → Bool
  eq : F → F → Bool
  le_zero_zero : le zero zero = true
  lt_zero_zero : lt zero zero = false

/-- Exact rational arithmetic as an instance of the float operations. -/
instance : Float32Ops ℚ where
  zero := 0
  one := 1
  cmp_epsilon := 1 / 100000
  add a b := a + b
  sub a b := a - b
  mul a b := a * b
  neg a := -a
  half a := a / 2
  max a b := if a < b then b else a
  of_int32 i := (i : ℚ)
  lt a b := decide (a < b)
  le a b := decide (a ≤ b)
  eq a b := decide (a = b)
  le_zero_zero := by simp
  lt_zero_zero := by simp

/-- Integers as a second instance, used to evaluate the definitions on small
inputs; `half` is the integer quotient. -/
instance : Float32Ops Int where
  zero := 0
  one := 1
  cmp_epsilon := 1
  add a b := a + b
  sub a b := a - b
  mul a b := a * b
  neg a := -a
  half a := a / 2
  max a b := if a < b then b else a
  of_int32 i := i
  lt a b := decide (a < b)
  le a b := decide (a ≤ b)
  eq a b := decide (a = b)
  le_zero_zero := by decide
  lt_zero_zero := by decide

/-- The cast `(int32_t)x` of a 64-bit integer: reduction modulo `2^32` into
`[-2^31, 2^31)`. -/
def int32_of (i : Int) : Int := (i + 2147483648) % 4294967296 - 2147483648

/-- The cast `(int32_t)n` of an array size `n` (a non-negative 64-bit
integer): the same reduction, written on the natural number. -/
def int32_of_size (n : Nat) : Int :=
  let r := n % 4294967296
  if r < 2147483648 then (r : Int) else (r : Int) - 4294967296

/-- The cast `(JPH::uint32)x`. -/
def uint32_of (i : Int) : Nat := (i % 4294967296).toNat

/-- Modelled from the spec: the helper `is_power_of_2`, defined in a header
outside the sources; the spec requires the width to be a power of two. -/
def is_power_of_2 (n : Nat) : Bool := decide (2 ^ Nat.log2 n = n)

/-- The host type `Vector3`. -/
structure Vector3 (F : Type) where
  x : F
  y : F
  z : F
deriving DecidableEq, Repr

/-- The value `Vector3()`, also the result of `Vector3::zero()`. -/
def Vector3.zero {F : Type} [Float32Ops F] : Vector3 F :=
  { x := Float32Ops.zero, y := Float32Ops.zero, z := Float32Ops.zero }

/-- Component-wise `operator==` of `Vector3`. -/
def Vector3.eq {F : Type} [Float32Ops F] (a b : Vector3 F) : Bool :=
  Float32Ops.eq a.x b.x && Float32Ops.eq a.y b.y && Float32Ops.eq a.z b.z

/-- Modelled from the spec: `p_half_extents[p_half_extents.min_axis_index()]`,
the shortest half-extent; `Vector3::min_axis_index` belongs to the host library
and is `x < y ? (x < z ? X : Z) : (y < z ? Y : Z)` there. -/
def Vector3.shortest_axis {F : Type} [Float32Ops F] (v : Vector3 F) : F :=
  if Float32Ops.lt v.x v.y then (if Float32Ops.lt v.x v.z then v.x else v.z)
  else (if Float32Ops.lt v.y v.z then v.y else v.z)

/-- The host type `Plane`: a normal and a distance. -/
structure Plane (F : Type) where
  normal : Vector3 F
  d : F
deriving DecidableEq, Repr

/-- The value `Plane()`: zero normal, zero distance. -/
def Plane.default {F : Type} [Float32Ops F] : Plane F :=
  { normal := Vector3.zero, d := Float32Ops.zero }

/-- The host comparison `Plane::operator==`: normals and distances equal. -/
def Plane.eq {F : Type} [Float32Ops F] (a b : Plane F) : Bool :=
  Vector3.eq a.normal b.normal && Float32Ops.eq a.d b.d

/-- The host type `Variant`, restricted to the types the shapes look at; every
other type is `OTHER`. A `FLOAT` holds a double and is read through `(float)`:
the payload is the float that the cast yields (a float survives the way to
double and back unchanged). An `INT` holds a 64-bit integer. A `DICTIONARY` is
its list of entries with string keys. -/
inductive Variant (F : Type) where
  | NIL
  | BOOL (b : Bool)
  | INT (i : Int)
  | FLOAT (x : F)
  | VECTOR3 (v : Vector3 F)
  | PLANE (p : Plane F)
  | DICTIONARY (entries : List (String × Variant F))
  | PACKED_FLOAT32_ARRAY (a : List F)
  | PACKED_VECTOR3_ARRAY (a : List (Vector3 F))
  | OTHER (type_id : Nat)

/-- A `Dictionary` with string keys. -/
abbrev Dictionary (F : Type) := List (String × Variant F)

/-- The call `data.get(key, Variant())`: the value stored under `key`, or a
`NIL` variant. -/
def Dictionary.get {F : Type} (data : Dictionary F) (key : String) : Variant F :=
  match data with
  | [] => Variant.NIL
  | e :: rest => if e.1 = key then e.2 else Dictionary.get rest key

/-- The assignment `data[key] = value`. -/
def Dictionary.set {F : Type} (data : Dictionary F) (key : String) (value : Variant F) :
    Dictionary F :=
  match data with
  | [] => [(key, value)]
  | e :: rest => if e.1 = key then (key, value) :: rest else e :: Dictionary.set rest key value

/-- A message sent to the reporting collaborator: `ERR_FAIL_*` reports an
error, `WARN_PRINT` a warning; `crash` is an index outside an array of the
host, which aborts. -/
inductive Report where
  | error (message : String)
  | warning (message : String)
  | crash (message : String)
deriving DecidableEq, Repr

/-- Whether a report is an error. -/
def Report.is_error : Report → Bool
  | .error _ => true
  | _ => false

/-! ## Change notification and the shape kinds -/

/-- A call `owner->rebuild_shape(p_lock)`, with the state of the shape at the
time of the call. -/
structure Notification (S : Type) where
  owner : Owner
  p_lock : Bool
  observed : S

/-- The method `JoltShape3D::shape_changed`, as the list of calls it makes to
owners that do not touch the shape in return: one `rebuild_shape(p_lock)` per
entry of the owner map, in iteration order. `self` is the shape at that time. -/
def shape_changed {S : Type} (ref_counts_by_owner : OwnerMap) (p_lock : Bool) (self : S) :
    List (Notification S) :=
  ref_counts_by_owner.map (fun e => { owner := e.1, p_lock := p_lock, observed := self })

/-- Outcome of a mutating method: the shape afterwards, the reports made and
the `rebuild_shape` calls made, in order. -/
structure Mutation (S : Type) where
  shape : S
  reports : List Report
  rebuild_calls : List (Notification S)

/-- The block `ON_SCOPE_EXIT { shape_changed(); }` at the head of every
`set_data` and `set_margin`: it runs when the method body has finished, on
every path, on the state the body leaves behind. `p_lock` is the default
argument of `shape_changed`, declared in the header. -/
def on_scope_exit {S H : Type} (base : S → JoltShape3D H) (p_lock : Bool)
    (body : S × List Report) : Mutation S :=
  { shape := body.1
    reports := body.2
    rebuild_calls := shape_changed (base body.1).ref_counts_by_owner p_lock body.1 }

/-- Result of an `initialize` method: the shape, the returned `bool` and the
reports made. -/
structure Initialized (S : Type) where
  shape : S
  ok : Bool
  reports : List Report

/-- Fields of `JoltWorldBoundaryShape3D`. -/
structure JoltWorldBoundaryShape3D (F H : Type) extends JoltShape3D H where
  plane : Plane F
deriving DecidableEq

/-- Fields of `JoltSeparationRayShape3D`. -/
structure JoltSeparationRayShape3D (F H : Type) extends JoltShape3D H where
  length : F
  slide_on_slope : Bool
deriving DecidableEq

/-- Fields of `JoltSphereShape3D`. -/
structure JoltSphereShape3D (F H : Type) extends JoltShape3D H where
  radius : F
deriving DecidableEq

/-- Fields of `JoltBoxShape3D`. -/
structure JoltBoxShape3D (F H : Type) extends JoltShape3D H where
  half_extents : Vector3 F
  margin : F
deriving DecidableEq

/-- Fields of `JoltCapsuleShape3D`. -/
structure JoltCapsuleShape3D (F H : Type) extends JoltShape3D H where
  height : F
  radius : F
deriving DecidableEq

/-- Fields of `JoltCylinderShape3D`. -/
structure JoltCylinderShape3D (F H : Type) extends JoltShape3D H where
  height : F
  radius : F
  margin : F
deriving DecidableEq

/-- Fields of `JoltConvexPolygonShape3D`. -/
structure JoltConvexPolygonShape3D (F H : Type) extends JoltShape3D H where
  vertices : List (Vector3 F)
  margin : F
deriving DecidableEq

/-- Fields of `JoltConcavePolygonShape3D`. -/
structure JoltConcavePolygonShape3D (F H : Type) extends JoltShape3D H where
  faces : List (Vector3 F)
  backface_collision : Bool
deriving DecidableEq

/-- Fields of `JoltHeightMapShape3D`; `width` and `depth` are `int32_t`. -/
structure JoltHeightMapShape3D (F H : Type) extends JoltShape3D H where
  heights : List F
  width : Int
  depth : Int
deriving DecidableEq

section kinds

variable {F H : Type} [Float32Ops F]

/-! ### World boundary -/

/-- Transcription of `JoltWorldBoundaryShape3D::get_data`. -/
def JoltWorldBoundaryShape3D.get_data (s : JoltWorldBoundaryShape3D F H) : Variant F :=
  .PLANE s.plane

/-- Transcription of `JoltWorldBoundaryShape3D::clear`. -/
def JoltWorldBoundaryShape3D.clear (s : JoltWorldBoundaryShape3D F H) :
    JoltWorldBoundaryShape3D F H :=
  { s with jolt_ref := none, plane := Plane.default }

/-- Transcription of `JoltWorldBoundaryShape3D::initialize`. -/
def JoltWorldBoundaryShape3D.initialize (s : JoltWorldBoundaryShape3D F H) (p_plane : Plane F) :
    Initialized (JoltWorldBoundaryShape3D F H) :=
  if Plane.eq p_plane Plane.default then { shape := s, ok := false, reports := [] }
  else { shape := { s with plane := p_plane }, ok := true, reports := [] }

/-- Body of `JoltWorldBoundaryShape3D::set_data`, up to the scope exit. -/
def JoltWorldBoundaryShape3D.set_data_body (s : JoltWorldBoundaryShape3D F H)
    (p_data : Variant F) : JoltWorldBoundaryShape3D F H × List Report :=
  let cleared := s.clear
  match p_data with
  | .PLANE p =>
    let initialized := cleared.initialize p
    (initialized.shape, initialized.reports)
  | _ => (cleared, [.error "p_data.get_type() != Variant::PLANE"])

/-- Transcription of `JoltWorldBoundaryShape3D::set_data`. -/
def JoltWorldBoundaryShape3D.set_data (s : JoltWorldBoundaryShape3D F H)
    (p_data : Variant F) (p_lock : Bool) : Mutation (JoltWorldBoundaryShape3D F H) :=
  on_scope_exit (fun t => t.toJoltShape3D) p_lock (s.set_data_body p_data)

/-! ### Separation ray -/

/-- Transcription of `JoltSeparationRayShape3D::get_data`. -/
def JoltSeparationRayShape3D.get_data (s : JoltSeparationRayShape3D F H) : Variant F :=
  .DICTIONARY
    (Dictionary.set (Dictionary.set [] "length" (.FLOAT s.length))
      "slide_on_slope" (.BOOL s.slide_on_slope))

/-- Transcription of `JoltSeparationRayShape3D::clear`. -/
def JoltSeparationRayShape3D.clear (s : JoltSeparationRayShape3D F H) :
    JoltSeparationRayShape3D F H :=
  { s with jolt_ref := none, length := Float32Ops.zero, slide_on_slope := false }

/-- Transcription of `JoltSeparationRayShape3D::initialize`. -/
def JoltSeparationRayShape3D.initialize (s : JoltSeparationRayShape3D F H) (p_length : F)
    (p_slide_on_slope : Bool) : Initialized (JoltSeparationRayShape3D F H) :=
  if Float32Ops.eq p_length Float32Ops.zero then { shape := s, ok := false, reports := [] }
  else
    { shape := { s with length := p_length, slide_on_slope := p_slide_on_slope }
      ok := true
      reports := [] }

/-- Body of `JoltSeparationRayShape3D::set_data`, up to the scope exit. -/
def JoltSeparationRayShape3D.set_data_body (s : JoltSeparationRayShape3D F H)
    (p_data : Variant F) : JoltSeparationRayShape3D F H × List Report :=
  let cleared := s.clear
  match p_data with
  | .DICTIONARY data =>
    match Dictionary.get data "length" with
    | .FLOAT maybe_length =>
      match Dictionary.get data "slide_on_slope" with
      | .BOOL maybe_slide_on_slope =>
        let initialized := cleared.initialize maybe_length maybe_slide_on_slope
        (initialized.shape, initialized.reports)
      | _ => (cleared, [.error "maybe_slide_on_slope.get_type() != Variant::BOOL"])
    | _ => (cleared, [.error "maybe_length.get_type() != Variant::FLOAT"])
  | _ => (cleared, [.error "p_data.get_type() != Variant::DICTIONARY"])

/-- Transcription of `JoltSeparationRayShape3D::set_data`. -/
def JoltSeparationRayShape3D.set_data (s : JoltSeparationRayShape3D F H)
    (p_data : Variant F) (p_lock : Bool) : Mutation (JoltSeparationRayShape3D F H) :=
  on_scope_exit (fun t => t.toJoltShape3D) p_lock (s.set_data_body p_data)

/-! ### Sphere -/

/-- Transcription of `JoltSphereShape3D::get_data`. -/
def JoltSphereShape3D.get_data (s : JoltSphereShape3D F H) : Variant F :=
  .FLOAT s.radius

/-- Transcription of `JoltSphereShape3D::clear`. -/
def JoltSphereShape3D.clear (s : JoltSphereShape3D F H) : JoltSphereShape3D F H :=
  { s with jolt_ref := none, radius := Float32Ops.zero }

/-- Transcription of `JoltSphereShape3D::initialize`. -/
def JoltSphereShape3D.initialize (s : JoltSphereShape3D F H) (p_radius : F) :
    Initialized (JoltSphereShape3D F H) :=
  if Float32Ops.le p_radius Float32Ops.zero then { shape := s, ok := false, reports := [] }
  else { shape := { s with radius := p_radius }, ok := true, reports := [] }

/-- Body of `JoltSphereShape3D::set_data`, up to the scope exit. -/
def JoltSphereShape3D.set_data_body (s : JoltSphereShape3D F H) (p_data : Variant F) :
    JoltSphereShape3D F H × List Report :=
  let cleared := s.clear
  match p_data with
  | .FLOAT x =>
    let initialized := cleared.initialize x
    (initialized.shape, initialized.reports)
  | _ => (cleared, [.error "p_data.get_type() != Variant::FLOAT"])

/-- Transcription of `JoltSphereShape3D::set_data`. -/
def JoltSphereShape3D.set_data (s : JoltSphereShape3D F H) (p_data : Variant F)
    (p_lock : Bool) : Mutation (JoltSphereShape3D F H) :=
  on_scope_exit (fun t => t.toJoltShape3D) p_lock (s.set_data_body p_data)

/-! ### Box -/

/-- Transcription of `JoltBoxShape3D::get_data`. -/
def JoltBoxShape3D.get_data (s : JoltBoxShape3D F H) : Variant F :=
  .VECTOR3 s.half_extents

/-- Transcription of `JoltBoxShape3D::clear`; the margin is not touched. -/
def JoltBoxShape3D.clear (s : JoltBoxShape3D F H) : JoltBoxShape3D F H :=
  { s with jolt_ref := none, half_extents := Vector3.zero }

/-- Transcription of `JoltBoxShape3D::initialize`. -/
def JoltBoxShape3D.initialize (s : JoltBoxShape3D F H) (p_half_extents : Vector3 F) :
    Initialized (JoltBoxShape3D F H) :=
  let shortest_axis := p_half_extents.shortest_axis
  if Float32Ops.le shortest_axis s.margin then { shape := s, ok := false, reports := [] }
  else { shape := { s with half_extents := p_half_extents }, ok := true, reports := [] }

/-- Body of `JoltBoxShape3D::set_data`, up to the scope exit. -/
def JoltBoxShape3D.set_data_body (s : JoltBoxShape3D F H) (p_data : Variant F) :
    JoltBoxShape3D F H × List Report :=
  let cleared := s.clear
  match p_data with
  | .VECTOR3 v =>
    let initialized := cleared.initialize v
    (initialized.shape, initialized.reports)
  | _ => (cleared, [.error "p_data.get_type() != Variant::VECTOR3"])

/-- Transcription of `JoltBoxShape3D::set_data`. -/
def JoltBoxShape3D.set_data (s : JoltBoxShape3D F H) (p_data : Variant F) (p_lock : Bool) :
    Mutation (JoltBoxShape3D F H) :=
  on_scope_exit (fun t => t.toJoltShape3D) p_lock (s.set_data_body p_data)

/-- Body of `JoltBoxShape3D::set_margin`, up to the scope exit: `clear()`,
`margin = p_margin`, `initialize(half_extents)` on the member as it is then. -/
def JoltBoxShape3D.set_margin_body (s : JoltBoxShape3D F H) (p_margin : F) :
    JoltBoxShape3D F H × List Report :=
  let cleared := s.clear
  let assigned := { cleared with margin := p_margin }
  let initialized := assigned.initialize assigned.half_extents
  (initialized.shape, initialized.reports)

/-- Transcription of `JoltBoxShape3D::set_margin`. -/
def JoltBoxShape3D.set_margin (s : JoltBoxShape3D F H) (p_margin : F) (p_lock : Bool) :
    Mutation (JoltBoxShape3D F H) :=
  on_scope_exit (fun t => t.toJoltShape3D) p_lock (s.set_margin_body p_margin)

/-! ### Capsule -/

/-- Transcription of `JoltCapsuleShape3D::get_data`. -/
def JoltCapsuleShape3D.get_data (s : JoltCapsuleShape3D F H) : Variant F :=
  .DICTIONARY
    (Dictionary.set (Dictionary.set [] "height" (.FLOAT s.height)) "radius" (.FLOAT s.radius))

/-- Transcription of `JoltCapsuleShape3D::clear`. -/
def JoltCapsuleShape3D.clear (s : JoltCapsuleShape3D F H) : JoltCapsuleShape3D F H :=
  { s with jolt_ref := none, height := Float32Ops.zero, radius := Float32Ops.zero }

/-- Transcription of `JoltCapsuleShape3D::initialize`. -/
def JoltCapsuleShape3D.initialize (s : JoltCapsuleShape3D F H) (p_height p_radius : F) :
    Initialized (JoltCapsuleShape3D F H) :=
  if Float32Ops.le p_height Float32Ops.zero || Float32Ops.le p_radius Float32Ops.zero then
    { shape := s, ok := false, reports := [] }
  else
    let half_height := Float32Ops.half p_height
    if Float32Ops.lt half_height p_radius then
      { shape := s
        ok := false
        reports := [.error "Half height must be equal to or greater than radius."] }
    else { shape := { s with height := p_height, radius := p_radius }, ok := true, reports := [] }

/-- Body of `JoltCapsuleShape3D::set_data`, up to the scope exit. -/
def JoltCapsuleShape3D.set_data_body (s : JoltCapsuleShape3D F H) (p_data : Variant F) :
    JoltCapsuleShape3D F H × List Report :=
  let cleared := s.clear
  match p_data with
  | .DICTIONARY data =>
    match Dictionary.get data "height" with
    | .FLOAT maybe_height =>
      match Dictionary.get data "radius" with
      | .FLOAT maybe_radius =>
        let initialized := cleared.initialize maybe_height maybe_radius
        (initialized.shape, initialized.reports)
      | _ => (cleared, [.error "maybe_radius.get_type() != Variant::FLOAT"])
    | _ => (cleared, [.error "maybe_height.get_type() != Variant::FLOAT"])
  | _ => (cleared, [.error "p_data.get_type() != Variant::DICTIONARY"])

/-- Transcription of `JoltCapsuleShape3D::set_data`. -/
def JoltCapsuleShape3D.set_data (s : JoltCapsuleShape3D F H) (p_data : Variant F)
    (p_lock : Bool) : Mutation (JoltCapsuleShape3D F H) :=
  on_scope_exit (fun t => t.toJoltShape3D) p_lock (s.set_data_body p_data)

/-! ### Cylinder -/

/-- Transcription of `JoltCylinderShape3D::get_data`. -/
def JoltCylinderShape3D.get_data (s : JoltCylinderShape3D F H) : Variant F :=
  .DICTIONARY
    (Dictionary.set (Dictionary.set [] "height" (.FLOAT s.height)) "radius" (.FLOAT s.radius))

/-- Transcription of `JoltCylinderShape3D::clear`; the margin is not touched. -/
def JoltCylinderShape3D.clear (s : JoltCylinderShape3D F H) : JoltCylinderShape3D F H :=
  { s with jolt_ref := none, height := Float32Ops.zero, radius := Float32Ops.zero }

/-- Transcription of `JoltCylinderShape3D::initialize`. -/
def JoltCylinderShape3D.initialize (s : JoltCylinderShape3D F H) (p_height p_radius : F) :
    Initialized (JoltCylinderShape3D F H) :=
  if Float32Ops.lt p_height s.margin || Float32Ops.lt p_radius s.margin then
    { shape := s, ok := false, reports := [] }
  else { shape := { s with height := p_height, radius := p_radius }, ok := true, reports := [] }

/-- Body of `JoltCylinderShape3D::set_data`, up to the scope exit. -/
def JoltCylinderShape3D.set_data_body (s : JoltCylinderShape3D F H) (p_data : Variant F) :
    JoltCylinderShape3D F H × List Report :=
  let cleared := s.clear
  match p_data with
  | .DICTIONARY data =>
    match Dictionary.get data "height" with
    | .FLOAT maybe_height =>
      match Dictionary.get data "radius" with
      | .FLOAT maybe_radius =>
        let initialized := cleared.initialize maybe_height maybe_radius
        (initialized.shape, initialized.reports)
      | _ => (cleared, [.error "maybe_radius.get_type() != Variant::FLOAT"])
    | _ => (cleared, [.error "maybe_height.get_type() != Variant::FLOAT"])
  | _ => (cleared, [.error "p_data.get_type() != Variant::DICTIONARY"])

/-- Transcription of `JoltCylinderShape3D::set_data`. -/
def JoltCylinderShape3D.set_data (s : JoltCylinderShape3D F H) (p_data : Variant F)
    (p_lock : Bool) : Mutation (JoltCylinderShape3D F H) :=
  on_scope_exit (fun t => t.toJoltShape3D) p_lock (s.set_data_body p_data)

/-- Body of `JoltCylinderShape3D::set_margin`, up to the scope exit. -/
def JoltCylinderShape3D.set_margin_body (s : JoltCylinderShape3D F H) (p_margin : F) :
    JoltCylinderShape3D F H × List Report :=
  let cleared := s.clear
  let assigned := { cleared with margin := p_margin }
  let initialized := assigned.initialize assigned.height assigned.radius
  (initialized.shape, initialized.reports)

/-- Transcription of `JoltCylinderShape3D::set_margin`. -/
def JoltCylinderShape3D.set_margin (s : JoltCylinderShape3D F H) (p_margin : F)
    (p_lock : Bool) : Mutation (JoltCylinderShape3D F H) :=
  on_scope_exit (fun t => t.toJoltShape3D) p_lock (s.set_margin_body p_margin)

/-! ### Convex polygon -/

/-- Transcription of `JoltConvexPolygonShape3D::get_data`. -/
def JoltConvexPolygonShape3D.get_data (s : JoltConvexPolygonShape3D F H) : Variant F :=
  .PACKED_VECTOR3_ARRAY s.vertices

/-- Transcription of `JoltConvexPolygonShape3D::clear`; the margin is not
touched. -/
def JoltConvexPolygonShape3D.clear (s : JoltConvexPolygonShape3D F H) :
    JoltConvexPolygonShape3D F H :=
  { s with jolt_ref := none, vertices := [] }

/-- Transcription of `JoltConvexPolygonShape3D::initialize`. -/
def JoltConvexPolygonShape3D.initialize (s : JoltConvexPolygonShape3D F H)
    (p_vertices : List (Vector3 F)) : Initialized (JoltConvexPolygonShape3D F H) :=
  if p_vertices.length < 3 then { shape := s, ok := false, reports := [] }
  else { shape := { s with vertices := p_vertices }, ok := true, reports := [] }

/-- Body of `JoltConvexPolygonShape3D::set_data`, up to the scope exit. -/
def JoltConvexPolygonShape3D.set_data_body (s : JoltConvexPolygonShape3D F H)
    (p_data : Variant F) : JoltConvexPolygonShape3D F H × List Report :=
  let cleared := s.clear
  match p_data with
  | .PACKED_VECTOR3_ARRAY a =>
    let initialized := cleared.initialize a
    (initialized.shape, initialized.reports)
  | _ => (cleared, [.error "p_data.get_type() != Variant::PACKED_VECTOR3_ARRAY"])

/-- Transcription of `JoltConvexPolygonShape3D::set_data`. -/
def JoltConvexPolygonShape3D.set_data (s : JoltConvexPolygonShape3D F H)
    (p_data : Variant F) (p_lock : Bool) : Mutation (JoltConvexPolygonShape3D F H) :=
  on_scope_exit (fun t => t.toJoltShape3D) p_lock (s.set_data_body p_data)

/-- Body of `JoltConvexPolygonShape3D::set_margin`, up to the scope exit. -/
def JoltConvexPolygonShape3D.set_margin_body (s : JoltConvexPolygonShape3D F H)
    (p_margin : F) : JoltConvexPolygonShape3D F H × List Report :=
  let cleared := s.clear
  let assigned := { cleared with margin := p_margin }
  let initialized := assigned.initialize assigned.vertices
  (initialized.shape, initialized.reports)

/-- Transcription of `JoltConvexPolygonShape3D::set_margin`. -/
def JoltConvexPolygonShape3D.set_margin (s : JoltConvexPolygonShape3D F H) (p_margin : F)
    (p_lock : Bool) : Mutation (JoltConvexPolygonShape3D F H) :=
  on_scope_exit (fun t => t.toJoltShape3D) p_lock (s.set_margin_body p_margin)

/-! ### Concave polygon -/

/-- Transcription of `JoltConcavePolygonShape3D::get_data`. -/
def JoltConcavePolygonShape3D.get_data (s : JoltConcavePolygonShape3D F H) : Variant F :=
  .DICTIONARY
    (Dictionary.set (Dictionary.set [] "faces" (.PACKED_VECTOR3_ARRAY s.faces))
      "backface_collision" (.BOOL s.backface_collision))

/-- Transcription of `JoltConcavePolygonShape3D::clear`. -/
def JoltConcavePolygonShape3D.clear (s : JoltConcavePolygonShape3D F H) :
    JoltConcavePolygonShape3D F H :=
  { s with jolt_ref := none, faces := [], backface_collision := false }

/-- Transcription of `JoltConcavePolygonShape3D::initialize`. -/
def JoltConcavePolygonShape3D.initialize (s : JoltConcavePolygonShape3D F H)
    (p_faces : List (Vector3 F)) (p_backface_collision : Bool) :
    Initialized (JoltConcavePolygonShape3D F H) :=
  let vertex_count := p_faces.length
  if vertex_count = 0 then { shape := s, ok := false, reports := [] }
  else
    let excess_vertex_count := vertex_count % 3
    if excess_vertex_count ≠ 0 then
      { shape := s, ok := false, reports := [.error "Expected a vertex count divisible by 3."] }
    else
      let face_count := vertex_count / 3
      if face_count = 0 then { shape := s, ok := false, reports := [] }
      else
        { shape := { s with faces := p_faces, backface_collision := p_backface_collision }
          ok := true
          reports := [] }

/-- Body of `JoltConcavePolygonShape3D::set_data`, up to the scope exit. -/
def JoltConcavePolygonShape3D.set_data_body (s : JoltConcavePolygonShape3D F H)
    (p_data : Variant F) : JoltConcavePolygonShape3D F H × List Report :=
  let cleared := s.clear
  match p_data with
  | .DICTIONARY data =>
    match Dictionary.get data "faces" with
    | .PACKED_VECTOR3_ARRAY maybe_faces =>
      match Dictionary.get data "backface_collision" with
      | .BOOL maybe_backface_collision =>
        let initialized := cleared.initialize maybe_faces maybe_backface_collision
        (initialized.shape, initialized.reports)
      | _ => (cleared, [.error "maybe_backface_collision.get_type() != Variant::BOOL"])
    | _ => (cleared, [.error "maybe_faces.get_type() != Variant::PACKED_VECTOR3_ARRAY"])
  | _ => (cleared, [.error "p_data.get_type() != Variant::DICTIONARY"])

/-- Transcription of `JoltConcavePolygonShape3D::set_data`. -/
def JoltConcavePolygonShape3D.set_data (s : JoltConcavePolygonShape3D F H)
    (p_data : Variant F) (p_lock : Bool) : Mutation (JoltConcavePolygonShape3D F H) :=
  on_scope_exit (fun t => t.toJoltShape3D) p_lock (s.set_data_body p_data)

/-! ### Height map -/

/-- Transcription of `JoltHeightMapShape3D::get_data`. -/
def JoltHeightMapShape3D.get_data (s : JoltHeightMapShape3D F H) : Variant F :=
  .DICTIONARY
    (Dictionary.set
      (Dictionary.set (Dictionary.set [] "width" (.INT s.width)) "depth" (.INT s.depth))
      "heights" (.PACKED_FLOAT32_ARRAY s.heights))

/-- Transcription of `JoltHeightMapShape3D::clear`. -/
def JoltHeightMapShape3D.clear (s : JoltHeightMapShape3D F H) : JoltHeightMapShape3D F H :=
  { s with jolt_ref := none, heights := [], width := 0, depth := 0 }

/-- Transcription of `JoltHeightMapShape3D::initialize`; `p_width` and
`p_depth` are `int32_t`, their product is taken in 32 bits. -/
def JoltHeightMapShape3D.initialize (s : JoltHeightMapShape3D F H) (p_heights : List F)
    (p_width p_depth : Int) : Initialized (JoltHeightMapShape3D F H) :=
  let height_count := int32_of_size p_heights.length
  if height_count = 0 then { shape := s, ok := false, reports := [] }
  else if p_width ≤ 2 ∨ p_depth ≤ 2 then { shape := s, ok := false, reports := [] }
  else if height_count ≠ int32_of (p_width * p_depth) then
    { shape := s
      ok := false
      reports := [.error "Height count must be equal to width multiplied by depth."] }
  else if p_width ≠ p_depth then
    { shape := s
      ok := false
      reports := [.error "Height maps with differing width and depth are not supported."] }
  else
    let sample_count := uint32_of p_width
    if !is_power_of_2 sample_count then
      { shape := s
        ok := false
        reports := [.error "Height maps with a width/depth that is not a power of two are not supported."] }
    else
      { shape := { s with heights := p_heights, width := p_width, depth := p_depth }
        ok := true
        reports := [] }

/-- Body of `JoltHeightMapShape3D::set_data`, up to the scope exit. -/
def JoltHeightMapShape3D.set_data_body (s : JoltHeightMapShape3D F H) (p_data : Variant F) :
    JoltHeightMapShape3D F H × List Report :=
  let cleared := s.clear
  match p_data with
  | .DICTIONARY data =>
    match Dictionary.get data "heights" with
    | .PACKED_FLOAT32_ARRAY maybe_heights =>
      match Dictionary.get data "width" with
      | .INT maybe_width =>
        match Dictionary.get data "depth" with
        | .INT maybe_depth =>
          let initialized :=
            cleared.initialize maybe_heights (int32_of maybe_width) (int32_of maybe_depth)
          (initialized.shape, initialized.reports)
        | _ => (cleared, [.error "maybe_depth.get_type() != Variant::INT"])
      | _ => (cleared, [.error "maybe_width.get_type() != Variant::INT"])
    | _ => (cleared, [.error "maybe_heights.get_type() != Variant::PACKED_FLOAT32_ARRAY"])
  | _ => (cleared, [.error "p_data.get_type() != Variant::DICTIONARY"])

/-- Transcription of `JoltHeightMapShape3D::set_data`. -/
def JoltHeightMapShape3D.set_data (s : JoltHeightMapShape3D F H) (p_data : Variant F)
    (p_lock : Bool) : Mutation (JoltHeightMapShape3D F H) :=
  on_scope_exit (fun t => t.toJoltShape3D) p_lock (s.set_data_body p_data)

end kinds
/-! ## Native engine and `build` -/

/-- The native triangle type: three `Float3` corners. -/
structure Triangle (F : Type) where
  v1 : Vector3 F
  v2 : Vector3 F
  v3 : Vector3 F
deriving DecidableEq, Repr

/-- The host type `Basis`: the three rows of a 3x3 matrix. -/
structure Basis (F : Type) where
  row0 : Vector3 F
  row1 : Vector3 F
  row2 : Vector3 F
deriving DecidableEq, Repr

/-- The host type `Transform3D`: a basis and an origin. -/
structure Transform3D (F : Type) where
  basis : Basis F
  origin : Vector3 F
deriving DecidableEq, Repr

/-- The settings objects handed to the native engine, each with the arguments
of its constructor in the order of the source. The wrapping settings hold the
handle of the shape they wrap; `override_user_data` holds the pointer it was
given, which may be null (`none`). -/
inductive ShapeSettings (F H : Type) where
  | ray (length : F) (slide_on_slope : Bool)
  | sphere (radius : F)
  | box (half_extent : Vector3 F) (convex_radius : F)
  | capsule (half_height_of_cylinder : F) (radius : F)
  | cylinder (half_height : F) (radius : F) (convex_radius : F)
  | convex_hull (points : List (Vector3 F)) (max_convex_radius : F)
  | mesh (triangles : List (Triangle F))
  | height_field (samples : List F) (offset : Vector3 F) (scale : Vector3 F)
      (sample_count : Nat)
  | scaled (inner : H) (scale : Vector3 F)
  | rotated_translated (position : Vector3 F) (rotation : Basis F) (inner : H)
  | offset_center_of_mass (offset : Vector3 F) (inner : H)
  | override_user_data (inner : Option H) (user_data : Nat)
deriving DecidableEq, Repr

/-- The native physics engine, an external capability: `create` is
`ShapeSettings::Create()`, which yields a handle or an error text and may
change the state `W` of the engine (a new shape is allocated);
`normalized_or` is `JPH::Vec3::NormalizedOr`; `center_of_mass` is
`JPH::Shape::GetCenterOfMass`. -/
structure Engine (F H W : Type) where
  create : ShapeSettings F H → W → Except String H × W
  normalized_or : Vector3 F → Vector3 F → Vector3 F
  center_of_mass : H → Vector3 F

/-- Result of a `build`: the returned `JPH::ShapeRefC` (`none` is the empty
reference), the reports made and the state of the engine afterwards. -/
structure BuildResult (H W : Type) where
  shape : Option H
  reports : List Report
  world : W

/-- The common tail of every `build`: `shape_settings.Create()`, then
`ERR_FAIL_COND_D_MSG(shape_result.HasError(), ...)`, then
`return shape_result.Get()`. -/
def create_or_fail {F H W : Type} (engine : Engine F H W) (shape_settings : ShapeSettings F H)
    (message : String) (world : W) : BuildResult H W :=
  match engine.create shape_settings world with
  | (.ok shape, world1) => { shape := some shape, reports := [], world := world1 }
  | (.error text, world1) =>
    { shape := none, reports := [.error (message ++ text)], world := world1 }

section builds

variable {F H W : Type} [Float32Ops F]

/-- Component-wise sum of two vectors. -/
def Vector3.add (a b : Vector3 F) : Vector3 F :=
  { x := Float32Ops.add a.x b.x, y := Float32Ops.add a.y b.y, z := Float32Ops.add a.z b.z }

/-- Product of a vector and a scalar. -/
def Vector3.scale (a : Vector3 F) (k : F) : Vector3 F :=
  { x := Float32Ops.mul a.x k, y := Float32Ops.mul a.y k, z := Float32Ops.mul a.z k }

/-- Transcription of `JoltWorldBoundaryShape3D::build`: `ERR_FAIL_D_MSG`. -/
def JoltWorldBoundaryShape3D.build (_s : JoltWorldBoundaryShape3D F H) (_engine : Engine F H W)
    (_p_extra_margin : F) (world : W) : BuildResult H W :=
  { shape := none
    reports := [.error "WorldBoundaryShape3D is not supported by Godot Jolt."]
    world := world }

/-- Transcription of `JoltSeparationRayShape3D::build`. -/
def JoltSeparationRayShape3D.build (s : JoltSeparationRayShape3D F H) (engine : Engine F H W)
    (p_extra_margin : F) (world : W) : BuildResult H W :=
  create_or_fail engine (.ray (Float32Ops.add s.length p_extra_margin) s.slide_on_slope)
    "Failed to build separation ray shape. " world

/-- Transcription of `JoltSphereShape3D::build`. -/
def JoltSphereShape3D.build (s : JoltSphereShape3D F H) (engine : Engine F H W)
    (p_extra_margin : F) (world : W) : BuildResult H W :=
  create_or_fail engine (.sphere (Float32Ops.add s.radius p_extra_margin))
    "Failed to build sphere shape. " world

/-- Transcription of `JoltBoxShape3D::build`. -/
def JoltBoxShape3D.build (s : JoltBoxShape3D F H) (engine : Engine F H W)
    (p_extra_margin : F) (world : W) : BuildResult H W :=
  let padded_half_extents : Vector3 F :=
    { x := Float32Ops.add s.half_extents.x p_extra_margin
      y := Float32Ops.add s.half_extents.y p_extra_margin
      z := Float32Ops.add s.half_extents.z p_extra_margin }
  create_or_fail engine (.box padded_half_extents s.margin) "Failed to build box shape. " world

/-- Transcription of `JoltCapsuleShape3D::build`. -/
def JoltCapsuleShape3D.build (s : JoltCapsuleShape3D F H) (engine : Engine F H W)
    (p_extra_margin : F) (world : W) : BuildResult H W :=
  let half_height := Float32Ops.half s.height
  let clamped_height := Float32Ops.max (Float32Ops.sub half_height s.radius) Float32Ops.cmp_epsilon
  create_or_fail engine (.capsule (Float32Ops.add clamped_height p_extra_margin) s.radius)
    "Failed to build capsule shape. " world

/-- Transcription of `JoltCylinderShape3D::build`. -/
def JoltCylinderShape3D.build (s : JoltCylinderShape3D F H) (engine : Engine F H W)
    (p_extra_margin : F) (world : W) : BuildResult H W :=
  let half_height := Float32Ops.half s.height
  create_or_fail engine
    (.cylinder (Float32Ops.add half_height p_extra_margin)
      (Float32Ops.add s.radius p_extra_margin) s.margin)
    "Failed to build cylinder shape. " world

/-- The body of the loop of `JoltConvexPolygonShape3D::build` for one vertex. -/
def padded_vertex (engine : Engine F H W) (p_extra_margin : F) (vertex : Vector3 F) :
    Vector3 F :=
  if Float32Ops.lt Float32Ops.zero p_extra_margin then
    Vector3.add vertex (Vector3.scale (engine.normalized_or vertex Vector3.zero) p_extra_margin)
  else vertex

/-- Transcription of `JoltConvexPolygonShape3D::build`. Taking `&vertices[0]`
of an empty array is an index out of range. -/
def JoltConvexPolygonShape3D.build (s : JoltConvexPolygonShape3D F H) (engine : Engine F H W)
    (p_extra_margin : F) (world : W) : BuildResult H W :=
  if s.vertices.length = 0 then
    { shape := none, reports := [.crash "vertices[0]: index out of range"], world := world }
  else
    let jolt_vertices := s.vertices.map (padded_vertex engine p_extra_margin)
    create_or_fail engine (.convex_hull jolt_vertices s.margin)
      "Failed to build convex polygon shape. " world

/-- The loop of `JoltConcavePolygonShape3D::build`: `vertex` is the offset of
the pointer from `faces_begin`, advanced by 3 until it equals `faces_end`, the
offset `vertex_count` of the end pointer (an `int32_t`); a read outside
`faces` has no result. `fuel` bounds the number of iterations. -/
def concave_faces_loop (faces : List (Vector3 F)) (backface_collision : Bool)
    (faces_end : Int) : Nat → Nat → List (Triangle F) → Option (List (Triangle F))
  | fuel, vertex, jolt_faces =>
    if (vertex : Int) = faces_end then some jolt_faces
    else
      match fuel with
      | 0 => none
      | fuel1 + 1 =>
        match faces[vertex + 0]?, faces[vertex + 1]?, faces[vertex + 2]? with
        | some v0, some v1, some v2 =>
          let reversed := jolt_faces ++ [{ v1 := v2, v2 := v1, v3 := v0 }]
          let emitted :=
            if backface_collision then reversed ++ [{ v1 := v0, v2 := v1, v3 := v2 }]
            else reversed
          concave_faces_loop faces backface_collision faces_end fuel1 (vertex + 3) emitted
        | _, _, _ => none

/-- The reports at the head of the concave polygon and height map `build`:
a warning when `p_extra_margin > 0.0f`. -/
def extra_margin_warning (p_extra_margin : F) (message : String) : List Report :=
  if Float32Ops.lt Float32Ops.zero p_extra_margin then [.warning message] else []

/-- Transcription of `JoltConcavePolygonShape3D::build`; `vertex_count` is
`(int32_t)faces.size()`. Taking `&faces[0]` of an empty array is an index out
of range. The loop runs with as much fuel as there are vertices, which is
enough whenever it ends at all. -/
def JoltConcavePolygonShape3D.build (s : JoltConcavePolygonShape3D F H)
    (engine : Engine F H W) (p_extra_margin : F) (world : W) : BuildResult H W :=
  let warnings :=
    extra_margin_warning p_extra_margin
      "Concave polygon shapes with extra margin are not supported by Godot Jolt."
  let vertex_count := int32_of_size s.faces.length
  if s.faces.length = 0 then
    { shape := none
      reports := warnings ++ [.crash "faces[0]: index out of range"]
      world := world }
  else
  match concave_faces_loop s.faces s.backface_collision vertex_count s.faces.length 0 [] with
  | none =>
    { shape := none
      reports := warnings ++ [.crash "faces: read outside the array"]
      world := world }
  | some jolt_faces =>
    let created :=
      create_or_fail engine (.mesh jolt_faces) "Failed to build concave polygon shape. " world
    { created with reports := warnings ++ created.reports }

/-- Transcription of `JoltHeightMapShape3D::build`. -/
def JoltHeightMapShape3D.build (s : JoltHeightMapShape3D F H) (engine : Engine F H W)
    (p_extra_margin : F) (world : W) : BuildResult H W :=
  let warnings :=
    extra_margin_warning p_extra_margin
      "Height map shapes with extra margin are not supported by Godot Jolt."
  let width_tiles := int32_of (s.width - 1)
  let depth_tiles := int32_of (s.depth - 1)
  let half_width_tiles := Float32Ops.half (Float32Ops.of_int32 width_tiles)
  let half_depth_tiles := Float32Ops.half (Float32Ops.of_int32 depth_tiles)
  let created :=
    create_or_fail engine
      (.height_field s.heights
        { x := Float32Ops.neg half_width_tiles
          y := Float32Ops.zero
          z := Float32Ops.neg half_depth_tiles }
        { x := Float32Ops.one, y := Float32Ops.one, z := Float32Ops.one }
        (uint32_of s.width))
      "Failed to build height map shape. " world
  { created with reports := warnings ++ created.reports }

end builds

/-! ## Wrapping adapters -/

section adapters

variable {F H W : Type} [Float32Ops F]

/-- The value `Vector3(1.0f, 1.0f, 1.0f)`. -/
def Vector3.one : Vector3 F :=
  { x := Float32Ops.one, y := Float32Ops.one, z := Float32Ops.one }

/-- Component-wise difference of two vectors. -/
def Vector3.sub (a b : Vector3 F) : Vector3 F :=
  { x := Float32Ops.sub a.x b.x, y := Float32Ops.sub a.y b.y, z := Float32Ops.sub a.z b.z }

/-- The host comparison `operator!=` of `Vector3`: some component differs. -/
def Vector3.ne (a b : Vector3 F) : Bool := !Vector3.eq a b

/-- The value `Basis()`: the identity matrix. -/
def Basis.identity : Basis F :=
  { row0 := { x := Float32Ops.one, y := Float32Ops.zero, z := Float32Ops.zero }
    row1 := { x := Float32Ops.zero, y := Float32Ops.one, z := Float32Ops.zero }
    row2 := { x := Float32Ops.zero, y := Float32Ops.zero, z := Float32Ops.one } }

/-- The value `Transform3D()`: identity basis, zero origin. -/
def Transform3D.identity : Transform3D F :=
  { basis := Basis.identity, origin := Vector3.zero }

/-- The host comparison `operator!=` of `Transform3D`: the bases or the origins
differ in some component. -/
def Transform3D.ne (a b : Transform3D F) : Bool :=
  !(Vector3.eq a.basis.row0 b.basis.row0 && Vector3.eq a.basis.row1 b.basis.row1 &&
    Vector3.eq a.basis.row2 b.basis.row2) || Vector3.ne a.origin b.origin

/-- The outcome of `ERR_FAIL_NULL_D(p_shape)` on a null pointer: an error is
reported and the empty reference is returned; the engine is not involved. -/
def fail_null (world : W) : BuildResult H W :=
  { shape := none, reports := [.error "Parameter p_shape is null."], world := world }

/-- Transcription of `JoltShape3D::with_scale`; `p_shape` is a pointer, `none`
when null. -/
def with_scale (engine : Engine F H W) (p_shape : Option H) (p_scale : Vector3 F)
    (world : W) : BuildResult H W :=
  match p_shape with
  | none => fail_null world
  | some shape => create_or_fail engine (.scaled shape p_scale) "Failed to scale shape. " world

/-- Transcription of `JoltShape3D::with_basis_origin`. -/
def with_basis_origin (engine : Engine F H W) (p_shape : Option H) (p_basis : Basis F)
    (p_origin : Vector3 F) (world : W) : BuildResult H W :=
  match p_shape with
  | none => fail_null world
  | some shape =>
    create_or_fail engine (.rotated_translated p_origin p_basis shape)
      "Failed to offset shape. " world

/-- Transcription of `JoltShape3D::with_transform`: the scale step runs when
`p_scale != Vector3(1, 1, 1)`, then the rotate and translate step runs on its
result when `p_transform != Transform3D()`. -/
def with_transform (engine : Engine F H W) (p_shape : Option H) (p_transform : Transform3D F)
    (p_scale : Vector3 F) (world : W) : BuildResult H W :=
  match p_shape with
  | none => fail_null world
  | some shape =>
    let scaled : BuildResult H W :=
      if Vector3.ne p_scale Vector3.one then with_scale engine (some shape) p_scale world
      else { shape := some shape, reports := [], world := world }
    let moved : BuildResult H W :=
      if Transform3D.ne p_transform Transform3D.identity then
        with_basis_origin engine scaled.shape p_transform.basis p_transform.origin scaled.world
      else { shape := scaled.shape, reports := [], world := scaled.world }
    { shape := moved.shape, reports := scaled.reports ++ moved.reports, world := moved.world }

/-- Transcription of `JoltShape3D::with_center_of_mass_offset`. -/
def with_center_of_mass_offset (engine : Engine F H W) (p_shape : Option H)
    (p_offset : Vector3 F) (world : W) : BuildResult H W :=
  match p_shape with
  | none => fail_null world
  | some shape =>
    create_or_fail engine (.offset_center_of_mass p_offset shape)
      "Failed to offset center of mass. " world

/-- Transcription of `JoltShape3D::with_center_of_mass`. -/
def with_center_of_mass (engine : Engine F H W) (p_shape : Option H)
    (p_center_of_mass : Vector3 F) (world : W) : BuildResult H W :=
  match p_shape with
  | none => fail_null world
  | some shape =>
    let center_of_mass_inner := engine.center_of_mass shape
    let center_of_mass_offset := Vector3.sub p_center_of_mass center_of_mass_inner
    if Vector3.eq center_of_mass_offset Vector3.zero then
      { shape := some shape, reports := [], world := world }
    else with_center_of_mass_offset engine (some shape) center_of_mass_offset world

/-- Transcription of `JoltShape3D::with_user_data`: the settings are built from
the pointer as given and `Create()` is called; the function has no
`ERR_FAIL_NULL_D(p_shape)`. `p_user_data` is a `uint64_t`. -/
def with_user_data (engine : Engine F H W) (p_shape : Option H) (p_user_data : Nat)
    (world : W) : BuildResult H W :=
  create_or_fail engine (.override_user_data p_shape p_user_data)
    "Failed to override user data. " world

end adapters

/-! ## The polymorphic shape -/

/-- A shape of any of the nine concrete kinds: the object behind a
`JoltShape3D*`. -/
inductive Shape (F H : Type) where
  | world_boundary (s : JoltWorldBoundaryShape3D F H)
  | separation_ray (s : JoltSeparationRayShape3D F H)
  | sphere (s : JoltSphereShape3D F H)
  | box (s : JoltBoxShape3D F H)
  | capsule (s : JoltCapsuleShape3D F H)
  | cylinder (s : JoltCylinderShape3D F H)
  | convex_polygon (s : JoltConvexPolygonShape3D F H)
  | concave_polygon (s : JoltConcavePolygonShape3D F H)
  | height_map (s : JoltHeightMapShape3D F H)
deriving DecidableEq

/-- Lift a notification of a concrete kind to the polymorphic shape. -/
def Notification.lift {S T : Type} (f : S → T) (n : Notification S) : Notification T :=
  { owner := n.owner, p_lock := n.p_lock, observed := f n.observed }

/-- Lift the outcome of a method of a concrete kind to the polymorphic shape. -/
def Mutation.lift {S T : Type} (f : S → T) (m : Mutation S) : Mutation T :=
  { shape := f m.shape
    reports := m.reports
    rebuild_calls := m.rebuild_calls.map (Notification.lift f) }

section dispatch

variable {F H W : Type} [Float32Ops F]

/-- The base class part of a shape. -/
def Shape.base : Shape F H → JoltShape3D H
  | .world_boundary s => s.toJoltShape3D
  | .separation_ray s => s.toJoltShape3D
  | .sphere s => s.toJoltShape3D
  | .box s => s.toJoltShape3D
  | .capsule s => s.toJoltShape3D
  | .cylinder s => s.toJoltShape3D
  | .convex_polygon s => s.toJoltShape3D
  | .concave_polygon s => s.toJoltShape3D
  | .height_map s => s.toJoltShape3D

/-- Replace the base class part of a shape, keeping the fields of its kind. -/
def Shape.with_base (b : JoltShape3D H) : Shape F H → Shape F H
  | .world_boundary s => .world_boundary { s with toJoltShape3D := b }
  | .separation_ray s => .separation_ray { s with toJoltShape3D := b }
  | .sphere s => .sphere { s with toJoltShape3D := b }
  | .box s => .box { s with toJoltShape3D := b }
  | .capsule s => .capsule { s with toJoltShape3D := b }
  | .cylinder s => .cylinder { s with toJoltShape3D := b }
  | .convex_polygon s => .convex_polygon { s with toJoltShape3D := b }
  | .concave_polygon s => .concave_polygon { s with toJoltShape3D := b }
  | .height_map s => .height_map { s with toJoltShape3D := b }

/-- The cache slot `jolt_ref` of a shape. -/
def Shape.jolt_ref (s : Shape F H) : Option H := s.base.jolt_ref

/-- The owner map of a shape. -/
def Shape.ref_counts_by_owner (s : Shape F H) : OwnerMap := s.base.ref_counts_by_owner

/-- Assignment to the cache slot `jolt_ref`. -/
def Shape.with_jolt_ref (s : Shape F H) (r : Option H) : Shape F H :=
  s.with_base { s.base with jolt_ref := r }

/-- The method `add_owner` on a shape of any kind. -/
def Shape.add_owner (s : Shape F H) (p_owner : Owner) : Shape F H :=
  s.with_base (s.base.add_owner p_owner)

/-- The method `remove_owner` on a shape of any kind. -/
def Shape.remove_owner (s : Shape F H) (p_owner : Owner) : Shape F H :=
  s.with_base (s.base.remove_owner p_owner)

/-- Virtual `get_data`. -/
def Shape.get_data : Shape F H → Variant F
  | .world_boundary s => s.get_data
  | .separation_ray s => s.get_data
  | .sphere s => s.get_data
  | .box s => s.get_data
  | .capsule s => s.get_data
  | .cylinder s => s.get_data
  | .convex_polygon s => s.get_data
  | .concave_polygon s => s.get_data
  | .height_map s => s.get_data

/-- Virtual `clear`. -/
def Shape.clear : Shape F H → Shape F H
  | .world_boundary s => .world_boundary s.clear
  | .separation_ray s => .separation_ray s.clear
  | .sphere s => .sphere s.clear
  | .box s => .box s.clear
  | .capsule s => .capsule s.clear
  | .cylinder s => .cylinder s.clear
  | .convex_polygon s => .convex_polygon s.clear
  | .concave_polygon s => .concave_polygon s.clear
  | .height_map s => .height_map s.clear

/-- Virtual `set_data`. -/
def Shape.set_data (s : Shape F H) (p_data : Variant F) (p_lock : Bool) : Mutation (Shape F H) :=
  match s with
  | .world_boundary s => (s.set_data p_data p_lock).lift .world_boundary
  | .separation_ray s => (s.set_data p_data p_lock).lift .separation_ray
  | .sphere s => (s.set_data p_data p_lock).lift .sphere
  | .box s => (s.set_data p_data p_lock).lift .box
  | .capsule s => (s.set_data p_data p_lock).lift .capsule
  | .cylinder s => (s.set_data p_data p_lock).lift .cylinder
  | .convex_polygon s => (s.set_data p_data p_lock).lift .convex_polygon
  | .concave_polygon s => (s.set_data p_data p_lock).lift .concave_polygon
  | .height_map s => (s.set_data p_data p_lock).lift .height_map

/-- The method `set_margin` of the three kinds that define it in this source
file (box, cylinder, convex polygon); `none` for the other kinds. -/
def Shape.set_margin (s : Shape F H) (p_margin : F) (p_lock : Bool) :
    Option (Mutation (Shape F H)) :=
  match s with
  | .box s => some ((s.set_margin p_margin p_lock).lift .box)
  | .cylinder s => some ((s.set_margin p_margin p_lock).lift .cylinder)
  | .convex_polygon s => some ((s.set_margin p_margin p_lock).lift .convex_polygon)
  | _ => none

/-- Virtual `build`. -/
def Shape.build (s : Shape F H) (engine : Engine F H W) (p_extra_margin : F) (world : W) :
    BuildResult H W :=
  match s with
  | .world_boundary s => s.build engine p_extra_margin world
  | .separation_ray s => s.build engine p_extra_margin world
  | .sphere s => s.build engine p_extra_margin world
  | .box s => s.build engine p_extra_margin world
  | .capsule s => s.build engine p_extra_margin world
  | .cylinder s => s.build engine p_extra_margin world
  | .convex_polygon s => s.build engine p_extra_margin world
  | .concave_polygon s => s.build engine p_extra_margin world
  | .height_map s => s.build engine p_extra_margin world

/-- Result of `try_build`: the returned reference, the shape afterwards, the
arguments of the `build` calls made (in order), the reports and the state of
the engine afterwards. -/
structure TryBuild (F H W : Type) where
  result : Option H
  shape : Shape F H
  build_calls : List F
  reports : List Report
  world : W

/-- Transcription of `JoltShape3D::try_build`. The virtual `is_valid` is
defined per kind in the header and is a parameter here. -/
def Shape.try_build (is_valid : Shape F H → Bool) (engine : Engine F H W) (s : Shape F H)
    (p_extra_margin : F) (world : W) : TryBuild F H W :=
  if !is_valid s then
    { result := none, shape := s, build_calls := [], reports := [], world := world }
  else if Float32Ops.lt Float32Ops.zero p_extra_margin then
    let built := s.build engine p_extra_margin world
    { result := built.shape
      shape := s
      build_calls := [p_extra_margin]
      reports := built.reports
      world := built.world }
  else
    match s.jolt_ref with
    | none =>
      let built := s.build engine Float32Ops.zero world
      { result := built.shape
        shape := s.with_jolt_ref built.shape
        build_calls := [Float32Ops.zero]
        reports := built.reports
        world := built.world }
    | some cached =>
      { result := some cached, shape := s, build_calls := [], reports := [], world := world }

end dispatch

/-! ## Owner callbacks that act on the shape -/

/-- How an iteration over the live owner map ended: normally, with an
invalidated iterator (the entry it stood on was erased during the callback),
or not within the given number of steps. -/
inductive IterationEnd where
  | finished
  | invalidated
  | out_of_fuel
deriving DecidableEq, Repr

/-- Result of a notification round: how it ended, the shape afterwards and the
callbacks invoked, as pairs of owner and lock flag, in order. -/
structure Notified (S : Type) where
  outcome : IterationEnd
  shape : S
  calls : List (Owner × Bool)

/-- The step `++it` of an iterator that stands on the entry of `o` in the live
map: the key of the following entry, `some none` at the end, and `none` when
`o` has no entry any more. -/
def next_owner (m : OwnerMap) (o : Owner) : Option (Option Owner) :=
  match m with
  | [] => none
  | e :: rest => if e.1 = o then some (owners rest).head? else next_owner rest o

section callbacks

variable {F H W : Type} [Float32Ops F]

/-- Transcription of `JoltShape3D::remove_self`, with the effect of each
callback `owner->remove_shape(this, p_lock)` on this shape given by
`remove_shape`: the loop runs over the copy of the owner map taken on entry. -/
def Shape.remove_self (remove_shape : Owner → Bool → Shape F H → Shape F H)
    (s : Shape F H) (p_lock : Bool) : Shape F H × List (Owner × Bool) :=
  let ref_counts_by_owner_copy := s.ref_counts_by_owner
  ref_counts_by_owner_copy.foldl
    (fun state entry =>
      (remove_shape entry.1 p_lock state.1, state.2 ++ [(entry.1, p_lock)]))
    (s, [])

/-- The loop of `JoltShape3D::shape_changed` over the live owner map, with the
effect of each callback `owner->rebuild_shape(p_lock)` on this shape given by
`rebuild_shape`. `position` is the key the iterator stands on (`none` is
`end()`); after the callback the iterator steps within the map as it is
then. -/
def shape_changed_loop (rebuild_shape : Owner → Bool → Shape F H → Shape F H) (p_lock : Bool) :
    Nat → Option Owner → Shape F H → List (Owner × Bool) → Notified (Shape F H)
  | _, none, s, calls => { outcome := .finished, shape := s, calls := calls }
  | 0, some _, s, calls => { outcome := .out_of_fuel, shape := s, calls := calls }
  | fuel + 1, some o, s, calls =>
    let s1 := rebuild_shape o p_lock s
    match next_owner s1.ref_counts_by_owner o with
    | none => { outcome := .invalidated, shape := s1, calls := calls ++ [(o, p_lock)] }
    | some following =>
      shape_changed_loop rebuild_shape p_lock fuel following s1 (calls ++ [(o, p_lock)])

/-- Transcription of `JoltShape3D::shape_changed` for owners whose callback
acts on the shape: the range-for over `ref_counts_by_owner` itself, starting
at its first entry. -/
def Shape.shape_changed_live (rebuild_shape : Owner → Bool → Shape F H → Shape F H)
    (fuel : Nat) (s : Shape F H) (p_lock : Bool) : Notified (Shape F H) :=
  shape_changed_loop rebuild_shape p_lock fuel (owners s.ref_counts_by_owner).head? s []

/-- An owner callback that releases every reference of owner `victim` to the
shape when it runs for owner `trigger`, and does nothing for other owners. -/
def release_other (trigger victim : Owner) : Owner → Bool → Shape F H → Shape F H :=
  fun o _ s => if o = trigger then s.remove_owner victim else s

/-! ## States and inputs -/

/-- The states a shape goes through: created with an empty cache slot, then
any sequence of `set_data`, `set_margin`, `try_build`, `add_owner` and
`remove_owner` calls. -/
inductive Reachable (is_valid : Shape F H → Bool) (engine : Engine F H W) : Shape F H → Prop where
  | created (s : Shape F H) (h : s.jolt_ref = none) : Reachable is_valid engine s
  | set_data (s : Shape F H) (p_data : Variant F) (p_lock : Bool)
      (h : Reachable is_valid engine s) : Reachable is_valid engine (s.set_data p_data p_lock).shape
  | set_margin (s : Shape F H) (p_margin : F) (p_lock : Bool) (r : Mutation (Shape F H))
      (h : Reachable is_valid engine s) (hr : s.set_margin p_margin p_lock = some r) :
      Reachable is_valid engine r.shape
  | try_build (s : Shape F H) (p_extra_margin : F) (world : W)
      (h : Reachable is_valid engine s) :
      Reachable is_valid engine (s.try_build is_valid engine p_extra_margin world).shape
  | add_owner (s : Shape F H) (p_owner : Owner) (h : Reachable is_valid engine s) :
      Reachable is_valid engine (s.add_owner p_owner)
  | remove_owner (s : Shape F H) (p_owner : Owner) (h : Reachable is_valid engine s) :
      Reachable is_valid engine (s.remove_owner p_owner)

/-- The states in which the parameters were stored by `set_data` or
`set_margin`: the result of one of the two on any state, possibly followed by
calls that do not write parameters (`try_build`, `add_owner`,
`remove_owner`). -/
inductive Configured (is_valid : Shape F H → Bool) (engine : Engine F H W) : Shape F H → Prop where
  | set_data (s : Shape F H) (p_data : Variant F) (p_lock : Bool) :
      Configured is_valid engine (s.set_data p_data p_lock).shape
  | set_margin (s : Shape F H) (p_margin : F) (p_lock : Bool) (r : Mutation (Shape F H))
      (hr : s.set_margin p_margin p_lock = some r) : Configured is_valid engine r.shape
  | try_build (s : Shape F H) (p_extra_margin : F) (world : W)
      (h : Configured is_valid engine s) :
      Configured is_valid engine (s.try_build is_valid engine p_extra_margin world).shape
  | add_owner (s : Shape F H) (p_owner : Owner) (h : Configured is_valid engine s) :
      Configured is_valid engine (s.add_owner p_owner)
  | remove_owner (s : Shape F H) (p_owner : Owner) (h : Configured is_valid engine s) :
      Configured is_valid engine (s.remove_owner p_owner)

/-- The structural type that `set_data` expects, kind by kind, in the words of
the data model: a plane, a float, a vector, a vertex array, or a record with
the fields of the kind, each of its own type. -/
def Shape.well_typed : Shape F H → Variant F → Bool
  | .world_boundary _, .PLANE _ => true
  | .sphere _, .FLOAT _ => true
  | .box _, .VECTOR3 _ => true
  | .convex_polygon _, .PACKED_VECTOR3_ARRAY _ => true
  | .separation_ray _, .DICTIONARY data =>
    (match Dictionary.get data "length" with | .FLOAT _ => true | _ => false) &&
    (match Dictionary.get data "slide_on_slope" with | .BOOL _ => true | _ => false)
  | .capsule _, .DICTIONARY data =>
    (match Dictionary.get data "height" with | .FLOAT _ => true | _ => false) &&
    (match Dictionary.get data "radius" with | .FLOAT _ => true | _ => false)
  | .cylinder _, .DICTIONARY data =>
    (match Dictionary.get data "height" with | .FLOAT _ => true | _ => false) &&
    (match Dictionary.get data "radius" with | .FLOAT _ => true | _ => false)
  | .concave_polygon _, .DICTIONARY data =>
    (match Dictionary.get data "faces" with | .PACKED_VECTOR3_ARRAY _ => true | _ => false) &&
    (match Dictionary.get data "backface_collision" with | .BOOL _ => true | _ => false)
  | .height_map _, .DICTIONARY data =>
    (match Dictionary.get data "heights" with | .PACKED_FLOAT32_ARRAY _ => true | _ => false) &&
    (match Dictionary.get data "width" with | .INT _ => true | _ => false) &&
    (match Dictionary.get data "depth" with | .INT _ => true | _ => false)
  | _, _ => false

end callbacks

/-- The triangle list that the spec describes for a face list: for every
triple `v0, v1, v2` of consecutive vertices the triangle `(v2, v1, v0)`,
followed by `(v0, v1, v2)` when back faces collide. -/
def emitted_triangles {F : Type} (backface_collision : Bool) :
    List (Vector3 F) → List (Triangle F)
  | v0 :: v1 :: v2 :: rest =>
    { v1 := v2, v2 := v1, v3 := v0 } ::
      ((if backface_collision then [{ v1 := v0, v2 := v1, v3 := v2 }] else []) ++
        emitted_triangles backface_collision rest)
  | _ => []

/-! ## Settled parameters -/

section settled

variable {F H : Type} [Float32Ops F]

/-- The plane is the cleared default or passes the check of `initialize`. -/
def JoltWorldBoundaryShape3D.settled (k : JoltWorldBoundaryShape3D F H) : Prop :=
  k.plane = Plane.default ∨ Plane.eq k.plane Plane.default = false

/-- Length and flag are the cleared defaults or pass the check of
`initialize`. -/
def JoltSeparationRayShape3D.settled (k : JoltSeparationRayShape3D F H) : Prop :=
  (k.length = Float32Ops.zero ∧ k.slide_on_slope = false) ∨
  Float32Ops.eq k.length Float32Ops.zero = false

/-- The radius is the cleared default or passes the check of `initialize`. -/
def JoltSphereShape3D.settled (k : JoltSphereShape3D F H) : Prop :=
  k.radius = Float32Ops.zero ∨ Float32Ops.le k.radius Float32Ops.zero = false

/-- The half-extents are the cleared default or pass the check of
`initialize` against the stored margin. -/
def JoltBoxShape3D.settled (k : JoltBoxShape3D F H) : Prop :=
  k.half_extents = Vector3.zero ∨
  Float32Ops.le k.half_extents.shortest_axis k.margin = false

/-- Height and radius are the cleared defaults or pass the checks of
`initialize`. -/
def JoltCapsuleShape3D.settled (k : JoltCapsuleShape3D F H) : Prop :=
  (k.height = Float32Ops.zero ∧ k.radius = Float32Ops.zero) ∨
  (Float32Ops.le k.height Float32Ops.zero = false ∧
    Float32Ops.le k.radius Float32Ops.zero = false ∧
    Float32Ops.lt (Float32Ops.half k.height) k.radius = false)

/-- Height and radius are the cleared defaults or pass the check of
`initialize` against the stored margin. -/
def JoltCylinderShape3D.settled (k : JoltCylinderShape3D F H) : Prop :=
  (k.height = Float32Ops.zero ∧ k.radius = Float32Ops.zero) ∨
  (Float32Ops.lt k.height k.margin = false ∧ Float32Ops.lt k.radius k.margin = false)

/-- The vertex list is empty or has at least three vertices. -/
def JoltConvexPolygonShape3D.settled (k : JoltConvexPolygonShape3D F H) : Prop :=
  k.vertices = [] ∨ 3 ≤ k.vertices.length

/-- The face list is cleared or has a non-zero length divisible by 3. -/
def JoltConcavePolygonShape3D.settled (k : JoltConcavePolygonShape3D F H) : Prop :=
  (k.faces = [] ∧ k.backface_collision = false) ∨
  (k.faces.length ≠ 0 ∧ k.faces.length % 3 = 0)

/-- The checks that `JoltHeightMapShape3D::initialize` makes before it stores
its arguments. -/
def height_map_accepts (height_count : Nat) (p_width p_depth : Int) : Prop :=
  int32_of_size height_count ≠ 0 ∧ ¬ (p_width ≤ 2 ∨ p_depth ≤ 2) ∧
  int32_of_size height_count = int32_of (p_width * p_depth) ∧ p_width = p_depth ∧
  is_power_of_2 (uint32_of p_width) = true

/-- The height map is cleared, or its samples, width and depth pass the checks
of `initialize` and width and depth are 32-bit values. -/
def JoltHeightMapShape3D.settled (k : JoltHeightMapShape3D F H) : Prop :=
  (k.heights = [] ∧ k.width = 0 ∧ k.depth = 0) ∨
  (height_map_accepts k.heights.length k.width k.depth ∧
    int32_of k.width = k.width ∧ int32_of k.depth = k.depth)

/-- The parameters of a shape are settled: they are the cleared defaults of
its kind or they pass the checks of its `initialize`. -/
def Shape.settled : Shape F H → Prop
  | .world_boundary k => k.settled
  | .separation_ray k => k.settled
  | .sphere k => k.settled
  | .box k => k.settled
  | .capsule k => k.settled
  | .cylinder k => k.settled
  | .convex_polygon k => k.settled
  | .concave_polygon k => k.settled
  | .height_map k => k.settled

end settled

/-! ## Validity of the kinds with a margin -/

section validity

variable {F H : Type} [Float32Ops F]

/-- Modelled from the spec: `JoltBoxShape3D::is_valid`, defined in the header
outside the sources; the spec has a box invalid iff its shortest half-extent
is `<=` the margin. -/
def JoltBoxShape3D.is_valid (s : JoltBoxShape3D F H) : Bool :=
  !Float32Ops.le s.half_extents.shortest_axis s.margin

/-- Modelled from the spec: `JoltConvexPolygonShape3D::is_valid`, defined in
the header outside the sources; the spec has a convex polygon invalid iff its
vertex count is below 3. -/
def JoltConvexPolygonShape3D.is_valid (s : JoltConvexPolygonShape3D F H) : Bool :=
  !decide (s.vertices.length < 3)

end validity

/-! ## Sequences of `set_data` calls on a height map -/

/-- The state of a height map after a sequence of `set_data` calls, each given
by its argument and the lock flag of its notification. -/
def JoltHeightMapShape3D.after_set_data {F H : Type} (s : JoltHeightMapShape3D F H)
    (calls : List (Variant F × Bool)) : JoltHeightMapShape3D F H :=
  calls.foldl (fun t call => (t.set_data call.1 call.2).shape) s

/-- The sample array that a record holds under `heights`, if it holds one, has
fewer than `2^32` elements. -/
def heights_fit {F : Type} (p_data : Variant F) : Prop :=
  ∀ (data : Dictionary F) (heights : List F), p_data = Variant.DICTIONARY data →
    Dictionary.get data "heights" = Variant.PACKED_FLOAT32_ARRAY heights →
    heights.length < 4294967296

/-! ## Concrete instances used to evaluate the definitions -/

/-- A native engine for evaluation: handles are serial numbers, the state of
the engine is the next free number, every request is accepted. -/
def counting_engine (F : Type) [Float32Ops F] : Engine F Nat Nat :=
  { create := fun _ next => (.ok next, next + 1)
    normalized_or := fun v _ => v
    center_of_mass := fun _ => Vector3.zero }

/-- A native engine that rejects every request. -/
def rejecting_engine (F : Type) [Float32Ops F] : Engine F Nat Nat :=
  { create := fun _ next => (.error "rejected", next)
    normalized_or := fun v _ => v
    center_of_mass := fun _ => Vector3.zero }

/-- An `is_valid` for evaluation: every shape is valid. -/
def always_valid {F H : Type} : Shape F H → Bool := fun _ => true

/-- A valid capsule with a filled cache slot, owned by owner 1 (two
references) and owner 4. -/
def sample_capsule : Shape ℚ Nat :=
  .capsule { jolt_ref := some 3, ref_counts_by_owner := [(1, 2), (4, 1)], height := 10, radius := 3 }

/-- A sphere with an empty cache slot, owned by the owners 1 and 2. -/
def sample_sphere : Shape ℚ Nat :=
  .sphere { jolt_ref := none, ref_counts_by_owner := [(1, 1), (2, 1)], radius := 5 }

/-- A valid separation ray with a filled cache slot and one owner. -/
def sample_ray : Shape ℚ Nat :=
  .separation_ray { jolt_ref := some 9, ref_counts_by_owner := [(1, 1)], length := 2, slide_on_slope := true }

/-- A record for a separation ray with a float `length` and an integer where
the boolean `slide_on_slope` is expected. -/
def sample_ray_record : Variant ℚ :=
  .DICTIONARY [("length", .FLOAT 4), ("slide_on_slope", .INT 1)]

/-- A height map with a 4 by 4 grid of zero samples, an empty cache slot and
one owner. -/
def sample_height_map : JoltHeightMapShape3D ℚ Nat :=
  { jolt_ref := none, ref_counts_by_owner := [(1, 1)], heights := List.replicate 16 0, width := 4, depth := 4 }

/-- The fields of a capsule of height 1 and radius 1/4 with a filled cache
slot. -/
def sample_capsule_fields : JoltCapsuleShape3D ℚ Nat :=
  { jolt_ref := some 3, ref_counts_by_owner := [(1, 1)], height := 1, radius := 1 / 4 }

/-- The three corners of a triangle in the plane z = 0. -/
def sample_corners : List (Vector3 ℚ) :=
  [{ x := 0, y := 0, z := 0 }, { x := 1, y := 0, z := 0 }, { x := 0, y := 1, z := 0 }]

/-- The fields of a concave polygon that stores one triangle. -/
def sample_concave_polygon : JoltConcavePolygonShape3D ℚ Nat :=
  { jolt_ref := none, ref_counts_by_owner := [(1, 1)], faces := sample_corners, backface_collision := false }

/-- The fields of a concave polygon that stores three triangles (nine
vertices), with the given backface flag. -/
def sample_nine_vertices (backface_collision : Bool) : JoltConcavePolygonShape3D ℚ Nat :=
  { jolt_ref := none, ref_counts_by_owner := [], faces := sample_corners ++ sample_corners ++ sample_corners, backface_collision := backface_collision }

/-- The scale `(2, 2, 2)`. -/
def sample_scale : Vector3 ℚ := { x := 2, y := 2, z := 2 }

/-- A translation by `(0, 1, 0)` without rotation. -/
def sample_translation : Transform3D ℚ :=
  { basis := Basis.identity, origin := { x := 0, y := 1, z := 0 } }

/-- A boundary plane through the origin with normal `(0, 1, 0)`, an empty
cache slot and one owner. -/
def sample_world_boundary : JoltWorldBoundaryShape3D ℚ Nat :=
  { jolt_ref := none, ref_counts_by_owner := [(1, 1)], plane := { normal := { x := 0, y := 1, z := 0 }, d := 0 } }

/-- A record for a height map with the given width and depth and `count`
samples, all zero. -/
def sample_height_record (width depth : Int) (count : Nat) : Variant ℚ :=
  .DICTIONARY [("width", .INT width), ("depth", .INT depth), ("heights", .PACKED_FLOAT32_ARRAY (List.replicate count 0))]

/-- A valid box with half extents `(1, 2, 3)`, margin 1/20 and a filled cache
slot. -/
def sample_box : JoltBoxShape3D ℚ Nat :=
  { jolt_ref := some 3, ref_counts_by_owner := [(1, 1)], half_extents := { x := 1, y := 2, z := 3 }, margin := 1 / 20 }

/-- A valid cylinder of height 2 and radius 1 with margin 1/20 and a filled
cache slot. -/
def sample_cylinder : JoltCylinderShape3D ℚ Nat :=
  { jolt_ref := some 4, ref_counts_by_owner := [(1, 1)], height := 2, radius := 1, margin := 1 / 20 }

/-- A valid convex polygon with three vertices, margin 1/20 and a filled cache
slot. -/
def sample_convex_polygon : JoltConvexPolygonShape3D ℚ Nat :=
  { jolt_ref := some 5, ref_counts_by_owner := [(1, 1)], vertices := sample_corners, margin := 1 / 20 }

/-- A record for a concave polygon with nine vertices (three triangles) and
backface collision. -/
def sample_nine_record : Variant ℚ :=
  .DICTIONARY [("faces", .PACKED_VECTOR3_ARRAY (sample_corners ++ sample_corners ++ sample_corners)), ("backface_collision", .BOOL true)]

/-! # Theorems -/

/-! ### Lemmas on the map primitives -/

theorem ref_count_subscript_self (m : OwnerMap) (o : Owner) :
    ref_count (subscript m o) o = some ((ref_count m o).getD 0) := by
  induction m with
  | nil => simp [subscript, ref_count]
  | cons e rest ih =>
    by_cases h : e.1 = o
    · simp [subscript, ref_count, h]
    · simp [subscript, ref_count, h, ih]

theorem ref_count_subscript_other (m : OwnerMap) (o b : Owner) (hb : b ≠ o) :
    ref_count (subscript m o) b = ref_count m b := by
  induction m with
  | nil => simp [subscript, ref_count, Ne.symm hb]
  | cons e rest ih =>
    by_cases h : e.1 = o
    · simp [subscript, h]
    · simp [subscript, ref_count, h, ih]

theorem ref_count_update_self (m : OwnerMap) (o : Owner) (f : Int → Int) :
    ref_count (update m o f) o = (ref_count m o).map f := by
  induction m with
  | nil => simp [update, ref_count]
  | cons e rest ih =>
    by_cases h : e.1 = o
    · simp [update, ref_count, h]
    · simp [update, ref_count, h, ih]

theorem ref_count_update_other (m : OwnerMap) (o b : Owner) (f : Int → Int)
    (hb : b ≠ o) : ref_count (update m o f) b = ref_count m b := by
  induction m with
  | nil => simp [update, ref_count]
  | cons e rest ih =>
    by_cases h : e.1 = o
    · have hne : ¬ o = b := fun hh => hb hh.symm
      simp [update, ref_count, h, hne]
    · by_cases h2 : e.1 = b
      · have h3 : ¬ b = o := hb
        simp [update, ref_count, h2, h3]
      · simp [update, ref_count, h, h2, ih]

theorem ref_count_erase_other (m : OwnerMap) (o b : Owner) (hb : b ≠ o) :
    ref_count (erase m o) b = ref_count m b := by
  induction m with
  | nil => simp [erase, ref_count]
  | cons e rest ih =>
    by_cases h : e.1 = o
    · have hne : ¬ o = b := fun hh => hb hh.symm
      simp [erase, ref_count, h, hne]
    · by_cases h2 : e.1 = b
      · have h3 : ¬ b = o := hb
        simp [erase, ref_count, h2, h3]
      · simp [erase, ref_count, h, h2, ih]

theorem ref_count_none_iff (m : OwnerMap) (o : Owner) :
    ref_count m o = none ↔ o ∉ owners m := by
  induction m with
  | nil => simp [ref_count, owners]
  | cons e rest ih =>
    by_cases h : e.1 = o
    · simp [ref_count, owners, h]
    · have hne : ¬ o = e.1 := fun hh => h hh.symm
      simp only [ref_count, h, if_false, ih]
      simp [owners, hne]

theorem ref_count_erase_self (m : OwnerMap) (o : Owner) (hm : unique_keys m) :
    ref_count (erase m o) o = none := by
  induction m with
  | nil => simp [erase, ref_count]
  | cons e rest ih =>
    have hm2 : (e.1 :: owners rest).Nodup := hm
    rw [List.nodup_cons] at hm2
    by_cases h : e.1 = o
    · simp only [erase, h, if_true]
      rw [ref_count_none_iff]
      rw [← h]; exact hm2.1
    · simp [erase, ref_count, h, ih hm2.2]

theorem subscript_absent (m : OwnerMap) (o : Owner) (h : ref_count m o = none) :
    subscript m o = m ++ [(o, 0)] := by
  induction m with
  | nil => simp [subscript]
  | cons e rest ih =>
    by_cases h1 : e.1 = o
    · simp [ref_count, h1] at h
    · simp only [ref_count, h1, if_false] at h
      simp [subscript, h1, ih h]

theorem subscript_last (m : OwnerMap) (o : Owner) (c : Int) (h : ref_count m o = none) :
    subscript (m ++ [(o, c)]) o = m ++ [(o, c)] := by
  induction m with
  | nil => simp [subscript]
  | cons e rest ih =>
    by_cases h1 : e.1 = o
    · simp [ref_count, h1] at h
    · simp only [ref_count, h1, if_false] at h
      simp [subscript, h1, ih h]

theorem update_last (m : OwnerMap) (o : Owner) (c : Int) (f : Int → Int)
    (h : ref_count m o = none) : update (m ++ [(o, c)]) o f = m ++ [(o, f c)] := by
  induction m with
  | nil => simp [update]
  | cons e rest ih =>
    by_cases h1 : e.1 = o
    · simp [ref_count, h1] at h
    · simp only [ref_count, h1, if_false] at h
      simp [update, h1, ih h]

theorem erase_last (m : OwnerMap) (o : Owner) (c : Int) (h : ref_count m o = none) :
    erase (m ++ [(o, c)]) o = m := by
  induction m with
  | nil => simp [erase]
  | cons e rest ih =>
    by_cases h1 : e.1 = o
    · simp [ref_count, h1] at h
    · simp only [ref_count, h1, if_false] at h
      simp [erase, h1, ih h]

theorem ref_count_last (m : OwnerMap) (o : Owner) (c : Int) (h : ref_count m o = none) :
    ref_count (m ++ [(o, c)]) o = some c := by
  induction m with
  | nil => simp [ref_count]
  | cons e rest ih =>
    by_cases h1 : e.1 = o
    · simp [ref_count, h1] at h
    · simp only [ref_count, h1, if_false] at h
      simp [ref_count, h1, ih h]

theorem add_owner_map_absent (m : OwnerMap) (o : Owner) (h : ref_count m o = none) :
    add_owner_map m o = m ++ [(o, 1)] := by
  simp [add_owner_map, subscript_absent m o h, update_last m o 0 _ h]

theorem add_owner_map_last (m : OwnerMap) (o : Owner) (c : Int) (h : ref_count m o = none) :
    add_owner_map (m ++ [(o, c)]) o = m ++ [(o, c + 1)] := by
  simp [add_owner_map, subscript_last m o c h, update_last m o c _ h]

theorem remove_owner_map_absent (m : OwnerMap) (o : Owner) (h : ref_count m o = none) :
    remove_owner_map m o = m := by
  simp [remove_owner_map, subscript_absent m o h, update_last m o 0 _ h,
    ref_count_last m o _ h, erase_last m o _ h]

theorem remove_owner_map_last (m : OwnerMap) (o : Owner) (c : Int)
    (h : ref_count m o = none) :
    remove_owner_map (m ++ [(o, c)]) o = if c - 1 ≤ 0 then m else m ++ [(o, c - 1)] := by
  simp only [remove_owner_map, subscript_last m o c h, update_last m o c _ h,
    ref_count_last m o _ h, Option.getD_some]
  split
  · exact erase_last m o _ h
  · rfl

theorem add_owner_iterate (H : Type) (s : JoltShape3D H) (o : Owner) (n : Nat)
    (h : ref_count s.ref_counts_by_owner o = none) :
    ((fun t : JoltShape3D H => t.add_owner o)^[n + 1] s).ref_counts_by_owner =
      s.ref_counts_by_owner ++ [(o, (n : Int) + 1)] := by
  induction n with
  | zero =>
    simp [JoltShape3D.add_owner, add_owner_map_absent _ o h]
  | succ k ih =>
    rw [Function.iterate_succ_apply', JoltShape3D.add_owner]
    simp only [ih]
    rw [add_owner_map_last _ o _ h]
    push_cast
    rfl

theorem remove_owner_iterate (H : Type) (s : JoltShape3D H) (m : OwnerMap) (o : Owner)
    (c : Int) (k : Nat) (h : ref_count m o = none) (hs : s.ref_counts_by_owner = m ++ [(o, c)])
    (hk : (k : Int) < c) :
    ((fun t : JoltShape3D H => t.remove_owner o)^[k] s).ref_counts_by_owner =
      m ++ [(o, c - k)] := by
  induction k with
  | zero => simp [hs]
  | succ j ih =>
    have hj : (j : Int) < c := by push_cast at hk; omega
    rw [Function.iterate_succ_apply', JoltShape3D.remove_owner]
    simp only [ih hj]
    rw [remove_owner_map_last _ o _ h]
    have : ¬ (c - (j : Int) - 1 ≤ 0) := by push_cast at hk; omega
    simp only [this, if_false]
    push_cast
    congr 2
    simp only [Prod.mk.injEq, true_and]
    omega

/-- C1. For every shape, every owner `A` that the shape does not have and every
`n >= 1`: after `n` calls of `add_owner(A)` the owner map holds `A` with count
`n`; after `k < n` further calls of `remove_owner(A)` it holds `A` with count
`n - k`; after exactly `n` calls of `remove_owner(A)` the entry of `A` is gone
(the map is the original one again). No call of `add_owner(A)` or
`remove_owner(A)`, on any shape, changes the count of another owner `B`. -/
theorem add_owner_remove_owner_counts (H : Type) (s : JoltShape3D H) (A : Owner) (n : Nat)
    (hA : ref_count s.ref_counts_by_owner A = none) (hn : 1 ≤ n) :
    ref_count ((fun t : JoltShape3D H => t.add_owner A)^[n] s).ref_counts_by_owner A
        = some (n : Int) ∧
    (∀ k : Nat, k < n →
      ref_count ((fun t : JoltShape3D H => t.remove_owner A)^[k]
          ((fun t : JoltShape3D H => t.add_owner A)^[n] s)).ref_counts_by_owner A
        = some ((n : Int) - k)) ∧
    ref_count ((fun t : JoltShape3D H => t.remove_owner A)^[n]
        ((fun t : JoltShape3D H => t.add_owner A)^[n] s)).ref_counts_by_owner A = none ∧
    ((fun t : JoltShape3D H => t.remove_owner A)^[n]
        ((fun t : JoltShape3D H => t.add_owner A)^[n] s)).ref_counts_by_owner
      = s.ref_counts_by_owner ∧
    (∀ (t : JoltShape3D H) (B : Owner), B ≠ A →
      ref_count (t.add_owner A).ref_counts_by_owner B = ref_count t.ref_counts_by_owner B ∧
      ref_count (t.remove_owner A).ref_counts_by_owner B = ref_count t.ref_counts_by_owner B) := by
  obtain ⟨j, rfl⟩ : ∃ j, n = j + 1 := ⟨n - 1, by omega⟩
  have hadd := add_owner_iterate H s A j hA
  have hrem : ∀ k : Nat, k < j + 1 →
      ((fun t : JoltShape3D H => t.remove_owner A)^[k]
        ((fun t : JoltShape3D H => t.add_owner A)^[j + 1] s)).ref_counts_by_owner
        = s.ref_counts_by_owner ++ [(A, ((j : Int) + 1) - k)] := by
    intro k hk
    exact remove_owner_iterate H _ _ A _ k hA hadd (by omega)
  have hlast : ((fun t : JoltShape3D H => t.remove_owner A)^[j + 1]
        ((fun t : JoltShape3D H => t.add_owner A)^[j + 1] s)).ref_counts_by_owner
        = s.ref_counts_by_owner := by
    rw [Function.iterate_succ_apply', JoltShape3D.remove_owner]
    simp only [hrem j (by omega)]
    rw [remove_owner_map_last _ A _ hA]
    simp
  refine ⟨?_, ?_, ?_, hlast, ?_⟩
  · rw [hadd, ref_count_last _ A _ hA]; push_cast; rfl
  · intro k hk
    rw [hrem k hk, ref_count_last _ A _ hA]; push_cast; rfl
  · rw [hlast]; exact hA
  · intro t B hB
    constructor
    · simp only [JoltShape3D.add_owner, add_owner_map]
      rw [ref_count_update_other _ A B _ hB, ref_count_subscript_other _ A B hB]
    · simp only [JoltShape3D.remove_owner, remove_owner_map]
      split
      · rw [ref_count_erase_other _ A B hB, ref_count_update_other _ A B _ hB,
          ref_count_subscript_other _ A B hB]
      · rw [ref_count_update_other _ A B _ hB, ref_count_subscript_other _ A B hB]

/-- Witness for C1: a shape owned twice by owner 5; owner 7 is added twice and
removed once, which leaves it with count 1, and removed once more, which
removes its entry. -/
theorem add_owner_remove_owner_counts_witness :
    ref_count ({ jolt_ref := none, ref_counts_by_owner := [(5, 2)] } :
      JoltShape3D Nat).ref_counts_by_owner 7 = none ∧
    1 ≤ 2 ∧
    ref_count (((({ jolt_ref := none, ref_counts_by_owner := [(5, 2)] } :
      JoltShape3D Nat).add_owner 7).add_owner 7).remove_owner 7).ref_counts_by_owner 7
        = some 1 ∧
    ref_count ((((({ jolt_ref := none, ref_counts_by_owner := [(5, 2)] } :
      JoltShape3D Nat).add_owner 7).add_owner 7).remove_owner 7).remove_owner
        7).ref_counts_by_owner 7 = none :=
  ⟨by decide, by decide,
    (add_owner_remove_owner_counts Nat { jolt_ref := none, ref_counts_by_owner := [(5, 2)] } 7 2
      (by decide) (by decide)).2.1 1 (by decide),
    (add_owner_remove_owner_counts Nat { jolt_ref := none, ref_counts_by_owner := [(5, 2)] } 7 2
      (by decide) (by decide)).2.2.1⟩

theorem owners_update (m : OwnerMap) (o : Owner) (f : Int → Int) :
    owners (update m o f) = owners m := by
  induction m with
  | nil => simp [update, owners]
  | cons e rest ih =>
    by_cases h : e.1 = o
    · simp [update, owners, h]
    · simp only [update, h, if_false]
      simpa [owners] using ih

theorem unique_keys_subscript (m : OwnerMap) (o : Owner) (hm : unique_keys m) :
    unique_keys (subscript m o) := by
  by_cases h : ref_count m o = none
  · rw [subscript_absent m o h]
    have h2 : o ∉ owners m := (ref_count_none_iff m o).1 h
    unfold unique_keys owners at *
    rw [List.map_append, List.nodup_append]
    refine ⟨hm, by simp, ?_⟩
    intro a ha hb
    simp at hb
    simp only [List.mem_map] at ha h2
    exact h2 (hb ▸ ha)
  · have : subscript m o = m := by
      clear hm
      induction m with
      | nil => simp [ref_count] at h
      | cons e rest ih =>
        by_cases h1 : e.1 = o
        · simp [subscript, h1]
        · simp only [ref_count, h1, if_false] at h
          simp [subscript, h1, ih h]
    rw [this]; exact hm

theorem unique_keys_erase (m : OwnerMap) (o : Owner) (hm : unique_keys m) :
    unique_keys (erase m o) := by
  induction m with
  | nil => simpa [erase] using hm
  | cons e rest ih =>
    have hm2 : (e.1 :: owners rest).Nodup := hm
    rw [List.nodup_cons] at hm2
    by_cases h : e.1 = o
    · simp only [erase, h, if_true]; exact hm2.2
    · simp only [erase, h, if_false]
      show (e.1 :: owners (erase rest o)).Nodup
      rw [List.nodup_cons]
      refine ⟨?_, ih hm2.2⟩
      intro hmem
      apply hm2.1
      have hne : e.1 ≠ o := h
      have h3 : ref_count (erase rest o) e.1 ≠ none := by
        rw [Ne, ref_count_none_iff]; exact fun hh => hh hmem
      rw [ref_count_erase_other rest o e.1 hne] at h3
      by_contra hcon
      exact h3 ((ref_count_none_iff rest e.1).2 hcon)

/-- The invariant of the owner map: one entry per key and every stored count
strictly positive. -/
theorem owner_map_invariant_add (m : OwnerMap) (o : Owner)
    (hm : unique_keys m ∧ ∀ b c, ref_count m b = some c → 0 < c) :
    unique_keys (add_owner_map m o) ∧
      ∀ b c, ref_count (add_owner_map m o) b = some c → 0 < c := by
  obtain ⟨hu, hp⟩ := hm
  refine ⟨?_, ?_⟩
  · unfold add_owner_map unique_keys
    rw [owners_update]
    exact unique_keys_subscript m o hu
  · intro b c hc
    by_cases hb : b = o
    · subst hb
      simp only [add_owner_map, ref_count_update_self, ref_count_subscript_self,
        Option.map_some', Option.some.injEq] at hc
      cases hr : ref_count m b with
      | none => simp [hr] at hc; omega
      | some d =>
        have := hp b d hr
        simp [hr] at hc; omega
    · simp only [add_owner_map] at hc
      rw [ref_count_update_other _ o b _ hb, ref_count_subscript_other _ o b hb] at hc
      exact hp b c hc

theorem owner_map_invariant_remove (m : OwnerMap) (o : Owner)
    (hm : unique_keys m ∧ ∀ b c, ref_count m b = some c → 0 < c) :
    unique_keys (remove_owner_map m o) ∧
      ∀ b c, ref_count (remove_owner_map m o) b = some c → 0 < c := by
  obtain ⟨hu, hp⟩ := hm
  have hu2 : unique_keys (update (subscript m o) o (fun c => c - 1)) := by
    unfold unique_keys
    rw [owners_update]
    exact unique_keys_subscript m o hu
  refine ⟨?_, ?_⟩
  · unfold remove_owner_map
    simp only
    split
    · exact unique_keys_erase _ o hu2
    · exact hu2
  · intro b c hc
    by_cases hb : b = o
    · subst hb
      unfold remove_owner_map at hc
      simp only at hc
      split at hc
      · rw [ref_count_erase_self _ b hu2] at hc
        cases hc
      · rename_i hgt
        rw [hc] at hgt
        simp at hgt
        exact hgt
    · unfold remove_owner_map at hc
      simp only at hc
      split at hc
      · rw [ref_count_erase_other _ o b hb, ref_count_update_other _ o b _ hb,
          ref_count_subscript_other _ o b hb] at hc
        exact hp b c hc
      · rw [ref_count_update_other _ o b _ hb, ref_count_subscript_other _ o b hb] at hc
        exact hp b c hc

theorem ref_count_of_mem (m : OwnerMap) (e : Owner × Int) (hm : unique_keys m) (he : e ∈ m) :
    ref_count m e.1 = some e.2 := by
  induction m with
  | nil => cases he
  | cons a rest ih =>
    have hm2 : (a.1 :: owners rest).Nodup := hm
    rw [List.nodup_cons] at hm2
    rcases List.mem_cons.1 he with h | h
    · subst h; simp [ref_count]
    · have hne : a.1 ≠ e.1 := by
        intro hh
        apply hm2.1
        rw [hh]
        exact List.mem_map.2 ⟨e, h, rfl⟩
      simp only [ref_count, hne, if_false]
      exact ih hm2.2 h

theorem owner_map_invariant_perform_all (H : Type) (s : JoltShape3D H) (calls : List OwnerCall)
    (hm : unique_keys s.ref_counts_by_owner ∧
      ∀ b c, ref_count s.ref_counts_by_owner b = some c → 0 < c) :
    unique_keys (s.perform_all calls).ref_counts_by_owner ∧
      ∀ b c, ref_count (s.perform_all calls).ref_counts_by_owner b = some c → 0 < c := by
  induction calls generalizing s with
  | nil => exact hm
  | cons call rest ih =>
    simp only [JoltShape3D.perform_all, List.foldl_cons]
    apply ih
    cases call with
    | add o => exact owner_map_invariant_add _ o hm
    | remove o => exact owner_map_invariant_remove _ o hm

theorem ref_count_remove_owner_map_self (m : OwnerMap) (o : Owner) (hm : unique_keys m) :
    ref_count (remove_owner_map m o) o =
      if (ref_count m o).getD 0 - 1 ≤ 0 then none else some ((ref_count m o).getD 0 - 1) := by
  have hu2 : unique_keys (update (subscript m o) o (fun c => c - 1)) := by
    unfold unique_keys
    rw [owners_update]
    exact unique_keys_subscript m o hm
  have hval : ref_count (update (subscript m o) o (fun c => c - 1)) o
      = some ((ref_count m o).getD 0 - 1) := by
    rw [ref_count_update_self, ref_count_subscript_self]; rfl
  unfold remove_owner_map
  simp only [hval, Option.getD_some]
  split
  · exact ref_count_erase_self _ o hu2
  · exact hval

/-- C2. Starting from the empty owner map, after every finite sequence of
`add_owner` and `remove_owner` calls (also `remove_owner` calls for owners
that have no entry): every entry of the map has a strictly positive count and
no key has two entries; `remove_owner` of an owner without entry leaves the
shape exactly as it was; and `remove_owner` of an owner with count `c` erases
the entry when `c` is 1 and leaves the count `c - 1` otherwise. -/
theorem owner_counts_stay_positive (H : Type) (jolt_ref : Option H) (calls : List OwnerCall) :
    (∀ e ∈ (JoltShape3D.perform_all { jolt_ref := jolt_ref, ref_counts_by_owner := [] }
        calls).ref_counts_by_owner, 0 < e.2) ∧
    unique_keys (JoltShape3D.perform_all { jolt_ref := jolt_ref, ref_counts_by_owner := [] }
        calls).ref_counts_by_owner ∧
    (∀ o : Owner,
      ref_count (JoltShape3D.perform_all { jolt_ref := jolt_ref, ref_counts_by_owner := [] }
        calls).ref_counts_by_owner o = none →
      (JoltShape3D.perform_all { jolt_ref := jolt_ref, ref_counts_by_owner := [] }
        calls).remove_owner o
        = JoltShape3D.perform_all { jolt_ref := jolt_ref, ref_counts_by_owner := [] } calls) ∧
    (∀ (o : Owner) (c : Int),
      ref_count (JoltShape3D.perform_all { jolt_ref := jolt_ref, ref_counts_by_owner := [] }
        calls).ref_counts_by_owner o = some c →
      ref_count ((JoltShape3D.perform_all { jolt_ref := jolt_ref, ref_counts_by_owner := [] }
        calls).remove_owner o).ref_counts_by_owner o
        = if c = 1 then none else some (c - 1)) := by
  have hinv := owner_map_invariant_perform_all H
    { jolt_ref := jolt_ref, ref_counts_by_owner := [] } calls
    ⟨by simp [unique_keys, owners], by intro b c h; simp [ref_count] at h⟩
  obtain ⟨hu, hp⟩ := hinv
  refine ⟨?_, hu, ?_, ?_⟩
  · intro e he
    exact hp e.1 e.2 (ref_count_of_mem _ e hu he)
  · intro o ho
    simp only [JoltShape3D.remove_owner, remove_owner_map_absent _ o ho]
  · intro o c hc
    have hpos := hp o c hc
    simp only [JoltShape3D.remove_owner]
    rw [ref_count_remove_owner_map_self _ o hu, hc]
    simp only [Option.getD_some]
    by_cases h1 : c = 1
    · simp [h1]
    · have : ¬ (c - 1 ≤ 0) := by omega
      simp [h1, this]

/-! ## The base class part after `set_data` and `set_margin` -/

section base_after

variable {F H : Type} [Float32Ops F]

theorem world_boundary_set_data_body_base (s : JoltWorldBoundaryShape3D F H) (p_data : Variant F) :
    (s.set_data_body p_data).1.toJoltShape3D =
      { jolt_ref := none, ref_counts_by_owner := s.ref_counts_by_owner } := by
  unfold JoltWorldBoundaryShape3D.set_data_body JoltWorldBoundaryShape3D.initialize JoltWorldBoundaryShape3D.clear
  dsimp only
  repeat' split
  all_goals rfl

theorem separation_ray_set_data_body_base (s : JoltSeparationRayShape3D F H) (p_data : Variant F) :
    (s.set_data_body p_data).1.toJoltShape3D =
      { jolt_ref := none, ref_counts_by_owner := s.ref_counts_by_owner } := by
  unfold JoltSeparationRayShape3D.set_data_body JoltSeparationRayShape3D.initialize JoltSeparationRayShape3D.clear
  dsimp only
  repeat' split
  all_goals rfl

theorem sphere_set_data_body_base (s : JoltSphereShape3D F H) (p_data : Variant F) :
    (s.set_data_body p_data).1.toJoltShape3D =
      { jolt_ref := none, ref_counts_by_owner := s.ref_counts_by_owner } := by
  unfold JoltSphereShape3D.set_data_body JoltSphereShape3D.initialize JoltSphereShape3D.clear
  dsimp only
  repeat' split
  all_goals rfl

theorem box_set_data_body_base (s : JoltBoxShape3D F H) (p_data : Variant F) :
    (s.set_data_body p_data).1.toJoltShape3D =
      { jolt_ref := none, ref_counts_by_owner := s.ref_counts_by_owner } := by
  unfold JoltBoxShape3D.set_data_body JoltBoxShape3D.initialize JoltBoxShape3D.clear
  dsimp only
  repeat' split
  all_goals rfl

theorem capsule_set_data_body_base (s : JoltCapsuleShape3D F H) (p_data : Variant F) :
    (s.set_data_body p_data).1.toJoltShape3D =
      { jolt_ref := none, ref_counts_by_owner := s.ref_counts_by_owner } := by
  unfold JoltCapsuleShape3D.set_data_body JoltCapsuleShape3D.initialize JoltCapsuleShape3D.clear
  dsimp only
  repeat' split
  all_goals rfl

theorem cylinder_set_data_body_base (s : JoltCylinderShape3D F H) (p_data : Variant F) :
    (s.set_data_body p_data).1.toJoltShape3D =
      { jolt_ref := none, ref_counts_by_owner := s.ref_counts_by_owner } := by
  unfold JoltCylinderShape3D.set_data_body JoltCylinderShape3D.initialize JoltCylinderShape3D.clear
  dsimp only
  repeat' split
  all_goals rfl

theorem convex_polygon_set_data_body_base {F H : Type} (s : JoltConvexPolygonShape3D F H) (p_data : Variant F) :
    (s.set_data_body p_data).1.toJoltShape3D =
      { jolt_ref := none, ref_counts_by_owner := s.ref_counts_by_owner } := by
  unfold JoltConvexPolygonShape3D.set_data_body JoltConvexPolygonShape3D.initialize JoltConvexPolygonShape3D.clear
  dsimp only
  repeat' split
  all_goals rfl

theorem concave_polygon_set_data_body_base {F H : Type} (s : JoltConcavePolygonShape3D F H) (p_data : Variant F) :
    (s.set_data_body p_data).1.toJoltShape3D =
      { jolt_ref := none, ref_counts_by_owner := s.ref_counts_by_owner } := by
  unfold JoltConcavePolygonShape3D.set_data_body JoltConcavePolygonShape3D.initialize JoltConcavePolygonShape3D.clear
  dsimp only
  repeat' split
  all_goals rfl

theorem height_map_initialize_cases {F H : Type} (s : JoltHeightMapShape3D F H)
    (p_heights : List F) (p_width p_depth : Int) :
    ( s.initialize p_heights p_width p_depth =
      { shape := s, ok := false, reports := ( s.initialize p_heights p_width p_depth).reports }) ∨
    ( s.initialize p_heights p_width p_depth =
      { shape := { s with heights := p_heights, width := p_width, depth := p_depth }
        ok := true
        reports := [] }) := by
  have key : ∀ r : Initialized (JoltHeightMapShape3D F H),
      r = s.initialize p_heights p_width p_depth →
      (r = { shape := s, ok := false, reports := r.reports }) ∨
      (r = { shape := { s with heights := p_heights, width := p_width, depth := p_depth }
             ok := true
             reports := [] }) := by
    intro r hr
    unfold JoltHeightMapShape3D.initialize at hr
    dsimp only at hr
    split_ifs at hr <;> subst hr <;> simp
  exact key _ rfl

theorem height_map_initialize_base {F H : Type} (s : JoltHeightMapShape3D F H)
    (p_heights : List F) (p_width p_depth : Int) :
    ( s.initialize p_heights p_width p_depth).shape.toJoltShape3D = s.toJoltShape3D := by
  rcases height_map_initialize_cases s p_heights p_width p_depth with h | h <;> rw [h]

theorem height_map_set_data_body_cases {F H : Type} (s : JoltHeightMapShape3D F H)
    (p_data : Variant F) :
    (∃ message : String, s.set_data_body p_data = (s.clear, [Report.error message])) ∨
    (∃ (data : Dictionary F) (heights : List F) (width depth : Int),
      p_data = Variant.DICTIONARY data ∧
      Dictionary.get data "heights" = Variant.PACKED_FLOAT32_ARRAY heights ∧
      Dictionary.get data "width" = Variant.INT width ∧
      Dictionary.get data "depth" = Variant.INT depth ∧
      s.set_data_body p_data =
        (( s.clear.initialize heights (int32_of width) (int32_of depth)).shape,
          ( s.clear.initialize heights (int32_of width) (int32_of depth)).reports)) := by
  unfold JoltHeightMapShape3D.set_data_body
  dsimp only
  split
  · split
    · split
      · split
        · right
          rename_i data _ heights h1 _ width h2 _ depth h3
          exact ⟨data, heights, width, depth, rfl, h1, h2, h3, rfl⟩
        · left; exact ⟨_, rfl⟩
      · left; exact ⟨_, rfl⟩
    · left; exact ⟨_, rfl⟩
  · left; exact ⟨_, rfl⟩

theorem height_map_set_data_body_base {F H : Type} (s : JoltHeightMapShape3D F H)
    (p_data : Variant F) :
    (s.set_data_body p_data).1.toJoltShape3D =
      { jolt_ref := none, ref_counts_by_owner := s.ref_counts_by_owner } := by
  rcases height_map_set_data_body_cases s p_data with ⟨message, h⟩ | ⟨_, _, _, _, _, _, _, _, h⟩
  · rw [h]; rfl
  · rw [h]
    dsimp only
    rw [ height_map_initialize_base]
    rfl

theorem box_set_margin_body_base (s : JoltBoxShape3D F H) (p_margin : F) :
    (s.set_margin_body p_margin).1.toJoltShape3D =
      { jolt_ref := none, ref_counts_by_owner := s.ref_counts_by_owner } := by
  unfold JoltBoxShape3D.set_margin_body JoltBoxShape3D.initialize JoltBoxShape3D.clear
  dsimp only
  repeat' split
  all_goals rfl

theorem cylinder_set_margin_body_base (s : JoltCylinderShape3D F H) (p_margin : F) :
    (s.set_margin_body p_margin).1.toJoltShape3D =
      { jolt_ref := none, ref_counts_by_owner := s.ref_counts_by_owner } := by
  unfold JoltCylinderShape3D.set_margin_body JoltCylinderShape3D.initialize JoltCylinderShape3D.clear
  dsimp only
  repeat' split
  all_goals rfl

theorem convex_polygon_set_margin_body_base {F H : Type} (s : JoltConvexPolygonShape3D F H) (p_margin : F) :
    (s.set_margin_body p_margin).1.toJoltShape3D =
      { jolt_ref := none, ref_counts_by_owner := s.ref_counts_by_owner } := by
  unfold JoltConvexPolygonShape3D.set_margin_body JoltConvexPolygonShape3D.initialize JoltConvexPolygonShape3D.clear
  dsimp only
  repeat' split
  all_goals rfl

theorem Shape.set_data_base (s : Shape F H) (p_data : Variant F) (p_lock : Bool) :
    (s.set_data p_data p_lock).shape.base =
      { jolt_ref := none, ref_counts_by_owner := s.ref_counts_by_owner } := by
  cases s with
  | world_boundary k => exact world_boundary_set_data_body_base k p_data
  | separation_ray k => exact separation_ray_set_data_body_base k p_data
  | sphere k => exact sphere_set_data_body_base k p_data
  | box k => exact box_set_data_body_base k p_data
  | capsule k => exact capsule_set_data_body_base k p_data
  | cylinder k => exact cylinder_set_data_body_base k p_data
  | convex_polygon k => exact convex_polygon_set_data_body_base k p_data
  | concave_polygon k => exact concave_polygon_set_data_body_base k p_data
  | height_map k => exact height_map_set_data_body_base k p_data

theorem Shape.set_margin_base (s : Shape F H) (p_margin : F) (p_lock : Bool)
    (r : Mutation (Shape F H)) (hr : s.set_margin p_margin p_lock = some r) :
    r.shape.base = { jolt_ref := none, ref_counts_by_owner := s.ref_counts_by_owner } := by
  cases s with
  | box k =>
    simp only [Shape.set_margin, Option.some.injEq] at hr
    subst hr
    exact box_set_margin_body_base k p_margin
  | cylinder k =>
    simp only [Shape.set_margin, Option.some.injEq] at hr
    subst hr
    exact cylinder_set_margin_body_base k p_margin
  | convex_polygon k =>
    simp only [Shape.set_margin, Option.some.injEq] at hr
    subst hr
    exact convex_polygon_set_margin_body_base k p_margin
  | world_boundary k => simp [Shape.set_margin] at hr
  | separation_ray k => simp [Shape.set_margin] at hr
  | sphere k => simp [Shape.set_margin] at hr
  | capsule k => simp [Shape.set_margin] at hr
  | concave_polygon k => simp [Shape.set_margin] at hr
  | height_map k => simp [Shape.set_margin] at hr

theorem Shape.set_data_calls (s : Shape F H) (p_data : Variant F) (p_lock : Bool) :
    (s.set_data p_data p_lock).rebuild_calls =
      shape_changed s.ref_counts_by_owner p_lock (s.set_data p_data p_lock).shape := by
  cases s with
  | world_boundary k =>
    have h2 := world_boundary_set_data_body_base k p_data
    simp only [Shape.set_data, Mutation.lift, JoltWorldBoundaryShape3D.set_data, on_scope_exit,
      shape_changed, List.map_map, h2]
    rfl
  | separation_ray k =>
    have h2 := separation_ray_set_data_body_base k p_data
    simp only [Shape.set_data, Mutation.lift, JoltSeparationRayShape3D.set_data, on_scope_exit,
      shape_changed, List.map_map, h2]
    rfl
  | sphere k =>
    have h2 := sphere_set_data_body_base k p_data
    simp only [Shape.set_data, Mutation.lift, JoltSphereShape3D.set_data, on_scope_exit,
      shape_changed, List.map_map, h2]
    rfl
  | box k =>
    have h2 := box_set_data_body_base k p_data
    simp only [Shape.set_data, Mutation.lift, JoltBoxShape3D.set_data, on_scope_exit,
      shape_changed, List.map_map, h2]
    rfl
  | capsule k =>
    have h2 := capsule_set_data_body_base k p_data
    simp only [Shape.set_data, Mutation.lift, JoltCapsuleShape3D.set_data, on_scope_exit,
      shape_changed, List.map_map, h2]
    rfl
  | cylinder k =>
    have h2 := cylinder_set_data_body_base k p_data
    simp only [Shape.set_data, Mutation.lift, JoltCylinderShape3D.set_data, on_scope_exit,
      shape_changed, List.map_map, h2]
    rfl
  | convex_polygon k =>
    have h2 := convex_polygon_set_data_body_base k p_data
    simp only [Shape.set_data, Mutation.lift, JoltConvexPolygonShape3D.set_data, on_scope_exit,
      shape_changed, List.map_map, h2]
    rfl
  | concave_polygon k =>
    have h2 := concave_polygon_set_data_body_base k p_data
    simp only [Shape.set_data, Mutation.lift, JoltConcavePolygonShape3D.set_data, on_scope_exit,
      shape_changed, List.map_map, h2]
    rfl
  | height_map k =>
    have h2 := height_map_set_data_body_base k p_data
    simp only [Shape.set_data, Mutation.lift, JoltHeightMapShape3D.set_data, on_scope_exit,
      shape_changed, List.map_map, h2]
    rfl

/-- C3. For every shape of any kind, every previous state and every input
value (valid, degenerate, rejected with an error, or of the wrong type),
`set_data` calls `rebuild_shape` on the owners of the owner map, in iteration
order: once on each owner that has an entry and never on another one,
whatever the reference counts are. Every call carries the lock flag of
`shape_changed` and is made on the state that `set_data` leaves behind
(parameters and cache slot final). `set_data` does not change the owner map. -/
theorem set_data_notifies_every_owner {F H : Type} [Float32Ops F] (s : Shape F H)
    (p_data : Variant F) (p_lock : Bool) (hu : unique_keys s.ref_counts_by_owner) :
    (s.set_data p_data p_lock).shape.ref_counts_by_owner = s.ref_counts_by_owner ∧
    (s.set_data p_data p_lock).rebuild_calls.map (fun n => n.owner)
      = owners s.ref_counts_by_owner ∧
    (∀ o : Owner, ((s.set_data p_data p_lock).rebuild_calls.map (fun n => n.owner)).count o
      = if ref_count s.ref_counts_by_owner o = none then 0 else 1) ∧
    (∀ n ∈ (s.set_data p_data p_lock).rebuild_calls,
      n.p_lock = p_lock ∧ n.observed = (s.set_data p_data p_lock).shape) := by
  have hcalls := Shape.set_data_calls s p_data p_lock
  have hmap : (s.set_data p_data p_lock).rebuild_calls.map (fun n => n.owner)
      = owners s.ref_counts_by_owner := by
    rw [hcalls]
    simp [shape_changed, owners, List.map_map, Function.comp_def]
  refine ⟨?_, hmap, ?_, ?_⟩
  · simp [Shape.ref_counts_by_owner, Shape.set_data_base]
  · intro o
    rw [hmap, List.count_eq_of_nodup hu]
    by_cases h : ref_count s.ref_counts_by_owner o = none
    · simp [h, (ref_count_none_iff _ o).1 h]
    · have hin : o ∈ owners s.ref_counts_by_owner := by
        by_contra hcon
        exact h ((ref_count_none_iff _ o).2 hcon)
      simp [h, hin]
  · intro n hn
    rw [hcalls] at hn
    simp only [shape_changed, List.mem_map] at hn
    obtain ⟨e, _, rfl⟩ := hn
    exact ⟨rfl, rfl⟩

/-- Witness for C3: a valid capsule with a filled cache slot and the owners 1
(two references) and 4 receives a value of the wrong type; both owners are
called, once each. -/
theorem set_data_notifies_every_owner_witness :
    unique_keys sample_capsule.ref_counts_by_owner ∧
    (sample_capsule.set_data (.FLOAT 1) true).rebuild_calls.map (fun n => n.owner) = [1, 4] :=
  ⟨by decide, (set_data_notifies_every_owner sample_capsule (.FLOAT 1) true (by decide)).2.1⟩

end base_after

/-! ## Notification with callbacks that act on the shape -/

section reentrant

variable {F H : Type} [Float32Ops F]

theorem remove_self_fold_calls {F H : Type} (remove_shape : Owner → Bool → Shape F H → Shape F H)
    (p_lock : Bool) (entries : OwnerMap) (s : Shape F H) (calls : List (Owner × Bool)) :
    (entries.foldl
      (fun state entry =>
        (remove_shape entry.1 p_lock state.1, state.2 ++ [(entry.1, p_lock)]))
      (s, calls)).2 = calls ++ (owners entries).map (fun o => (o, p_lock)) := by
  induction entries generalizing s calls with
  | nil => simp [owners]
  | cons e rest ih =>
    simp only [List.foldl_cons]
    rw [ih]
    simp [owners]

theorem count_pair_map (l : List Owner) (o : Owner) (p_lock : Bool) :
    (l.map (fun a => (a, p_lock))).count (o, p_lock) = l.count o := by
  induction l with
  | nil => simp
  | cons a rest ih =>
    simp only [List.map_cons, List.count_cons, ih]
    by_cases h : a = o <;> simp [h]

theorem count_owner_of_unique (m : OwnerMap) (o : Owner) (hu : unique_keys m) :
    (owners m).count o = if ref_count m o = none then 0 else 1 := by
  rw [List.count_eq_of_nodup hu]
  by_cases h : ref_count m o = none
  · simp [h, (ref_count_none_iff _ o).1 h]
  · have hin : o ∈ owners m := by
      by_contra hcon
      exact h ((ref_count_none_iff _ o).2 hcon)
    simp [h, hin]

/-- C4. `remove_self` notifies over a snapshot. Let `S` be the set of owners in
the owner map when `remove_self(p_lock)` is called. Whatever the callbacks
`remove_shape(this, p_lock)` do to the shape (for example call `remove_owner`
for themselves or for another owner of `S`), the callbacks invoked are those of
the owners of the map as it was on entry, in its order, each with the flag
`p_lock`: every owner of `S` is called exactly once and no other owner is
called. -/
theorem remove_self_notifies_snapshot {F H : Type} (remove_shape : Owner → Bool → Shape F H → Shape F H)
    (s : Shape F H) (p_lock : Bool) (hu : unique_keys s.ref_counts_by_owner) :
    (s.remove_self remove_shape p_lock).2
      = (owners s.ref_counts_by_owner).map (fun o => (o, p_lock)) ∧
    (∀ o : Owner, ((s.remove_self remove_shape p_lock).2).count (o, p_lock)
      = if ref_count s.ref_counts_by_owner o = none then 0 else 1) ∧
    (∀ (o : Owner) (l : Bool), (o, l) ∈ (s.remove_self remove_shape p_lock).2 →
      l = p_lock ∧ ref_count s.ref_counts_by_owner o ≠ none) := by
  have hcalls : (s.remove_self remove_shape p_lock).2
      = (owners s.ref_counts_by_owner).map (fun o => (o, p_lock)) := by
    unfold Shape.remove_self
    simp only
    rw [remove_self_fold_calls]
    simp
  refine ⟨hcalls, ?_, ?_⟩
  · intro o
    rw [hcalls, count_pair_map, count_owner_of_unique _ o hu]
  · intro o l hmem
    rw [hcalls, List.mem_map] at hmem
    obtain ⟨a, ha, hpair⟩ := hmem
    have h1 : a = o := (Prod.mk.inj hpair).1
    have h2 : p_lock = l := (Prod.mk.inj hpair).2
    subst h1
    refine ⟨h2.symm, ?_⟩
    intro hnone
    exact (ref_count_none_iff _ a).1 hnone ha

/-- Witness for C4: a sphere with the owners 1 and 2, where the callback of
owner 1 releases the reference of owner 2 to the shape. Both owners are called,
once each, although owner 2 has left the owner map when its turn comes. -/
theorem remove_self_notifies_snapshot_witness :
    unique_keys sample_sphere.ref_counts_by_owner ∧
    (sample_sphere.remove_self (release_other 1 2) true).2 = [(1, true), (2, true)] :=
  ⟨by decide, (remove_self_notifies_snapshot (release_other 1 2) sample_sphere true (by decide)).1⟩

theorem next_owner_split (front rest : OwnerMap) (e : Owner × Int)
    (h : e.1 ∉ owners front) :
    next_owner (front ++ e :: rest) e.1 = some (owners rest).head? := by
  induction front with
  | nil => simp [next_owner]
  | cons a more ih =>
    have hne : ¬ a.1 = e.1 := by
      intro hh
      apply h
      simp [owners, hh]
    have hrest : e.1 ∉ owners more := by
      intro hh
      apply h
      simp only [owners, List.map_cons, List.mem_cons]
      exact Or.inr hh
    simp only [List.cons_append, next_owner, hne, if_false]
    exact ih hrest

theorem shape_changed_loop_unchanged_map {F H : Type}
    (rebuild_shape : Owner → Bool → Shape F H → Shape F H) (p_lock : Bool)
    (hcb : ∀ (o : Owner) (l : Bool) (t : Shape F H),
      (rebuild_shape o l t).ref_counts_by_owner = t.ref_counts_by_owner)
    (rest : OwnerMap) :
    ∀ (front : OwnerMap) (fuel : Nat) (t : Shape F H) (calls : List (Owner × Bool)),
      unique_keys (front ++ rest) → t.ref_counts_by_owner = front ++ rest →
      rest.length ≤ fuel →
      (shape_changed_loop rebuild_shape p_lock fuel (owners rest).head? t calls).outcome
          = IterationEnd.finished ∧
      (shape_changed_loop rebuild_shape p_lock fuel (owners rest).head? t calls).calls
          = calls ++ (owners rest).map (fun o => (o, p_lock)) ∧
      (shape_changed_loop rebuild_shape p_lock fuel (owners rest).head? t
          calls).shape.ref_counts_by_owner = front ++ rest := by
  induction rest with
  | nil =>
    intro front fuel t calls _ ht _
    cases fuel <;> simp [owners, shape_changed_loop, ht]
  | cons e more ih =>
    intro front fuel t calls hu ht hfuel
    obtain ⟨f, rfl⟩ : ∃ f, fuel = f + 1 := ⟨fuel - 1, by simp at hfuel; omega⟩
    have hfront : e.1 ∉ owners front := by
      intro hmem
      have hu2 : (owners front ++ e.1 :: owners more).Nodup := by
        simpa [unique_keys, owners] using hu
      rw [List.nodup_append] at hu2
      exact hu2.2.2 hmem (List.mem_cons_self _ _)
    have hmap : (rebuild_shape e.1 p_lock t).ref_counts_by_owner = front ++ e :: more := by
      rw [hcb, ht]
    have hnext := next_owner_split front more e hfront
    have hu3 : unique_keys ((front ++ [e]) ++ more) := by simpa using hu
    have hmap3 : (rebuild_shape e.1 p_lock t).ref_counts_by_owner = (front ++ [e]) ++ more := by
      simpa using hmap
    have hrec := ih (front ++ [e]) f (rebuild_shape e.1 p_lock t) (calls ++ [(e.1, p_lock)])
      hu3 hmap3 (by simp at hfuel; omega)
    have hstep : shape_changed_loop rebuild_shape p_lock (f + 1) (owners (e :: more)).head? t calls
        = shape_changed_loop rebuild_shape p_lock f (owners more).head?
            (rebuild_shape e.1 p_lock t) (calls ++ [(e.1, p_lock)]) := by
      simp only [owners, List.map_cons, List.head?_cons, shape_changed_loop]
      rw [hmap]
      have hnext2 : next_owner (front ++ e :: more) e.1 = some (List.map Prod.fst more).head? :=
        hnext
      rw [hnext2]
    rw [hstep]
    refine ⟨hrec.1, ?_, ?_⟩
    · rw [hrec.2.1]; simp [owners]
    · rw [hrec.2.2]; simp

/-- C5, the claim as stated fails. A sphere has the owners 1 and 2; the
`rebuild_shape` callback of owner 1 releases the reference of owner 2 to the
shape. `shape_changed` walks the live owner map: it ends normally after the
single call to owner 1, and owner 2, which had an entry when `shape_changed`
was called, is never notified. -/
theorem shape_changed_live_misses_removed_owner :
    ref_count sample_sphere.ref_counts_by_owner 2 = some 1 ∧
    (sample_sphere.shape_changed_live (release_other 1 2) 2 true).outcome
      = IterationEnd.finished ∧
    (sample_sphere.shape_changed_live (release_other 1 2) 2 true).calls = [(1, true)] := by
  refine ⟨by decide, ?_, ?_⟩ <;> rfl

/-- C5, amended. `shape_changed` iterates the live owner map. Let `S` be the
set of owners in the owner map when `shape_changed(p_lock)` is called. If the
`rebuild_shape` callbacks leave the owner map of this shape as it is (they may
change anything else of the shape), the iteration ends normally within as many
steps as the map has entries, and the owners that receive
`rebuild_shape(p_lock)` are exactly those of `S`, in the order of the map, each
exactly once. -/
theorem shape_changed_live_notifies_owners {F H : Type}
    (rebuild_shape : Owner → Bool → Shape F H → Shape F H) (s : Shape F H) (p_lock : Bool)
    (fuel : Nat) (hu : unique_keys s.ref_counts_by_owner)
    (hfuel : s.ref_counts_by_owner.length ≤ fuel)
    (hcb : ∀ (o : Owner) (l : Bool) (t : Shape F H),
      (rebuild_shape o l t).ref_counts_by_owner = t.ref_counts_by_owner) :
    (s.shape_changed_live rebuild_shape fuel p_lock).outcome = IterationEnd.finished ∧
    (s.shape_changed_live rebuild_shape fuel p_lock).calls
      = (owners s.ref_counts_by_owner).map (fun o => (o, p_lock)) ∧
    (∀ o : Owner, ((s.shape_changed_live rebuild_shape fuel p_lock).calls).count (o, p_lock)
      = if ref_count s.ref_counts_by_owner o = none then 0 else 1) := by
  have h := shape_changed_loop_unchanged_map rebuild_shape p_lock hcb s.ref_counts_by_owner
    [] fuel s [] (by simpa using hu) (by simp) hfuel
  have hcalls : (s.shape_changed_live rebuild_shape fuel p_lock).calls
      = (owners s.ref_counts_by_owner).map (fun o => (o, p_lock)) := by
    unfold Shape.shape_changed_live
    rw [h.2.1]; simp
  refine ⟨h.1, hcalls, ?_⟩
  intro o
  rw [hcalls, count_pair_map, count_owner_of_unique _ o hu]

/-- Witness for C5 (amended): the sample sphere with callbacks that do nothing
to the shape; the owners 1 and 2 are called, once each. -/
theorem shape_changed_live_notifies_owners_witness :
    unique_keys sample_sphere.ref_counts_by_owner ∧
    sample_sphere.ref_counts_by_owner.length ≤ 2 ∧
    (∀ (o : Owner) (l : Bool) (t : Shape ℚ Nat),
      ((fun _ _ u => u : Owner → Bool → Shape ℚ Nat → Shape ℚ Nat) o l t).ref_counts_by_owner
        = t.ref_counts_by_owner) ∧
    (sample_sphere.shape_changed_live (fun _ _ u => u) 2 true).calls
      = [(1, true), (2, true)] :=
  ⟨by decide, by decide, fun _ _ _ => rfl,
    (shape_changed_live_notifies_owners (fun _ _ u => u) sample_sphere true 2
      (by decide) (by decide) (fun _ _ _ => rfl)).2.1⟩

end reentrant

/-! ## The cache slot -/

section cache

variable {F H W : Type} [Float32Ops F]

theorem Shape.base_with_base {F H : Type} (s : Shape F H) (b : JoltShape3D H) :
    (s.with_base b).base = b := by
  cases s <;> rfl

theorem Shape.jolt_ref_with_jolt_ref {F H : Type} (s : Shape F H) (r : Option H) :
    (s.with_jolt_ref r).jolt_ref = r := by
  cases s <;> rfl

theorem Shape.build_with_base (s : Shape F H) (b : JoltShape3D H) (engine : Engine F H W)
    (p_extra_margin : F) (world : W) :
    (s.with_base b).build engine p_extra_margin world = s.build engine p_extra_margin world := by
  cases s <;> rfl

theorem Shape.build_with_jolt_ref (s : Shape F H) (r : Option H) (engine : Engine F H W)
    (p_extra_margin : F) (world : W) :
    (s.with_jolt_ref r).build engine p_extra_margin world
      = s.build engine p_extra_margin world :=
  Shape.build_with_base s _ engine p_extra_margin world

/-- C6. For every valid shape with an empty cache slot whose `build(0)`
succeeds with handle `h`: the first `try_build(0)` invokes `build(0)` once,
returns `h` and stores `h` in the cache slot; the second `try_build(0)`, with
no mutation in between, returns the identical handle `h` without invoking
`build`, without a report, and leaves shape and engine as they are. More
generally, whenever the shape is valid and the cache slot holds a handle,
`try_build(0)` returns that handle and invokes nothing. Validity is read from
the parameters, not from the cache slot (`hcache`). -/
theorem try_build_returns_cached (is_valid : Shape F H → Bool) (engine : Engine F H W)
    (s : Shape F H) (world : W) (h : H)
    (hcache : ∀ (t : Shape F H) (r : Option H), is_valid (t.with_jolt_ref r) = is_valid t)
    (hvalid : is_valid s = true) (hempty : s.jolt_ref = none)
    (hbuild : (s.build engine Float32Ops.zero world).shape = some h) :
    (s.try_build is_valid engine Float32Ops.zero world).result = some h ∧
    (s.try_build is_valid engine Float32Ops.zero world).shape.jolt_ref = some h ∧
    (s.try_build is_valid engine Float32Ops.zero world).build_calls = [Float32Ops.zero] ∧
    ((s.try_build is_valid engine Float32Ops.zero world).shape.try_build is_valid engine
        Float32Ops.zero (s.try_build is_valid engine Float32Ops.zero world).world)
      = { result := some h
          shape := (s.try_build is_valid engine Float32Ops.zero world).shape
          build_calls := []
          reports := []
          world := (s.try_build is_valid engine Float32Ops.zero world).world } ∧
    (∀ (t : Shape F H) (cached : H) (w : W), is_valid t = true → t.jolt_ref = some cached →
      t.try_build is_valid engine Float32Ops.zero w
        = { result := some cached, shape := t, build_calls := [], reports := [], world := w }) := by
  have hgen : ∀ (t : Shape F H) (cached : H) (w : W), is_valid t = true →
      t.jolt_ref = some cached →
      t.try_build is_valid engine Float32Ops.zero w
        = { result := some cached, shape := t, build_calls := [], reports := [], world := w } := by
    intro t cached w hv hc
    simp [Shape.try_build, hv, Float32Ops.lt_zero_zero, hc]
  have hfirst : s.try_build is_valid engine Float32Ops.zero world
      = { result := some h
          shape := s.with_jolt_ref (some h)
          build_calls := [Float32Ops.zero]
          reports := (s.build engine Float32Ops.zero world).reports
          world := (s.build engine Float32Ops.zero world).world } := by
    simp [Shape.try_build, hvalid, Float32Ops.lt_zero_zero, hempty, hbuild]
  rw [hfirst]
  refine ⟨rfl, Shape.jolt_ref_with_jolt_ref s _, rfl, ?_, hgen⟩
  exact hgen _ h _ (by rw [hcache]; exact hvalid) (Shape.jolt_ref_with_jolt_ref s _)

/-- Witness for C6: the sample sphere (empty cache slot) with an engine that
hands out serial numbers, starting at 7; both calls return handle 7. -/
theorem try_build_returns_cached_witness :
    (∀ (t : Shape ℚ Nat) (r : Option Nat),
      always_valid (t.with_jolt_ref r) = always_valid t) ∧
    always_valid sample_sphere = true ∧
    sample_sphere.jolt_ref = none ∧
    (sample_sphere.build (counting_engine ℚ) Float32Ops.zero 7).shape = some 7 ∧
    (sample_sphere.try_build always_valid (counting_engine ℚ) Float32Ops.zero 7).result
      = some 7 :=
  ⟨fun _ _ => rfl, rfl, rfl, rfl,
    (try_build_returns_cached always_valid (counting_engine ℚ) sample_sphere 7 7
      (fun _ _ => rfl) rfl rfl rfl).1⟩

/-- C7. `try_build` leaves the cache slot alone whenever it must. (1) For a
shape that is not valid, and every extra margin, `try_build` returns the empty
handle, invokes no `build` and leaves the shape, cache slot included, as it
is. (2) For a valid shape and every extra margin greater than zero,
`try_build` invokes `build(p_extra_margin)` exactly once, returns exactly its
result, and leaves the shape, cache slot included, as it is, whether the slot
was empty or filled; the result does not depend on the content of the slot,
and a second such call returns the result of a second `build`, made on the
state of the engine that the first one left. -/
theorem try_build_bypasses_cache (is_valid : Shape F H → Bool) (engine : Engine F H W)
    (s : Shape F H) (p_extra_margin : F) (world : W) :
    (is_valid s = false →
      s.try_build is_valid engine p_extra_margin world
        = { result := none, shape := s, build_calls := [], reports := [], world := world }) ∧
    (is_valid s = true → Float32Ops.lt Float32Ops.zero p_extra_margin = true →
      s.try_build is_valid engine p_extra_margin world
        = { result := (s.build engine p_extra_margin world).shape
            shape := s
            build_calls := [p_extra_margin]
            reports := (s.build engine p_extra_margin world).reports
            world := (s.build engine p_extra_margin world).world } ∧
      (∀ r : Option H, is_valid (s.with_jolt_ref r) = true →
        ((s.with_jolt_ref r).try_build is_valid engine p_extra_margin world).result
          = (s.try_build is_valid engine p_extra_margin world).result ∧
        ((s.with_jolt_ref r).try_build is_valid engine p_extra_margin world).shape.jolt_ref
          = r) ∧
      ((s.try_build is_valid engine p_extra_margin world).shape.try_build is_valid engine
          p_extra_margin (s.try_build is_valid engine p_extra_margin world).world).result
        = (s.build engine p_extra_margin (s.build engine p_extra_margin world).world).shape ∧
      ((s.try_build is_valid engine p_extra_margin world).shape.try_build is_valid engine
          p_extra_margin (s.try_build is_valid engine p_extra_margin world).world).build_calls
        = [p_extra_margin]) := by
  have hpos : ∀ (t : Shape F H) (w : W), is_valid t = true →
      Float32Ops.lt Float32Ops.zero p_extra_margin = true →
      t.try_build is_valid engine p_extra_margin w
        = { result := (t.build engine p_extra_margin w).shape
            shape := t
            build_calls := [p_extra_margin]
            reports := (t.build engine p_extra_margin w).reports
            world := (t.build engine p_extra_margin w).world } := by
    intro t w hv hm
    simp [Shape.try_build, hv, hm]
  refine ⟨?_, ?_⟩
  · intro hv
    simp [Shape.try_build, hv]
  · intro hv hm
    refine ⟨hpos s world hv hm, ?_, ?_, ?_⟩
    · intro r hr
      rw [hpos _ world hr hm, hpos s world hv hm]
      exact ⟨congrArg BuildResult.shape (Shape.build_with_jolt_ref s r engine _ world),
        Shape.jolt_ref_with_jolt_ref s r⟩
    · rw [hpos s world hv hm]
      show (s.try_build is_valid engine p_extra_margin _).result = _
      rw [hpos s _ hv hm]
    · rw [hpos s world hv hm]
      show (s.try_build is_valid engine p_extra_margin _).build_calls = _
      rw [hpos s _ hv hm]

/-- Witness for C7: the sample capsule, whose cache slot holds handle 3, is
built with extra margin 1 by an engine handing out serial numbers from 7: the
call returns the new handle 7 and the slot still holds 3. With an `is_valid`
that rejects the shape the result is empty. -/
theorem try_build_bypasses_cache_witness :
    always_valid sample_capsule = true ∧
    Float32Ops.lt (Float32Ops.zero : ℚ) 1 = true ∧
    (sample_capsule.try_build always_valid (counting_engine ℚ) 1 7).result = some 7 ∧
    (sample_capsule.try_build always_valid (counting_engine ℚ) 1 7).shape.jolt_ref = some 3 ∧
    (fun _ => false : Shape ℚ Nat → Bool) sample_capsule = false ∧
    (sample_capsule.try_build (fun _ => false) (counting_engine ℚ) 1 7).result = none :=
  ⟨rfl, by decide,
    (congrArg TryBuild.result
      ((try_build_bypasses_cache always_valid (counting_engine ℚ) sample_capsule 1 7).2
        rfl (by decide)).1).trans rfl,
    (congrArg (fun t => t.shape.jolt_ref)
      ((try_build_bypasses_cache always_valid (counting_engine ℚ) sample_capsule 1 7).2
        rfl (by decide)).1).trans rfl,
    rfl,
    congrArg TryBuild.result
      ((try_build_bypasses_cache (fun _ => false) (counting_engine ℚ) sample_capsule 1 7).1 rfl)⟩

theorem Shape.jolt_ref_set_data (s : Shape F H) (p_data : Variant F) (p_lock : Bool) :
    (s.set_data p_data p_lock).shape.jolt_ref = none := by
  simp [Shape.jolt_ref, Shape.set_data_base]

theorem Shape.jolt_ref_set_margin (s : Shape F H) (p_margin : F) (p_lock : Bool)
    (r : Mutation (Shape F H)) (hr : s.set_margin p_margin p_lock = some r) :
    r.shape.jolt_ref = none := by
  simp [Shape.jolt_ref, Shape.set_margin_base s p_margin p_lock r hr]

theorem cache_invariant_try_build (is_valid : Shape F H → Bool) (engine : Engine F H W)
    (s : Shape F H) (p_extra_margin : F) (world : W)
    (hs : s.jolt_ref = none ∨
      ∃ w : W, s.jolt_ref = (s.build engine Float32Ops.zero w).shape) :
    (s.try_build is_valid engine p_extra_margin world).shape.jolt_ref = none ∨
      ∃ w : W, (s.try_build is_valid engine p_extra_margin world).shape.jolt_ref
        = ((s.try_build is_valid engine p_extra_margin world).shape.build engine
            Float32Ops.zero w).shape := by
  unfold Shape.try_build
  by_cases hv : is_valid s = true
  · by_cases hm : Float32Ops.lt Float32Ops.zero p_extra_margin = true
    · simpa [hv, hm] using hs
    · cases hc : s.jolt_ref with
      | none =>
        simp only [hv, hm, hc, Bool.not_true, Bool.false_eq_true, if_false]
        right
        refine ⟨world, ?_⟩
        rw [Shape.jolt_ref_with_jolt_ref, Shape.build_with_jolt_ref]
      | some cached =>
        simp only [hv, hm, hc, Bool.not_true, Bool.false_eq_true, if_false]
        simpa [hc] using hs
  · simpa [hv] using hs

/-- C8. Cache consistency. In every state that a shape of any kind reaches
through `set_data`, `set_margin` (box, cylinder, convex polygon), `try_build`,
`add_owner` and `remove_owner`, starting with an empty cache slot, the slot is
either empty or holds the result of `build(0)` on the parameters (margin
included) that the shape stores now. Every `set_data` and every `set_margin`
call, whatever its input and outcome, leaves the slot empty. -/
theorem cache_slot_consistent (is_valid : Shape F H → Bool) (engine : Engine F H W)
    (s : Shape F H) (hs : Reachable is_valid engine s) :
    (s.jolt_ref = none ∨
      ∃ w : W, s.jolt_ref = (s.build engine Float32Ops.zero w).shape) ∧
    (∀ (p_data : Variant F) (p_lock : Bool), (s.set_data p_data p_lock).shape.jolt_ref = none) ∧
    (∀ (p_margin : F) (p_lock : Bool) (r : Mutation (Shape F H)),
      s.set_margin p_margin p_lock = some r → r.shape.jolt_ref = none) := by
  refine ⟨?_, fun v l => Shape.jolt_ref_set_data s v l,
    fun m l r hr => Shape.jolt_ref_set_margin s m l r hr⟩
  induction hs with
  | created t h => exact Or.inl h
  | set_data t v l _ _ => exact Or.inl (Shape.jolt_ref_set_data t v l)
  | set_margin t m l r _ hr _ => exact Or.inl (Shape.jolt_ref_set_margin t m l r hr)
  | try_build t em w _ ih => exact cache_invariant_try_build is_valid engine t em w ih
  | add_owner t o _ ih =>
    unfold Shape.add_owner
    rcases ih with h | ⟨w, h⟩
    · left
      simpa [Shape.jolt_ref, Shape.base_with_base, JoltShape3D.add_owner] using h
    · right
      refine ⟨w, ?_⟩
      rw [Shape.build_with_base]
      simpa [Shape.jolt_ref, Shape.base_with_base, JoltShape3D.add_owner] using h
  | remove_owner t o _ ih =>
    unfold Shape.remove_owner
    rcases ih with h | ⟨w, h⟩
    · left
      simpa [Shape.jolt_ref, Shape.base_with_base, JoltShape3D.remove_owner] using h
    · right
      refine ⟨w, ?_⟩
      rw [Shape.build_with_base]
      simpa [Shape.jolt_ref, Shape.base_with_base, JoltShape3D.remove_owner] using h

/-- Witness for C8: the sample sphere is given a new radius, built (the engine
hands out handle 7) and built again; the slot then holds handle 7, the result
of `build(0)` on the stored radius. -/
theorem cache_slot_consistent_witness :
    Reachable always_valid (counting_engine ℚ)
      (((sample_sphere.set_data (.FLOAT 2) true).shape.try_build always_valid
        (counting_engine ℚ) Float32Ops.zero 7).shape) ∧
    (((sample_sphere.set_data (.FLOAT 2) true).shape.try_build always_valid
        (counting_engine ℚ) Float32Ops.zero 7).shape.jolt_ref = none ∨
      ∃ w : Nat,
        ((sample_sphere.set_data (.FLOAT 2) true).shape.try_build always_valid
          (counting_engine ℚ) Float32Ops.zero 7).shape.jolt_ref
        = (((sample_sphere.set_data (.FLOAT 2) true).shape.try_build always_valid
          (counting_engine ℚ) Float32Ops.zero 7).shape.build (counting_engine ℚ)
            Float32Ops.zero w).shape) :=
  ⟨Reachable.try_build _ _ _
      (Reachable.set_data _ _ _ (Reachable.created sample_sphere rfl)),
    (cache_slot_consistent always_valid (counting_engine ℚ) _
      (Reachable.try_build _ _ _
        (Reachable.set_data _ _ _ (Reachable.created sample_sphere rfl)))).1⟩

end cache

/-! ## Values of the wrong type -/

section mistyped

variable {F H : Type} [Float32Ops F]

theorem world_boundary_set_data_body_mistyped (s : JoltWorldBoundaryShape3D F H) (p_data : Variant F)
    (h : Shape.well_typed (Shape.world_boundary s) p_data = false) :
    ∃ message : String, s.set_data_body p_data = (s.clear, [Report.error message]) := by
  unfold JoltWorldBoundaryShape3D.set_data_body
  dsimp only
  cases p_data <;> first
    | exact ⟨_, rfl⟩
    | simp [Shape.well_typed] at h

theorem separation_ray_set_data_body_mistyped (s : JoltSeparationRayShape3D F H) (p_data : Variant F)
    (h : Shape.well_typed (Shape.separation_ray s) p_data = false) :
    ∃ message : String, s.set_data_body p_data = (s.clear, [Report.error message]) := by
  unfold JoltSeparationRayShape3D.set_data_body
  dsimp only
  split
  · split
    · split
      · rename_i h1 _ _ h2
        simp [Shape.well_typed, h1, h2] at h
      · exact ⟨_, rfl⟩
    · exact ⟨_, rfl⟩
  · exact ⟨_, rfl⟩

theorem sphere_set_data_body_mistyped (s : JoltSphereShape3D F H) (p_data : Variant F)
    (h : Shape.well_typed (Shape.sphere s) p_data = false) :
    ∃ message : String, s.set_data_body p_data = (s.clear, [Report.error message]) := by
  unfold JoltSphereShape3D.set_data_body
  dsimp only
  cases p_data <;> first
    | exact ⟨_, rfl⟩
    | simp [Shape.well_typed] at h

theorem box_set_data_body_mistyped (s : JoltBoxShape3D F H) (p_data : Variant F)
    (h : Shape.well_typed (Shape.box s) p_data = false) :
    ∃ message : String, s.set_data_body p_data = (s.clear, [Report.error message]) := by
  unfold JoltBoxShape3D.set_data_body
  dsimp only
  cases p_data <;> first
    | exact ⟨_, rfl⟩
    | simp [Shape.well_typed] at h

theorem capsule_set_data_body_mistyped (s : JoltCapsuleShape3D F H) (p_data : Variant F)
    (h : Shape.well_typed (Shape.capsule s) p_data = false) :
    ∃ message : String, s.set_data_body p_data = (s.clear, [Report.error message]) := by
  unfold JoltCapsuleShape3D.set_data_body
  dsimp only
  split
  · split
    · split
      · rename_i h1 _ _ h2
        simp [Shape.well_typed, h1, h2] at h
      · exact ⟨_, rfl⟩
    · exact ⟨_, rfl⟩
  · exact ⟨_, rfl⟩

theorem cylinder_set_data_body_mistyped (s : JoltCylinderShape3D F H) (p_data : Variant F)
    (h : Shape.well_typed (Shape.cylinder s) p_data = false) :
    ∃ message : String, s.set_data_body p_data = (s.clear, [Report.error message]) := by
  unfold JoltCylinderShape3D.set_data_body
  dsimp only
  split
  · split
    · split
      · rename_i h1 _ _ h2
        simp [Shape.well_typed, h1, h2] at h
      · exact ⟨_, rfl⟩
    · exact ⟨_, rfl⟩
  · exact ⟨_, rfl⟩

theorem convex_polygon_set_data_body_mistyped {F H : Type} (s : JoltConvexPolygonShape3D F H) (p_data : Variant F)
    (h : Shape.well_typed (Shape.convex_polygon s) p_data = false) :
    ∃ message : String, s.set_data_body p_data = (s.clear, [Report.error message]) := by
  unfold JoltConvexPolygonShape3D.set_data_body
  dsimp only
  cases p_data <;> first
    | exact ⟨_, rfl⟩
    | simp [Shape.well_typed] at h

theorem concave_polygon_set_data_body_mistyped {F H : Type} (s : JoltConcavePolygonShape3D F H) (p_data : Variant F)
    (h : Shape.well_typed (Shape.concave_polygon s) p_data = false) :
    ∃ message : String, s.set_data_body p_data = (s.clear, [Report.error message]) := by
  unfold JoltConcavePolygonShape3D.set_data_body
  dsimp only
  split
  · split
    · split
      · rename_i h1 _ _ h2
        simp [Shape.well_typed, h1, h2] at h
      · exact ⟨_, rfl⟩
    · exact ⟨_, rfl⟩
  · exact ⟨_, rfl⟩

theorem height_map_set_data_body_mistyped {F H : Type} (s : JoltHeightMapShape3D F H)
    (p_data : Variant F) (h : Shape.well_typed (Shape.height_map s) p_data = false) :
    ∃ message : String, s.set_data_body p_data = (s.clear, [Report.error message]) := by
  rcases height_map_set_data_body_cases s p_data with hm | ⟨_, _, _, _, hd, h1, h2, h3, _⟩
  · exact hm
  · subst hd
    simp [Shape.well_typed, h1, h2, h3] at h

/-- C10. For every shape of any kind and every previous state (a valid one with
a filled cache slot included): when `set_data` receives a value that does not
have the structural type of the kind (another variant type, a record without
one of the keys, or a record with a field of the wrong type), exactly one
error is reported and the shape is left as `clear()` leaves it: the parameters
of the kind have their cleared defaults and the cache slot is empty. Nothing of
the previous parameters and nothing of the rejected value is stored. (`clear`
does not touch the margin of a box, cylinder or convex polygon, which
`set_data` does not take.) -/
theorem set_data_wrong_type_clears (s : Shape F H) (p_data : Variant F) (p_lock : Bool)
    (h : s.well_typed p_data = false) :
    (∃ message : String, (s.set_data p_data p_lock).reports = [Report.error message]) ∧
    (s.set_data p_data p_lock).shape = s.clear ∧
    (s.set_data p_data p_lock).shape.jolt_ref = none := by
  have key : (∃ message : String,
      (s.set_data p_data p_lock).reports = [Report.error message]) ∧
      (s.set_data p_data p_lock).shape = s.clear := by
    cases s with
    | world_boundary k =>
      obtain ⟨message, hm⟩ := world_boundary_set_data_body_mistyped k p_data h
      refine ⟨⟨message, ?_⟩, ?_⟩
      · show (k.set_data_body p_data).2 = _
        rw [hm]
      · show Shape.world_boundary (k.set_data_body p_data).1 = _
        rw [hm]
        rfl
    | separation_ray k =>
      obtain ⟨message, hm⟩ := separation_ray_set_data_body_mistyped k p_data h
      refine ⟨⟨message, ?_⟩, ?_⟩
      · show (k.set_data_body p_data).2 = _
        rw [hm]
      · show Shape.separation_ray (k.set_data_body p_data).1 = _
        rw [hm]
        rfl
    | sphere k =>
      obtain ⟨message, hm⟩ := sphere_set_data_body_mistyped k p_data h
      refine ⟨⟨message, ?_⟩, ?_⟩
      · show (k.set_data_body p_data).2 = _
        rw [hm]
      · show Shape.sphere (k.set_data_body p_data).1 = _
        rw [hm]
        rfl
    | box k =>
      obtain ⟨message, hm⟩ := box_set_data_body_mistyped k p_data h
      refine ⟨⟨message, ?_⟩, ?_⟩
      · show (k.set_data_body p_data).2 = _
        rw [hm]
      · show Shape.box (k.set_data_body p_data).1 = _
        rw [hm]
        rfl
    | capsule k =>
      obtain ⟨message, hm⟩ := capsule_set_data_body_mistyped k p_data h
      refine ⟨⟨message, ?_⟩, ?_⟩
      · show (k.set_data_body p_data).2 = _
        rw [hm]
      · show Shape.capsule (k.set_data_body p_data).1 = _
        rw [hm]
        rfl
    | cylinder k =>
      obtain ⟨message, hm⟩ := cylinder_set_data_body_mistyped k p_data h
      refine ⟨⟨message, ?_⟩, ?_⟩
      · show (k.set_data_body p_data).2 = _
        rw [hm]
      · show Shape.cylinder (k.set_data_body p_data).1 = _
        rw [hm]
        rfl
    | convex_polygon k =>
      obtain ⟨message, hm⟩ := convex_polygon_set_data_body_mistyped k p_data h
      refine ⟨⟨message, ?_⟩, ?_⟩
      · show (k.set_data_body p_data).2 = _
        rw [hm]
      · show Shape.convex_polygon (k.set_data_body p_data).1 = _
        rw [hm]
        rfl
    | concave_polygon k =>
      obtain ⟨message, hm⟩ := concave_polygon_set_data_body_mistyped k p_data h
      refine ⟨⟨message, ?_⟩, ?_⟩
      · show (k.set_data_body p_data).2 = _
        rw [hm]
      · show Shape.concave_polygon (k.set_data_body p_data).1 = _
        rw [hm]
        rfl
    | height_map k =>
      obtain ⟨message, hm⟩ := height_map_set_data_body_mistyped k p_data h
      refine ⟨⟨message, ?_⟩, ?_⟩
      · show (k.set_data_body p_data).2 = _
        rw [hm]
      · show Shape.height_map (k.set_data_body p_data).1 = _
        rw [hm]
        rfl
  exact ⟨key.1, key.2, Shape.jolt_ref_set_data s p_data p_lock⟩

/-- Witness for C10: the sample separation ray (length 2, sliding, cache slot
filled) receives a record with a float `length` and an integer
`slide_on_slope`: it ends with length 0, no sliding and an empty slot. -/
theorem set_data_wrong_type_clears_witness :
    sample_ray.well_typed sample_ray_record = false ∧
    (sample_ray.set_data sample_ray_record true).shape
      = (Shape.separation_ray
          { jolt_ref := none, ref_counts_by_owner := [(1, 1)], length := (0 : ℚ), slide_on_slope := false } :
          Shape ℚ Nat) :=
  ⟨by decide,
    (set_data_wrong_type_clears sample_ray sample_ray_record true (by decide)).2.1.trans rfl⟩

end mistyped

/-! ## Round trip through `get_data` -/

section round_trip

variable {F H : Type} [Float32Ops F]

theorem world_boundary_settled_set_data_body (k : JoltWorldBoundaryShape3D F H)
    (v : Variant F) : (k.set_data_body v).1.settled := by
  unfold JoltWorldBoundaryShape3D.set_data_body JoltWorldBoundaryShape3D.initialize
    JoltWorldBoundaryShape3D.clear JoltWorldBoundaryShape3D.settled
  dsimp only
  repeat' split
  all_goals simp_all

theorem world_boundary_round_trip (k : JoltWorldBoundaryShape3D F H)
    (h : k.settled) : k.set_data_body k.get_data = ({ k with jolt_ref := none }, []) := by
  obtain ⟨base, plane⟩ := k
  simp only [JoltWorldBoundaryShape3D.settled] at h
  unfold JoltWorldBoundaryShape3D.set_data_body JoltWorldBoundaryShape3D.get_data
    JoltWorldBoundaryShape3D.initialize JoltWorldBoundaryShape3D.clear
  rcases h with h | h
  · subst h
    dsimp only
    split_ifs <;> rfl
  · simp [h]

theorem separation_ray_settled_set_data_body (k : JoltSeparationRayShape3D F H)
    (v : Variant F) : (k.set_data_body v).1.settled := by
  unfold JoltSeparationRayShape3D.set_data_body JoltSeparationRayShape3D.initialize
    JoltSeparationRayShape3D.clear JoltSeparationRayShape3D.settled
  dsimp only
  repeat' split
  all_goals simp_all

theorem separation_ray_round_trip (k : JoltSeparationRayShape3D F H)
    (h : k.settled) : k.set_data_body k.get_data = ({ k with jolt_ref := none }, []) := by
  obtain ⟨base, length, slide⟩ := k
  simp only [JoltSeparationRayShape3D.settled] at h
  unfold JoltSeparationRayShape3D.set_data_body JoltSeparationRayShape3D.get_data
  simp only [Dictionary.get, Dictionary.set]
  simp
  unfold JoltSeparationRayShape3D.initialize JoltSeparationRayShape3D.clear
  rcases h with ⟨h1, h2⟩ | h
  · subst h1 h2
    dsimp only
    split_ifs <;> simp
  · simp [h]

theorem sphere_settled_set_data_body (k : JoltSphereShape3D F H) (v : Variant F) :
    (k.set_data_body v).1.settled := by
  unfold JoltSphereShape3D.set_data_body JoltSphereShape3D.initialize JoltSphereShape3D.clear
    JoltSphereShape3D.settled
  dsimp only
  repeat' split
  all_goals simp_all

theorem sphere_round_trip (k : JoltSphereShape3D F H) (h : k.settled) :
    k.set_data_body k.get_data = ({ k with jolt_ref := none }, []) := by
  obtain ⟨base, radius⟩ := k
  simp only [JoltSphereShape3D.settled] at h
  unfold JoltSphereShape3D.set_data_body JoltSphereShape3D.get_data
    JoltSphereShape3D.initialize JoltSphereShape3D.clear
  rcases h with h | h
  · subst h
    dsimp only
    split_ifs <;> rfl
  · simp [h]

theorem box_settled_set_data_body (k : JoltBoxShape3D F H) (v : Variant F) :
    (k.set_data_body v).1.settled := by
  unfold JoltBoxShape3D.set_data_body JoltBoxShape3D.initialize JoltBoxShape3D.clear
    JoltBoxShape3D.settled
  dsimp only
  repeat' split
  all_goals simp_all

theorem box_settled_set_margin_body (k : JoltBoxShape3D F H) (m : F) :
    (k.set_margin_body m).1.settled := by
  unfold JoltBoxShape3D.set_margin_body JoltBoxShape3D.initialize JoltBoxShape3D.clear
    JoltBoxShape3D.settled
  dsimp only
  repeat' split
  all_goals simp_all

theorem box_round_trip (k : JoltBoxShape3D F H) (h : k.settled) :
    k.set_data_body k.get_data = ({ k with jolt_ref := none }, []) := by
  obtain ⟨base, half_extents, margin⟩ := k
  simp only [JoltBoxShape3D.settled] at h
  unfold JoltBoxShape3D.set_data_body JoltBoxShape3D.get_data
    JoltBoxShape3D.initialize JoltBoxShape3D.clear
  rcases h with h | h
  · subst h
    dsimp only
    split_ifs <;> rfl
  · simp [h]

theorem capsule_settled_set_data_body (k : JoltCapsuleShape3D F H) (v : Variant F) :
    (k.set_data_body v).1.settled := by
  unfold JoltCapsuleShape3D.set_data_body JoltCapsuleShape3D.initialize JoltCapsuleShape3D.clear
    JoltCapsuleShape3D.settled
  dsimp only
  repeat' split
  all_goals simp_all

theorem capsule_round_trip (k : JoltCapsuleShape3D F H) (h : k.settled) :
    k.set_data_body k.get_data = ({ k with jolt_ref := none }, []) := by
  obtain ⟨base, height, radius⟩ := k
  simp only [JoltCapsuleShape3D.settled] at h
  unfold JoltCapsuleShape3D.set_data_body JoltCapsuleShape3D.get_data
  simp only [Dictionary.get, Dictionary.set]
  simp
  unfold JoltCapsuleShape3D.initialize JoltCapsuleShape3D.clear
  rcases h with ⟨h1, h2⟩ | ⟨h1, h2, h3⟩
  · subst h1 h2
    simp [Float32Ops.le_zero_zero]
  · simp [h1, h2, h3]

theorem cylinder_settled_set_data_body (k : JoltCylinderShape3D F H)
    (v : Variant F) : (k.set_data_body v).1.settled := by
  unfold JoltCylinderShape3D.set_data_body JoltCylinderShape3D.initialize
    JoltCylinderShape3D.clear JoltCylinderShape3D.settled
  dsimp only
  repeat' split
  all_goals simp_all

theorem cylinder_settled_set_margin_body (k : JoltCylinderShape3D F H) (m : F) :
    (k.set_margin_body m).1.settled := by
  unfold JoltCylinderShape3D.set_margin_body JoltCylinderShape3D.initialize
    JoltCylinderShape3D.clear JoltCylinderShape3D.settled
  dsimp only
  repeat' split
  all_goals simp_all

theorem cylinder_round_trip (k : JoltCylinderShape3D F H) (h : k.settled) :
    k.set_data_body k.get_data = ({ k with jolt_ref := none }, []) := by
  obtain ⟨base, height, radius, margin⟩ := k
  simp only [JoltCylinderShape3D.settled] at h
  unfold JoltCylinderShape3D.set_data_body JoltCylinderShape3D.get_data
  simp only [Dictionary.get, Dictionary.set]
  simp
  unfold JoltCylinderShape3D.initialize JoltCylinderShape3D.clear
  rcases h with ⟨h1, h2⟩ | ⟨h1, h2⟩
  · subst h1 h2
    dsimp only
    split_ifs <;> simp
  · simp [h1, h2]

theorem convex_polygon_settled_set_data_body {F H : Type}
    (k : JoltConvexPolygonShape3D F H) (v : Variant F) : (k.set_data_body v).1.settled := by
  unfold JoltConvexPolygonShape3D.set_data_body JoltConvexPolygonShape3D.initialize
    JoltConvexPolygonShape3D.clear JoltConvexPolygonShape3D.settled
  dsimp only
  repeat' split
  all_goals simp_all

theorem convex_polygon_settled_set_margin_body {F H : Type}
    (k : JoltConvexPolygonShape3D F H) (m : F) : (k.set_margin_body m).1.settled := by
  unfold JoltConvexPolygonShape3D.set_margin_body JoltConvexPolygonShape3D.initialize
    JoltConvexPolygonShape3D.clear JoltConvexPolygonShape3D.settled
  dsimp only
  repeat' split
  all_goals simp_all

theorem convex_polygon_round_trip {F H : Type} (k : JoltConvexPolygonShape3D F H)
    (h : k.settled) : k.set_data_body k.get_data = ({ k with jolt_ref := none }, []) := by
  obtain ⟨base, vertices, margin⟩ := k
  simp only [JoltConvexPolygonShape3D.settled] at h
  unfold JoltConvexPolygonShape3D.set_data_body JoltConvexPolygonShape3D.get_data
    JoltConvexPolygonShape3D.initialize JoltConvexPolygonShape3D.clear
  rcases h with h | h
  · subst h
    simp
  · have h3 : ¬ vertices.length < 3 := by omega
    simp [h3]

theorem concave_polygon_settled_set_data_body {F H : Type}
    (k : JoltConcavePolygonShape3D F H) (v : Variant F) : (k.set_data_body v).1.settled := by
  unfold JoltConcavePolygonShape3D.set_data_body JoltConcavePolygonShape3D.initialize
    JoltConcavePolygonShape3D.clear JoltConcavePolygonShape3D.settled
  dsimp only
  repeat' split
  all_goals simp_all

theorem concave_polygon_round_trip {F H : Type} (k : JoltConcavePolygonShape3D F H)
    (h : k.settled) : k.set_data_body k.get_data = ({ k with jolt_ref := none }, []) := by
  obtain ⟨base, faces, backface⟩ := k
  simp only [JoltConcavePolygonShape3D.settled] at h
  unfold JoltConcavePolygonShape3D.set_data_body JoltConcavePolygonShape3D.get_data
  simp only [Dictionary.get, Dictionary.set]
  simp
  unfold JoltConcavePolygonShape3D.initialize JoltConcavePolygonShape3D.clear
  rcases h with ⟨h1, h2⟩ | ⟨h1, h2⟩
  · subst h1 h2
    simp
  · have h3 : ¬ faces.length / 3 = 0 := by omega
    simp [h1, h2, h3]

theorem int32_of_idempotent (i : Int) : int32_of (int32_of i) = int32_of i := by
  unfold int32_of
  omega

theorem int32_of_size_zero : int32_of_size 0 = 0 := by
  simp [int32_of_size]

theorem height_map_initialize_outcome {F H : Type} (s : JoltHeightMapShape3D F H)
    (p_heights : List F) (p_width p_depth : Int) :
    ((int32_of_size p_heights.length = 0 ∨ p_width ≤ 2 ∨ p_depth ≤ 2) ∧
      s.initialize p_heights p_width p_depth = { shape := s, ok := false, reports := [] }) ∨
    (¬ (int32_of_size p_heights.length = 0 ∨ p_width ≤ 2 ∨ p_depth ≤ 2) ∧
      (int32_of_size p_heights.length ≠ int32_of (p_width * p_depth) ∨ p_width ≠ p_depth ∨
        is_power_of_2 (uint32_of p_width) = false) ∧
      ∃ message : String, s.initialize p_heights p_width p_depth
        = { shape := s, ok := false, reports := [Report.error message] }) ∨
    (height_map_accepts p_heights.length p_width p_depth ∧
      s.initialize p_heights p_width p_depth
        = { shape := { s with heights := p_heights, width := p_width, depth := p_depth }
            ok := true
            reports := [] }) := by
  have key : ∀ r : Initialized (JoltHeightMapShape3D F H),
      r = s.initialize p_heights p_width p_depth →
      ((int32_of_size p_heights.length = 0 ∨ p_width ≤ 2 ∨ p_depth ≤ 2) ∧
        r = { shape := s, ok := false, reports := [] }) ∨
      (¬ (int32_of_size p_heights.length = 0 ∨ p_width ≤ 2 ∨ p_depth ≤ 2) ∧
        (int32_of_size p_heights.length ≠ int32_of (p_width * p_depth) ∨ p_width ≠ p_depth ∨
          is_power_of_2 (uint32_of p_width) = false) ∧
        ∃ message : String, r = { shape := s, ok := false, reports := [Report.error message] }) ∨
      (height_map_accepts p_heights.length p_width p_depth ∧
        r = { shape := { s with heights := p_heights, width := p_width, depth := p_depth }
              ok := true
              reports := [] }) := by
    intro r hr
    unfold JoltHeightMapShape3D.initialize at hr
    dsimp only at hr
    unfold height_map_accepts
    split_ifs at hr with h1 h2 h3 h4 h5
    · exact Or.inl ⟨Or.inl h1, hr⟩
    · exact Or.inl ⟨Or.inr h2, hr⟩
    · refine Or.inr (Or.inl ⟨?_, Or.inl h3, _, hr⟩)
      rintro (h | h)
      · exact h1 h
      · exact h2 h
    · refine Or.inr (Or.inl ⟨?_, Or.inr (Or.inl h4), _, hr⟩)
      rintro (h | h)
      · exact h1 h
      · exact h2 h
    · refine Or.inr (Or.inl ⟨?_, Or.inr (Or.inr ?_), _, hr⟩)
      · rintro (h | h)
        · exact h1 h
        · exact h2 h
      · simpa using h5
    · refine Or.inr (Or.inr ⟨⟨h1, h2, ?_, ?_, ?_⟩, hr⟩)
      · simpa using h3
      · simpa using h4
      · simpa using h5
  exact key _ rfl

theorem height_map_settled_set_data_body {F H : Type}
    (k : JoltHeightMapShape3D F H) (v : Variant F) : (k.set_data_body v).1.settled := by
  rcases height_map_set_data_body_cases k v with
    ⟨message, h⟩ | ⟨_, heights, width, depth, _, _, _, _, h⟩
  · rw [h]
    exact Or.inl ⟨rfl, rfl, rfl⟩
  · rw [h]
    rcases height_map_initialize_outcome k.clear heights (int32_of width)
      (int32_of depth) with ⟨_, h2⟩ | ⟨_, _, _, h2⟩ | ⟨hacc, h2⟩
    · rw [h2]
      exact Or.inl ⟨rfl, rfl, rfl⟩
    · rw [h2]
      exact Or.inl ⟨rfl, rfl, rfl⟩
    · rw [h2]
      exact Or.inr ⟨hacc, int32_of_idempotent width, int32_of_idempotent depth⟩

theorem height_map_round_trip {F H : Type} (k : JoltHeightMapShape3D F H)
    (h : k.settled) : k.set_data_body k.get_data = ({ k with jolt_ref := none }, []) := by
  obtain ⟨base, heights, width, depth⟩ := k
  simp only [JoltHeightMapShape3D.settled] at h
  unfold JoltHeightMapShape3D.set_data_body JoltHeightMapShape3D.get_data
  simp only [Dictionary.get, Dictionary.set]
  simp
  rcases h with ⟨h1, h2, h3⟩ | ⟨hacc, h2, h3⟩
  · subst h1 h2 h3
    rcases height_map_initialize_outcome
      (JoltHeightMapShape3D.clear (JoltHeightMapShape3D.mk base ([] : List F) 0 0))
      ([] : List F) (int32_of 0) (int32_of 0) with
      ⟨_, h4⟩ | ⟨hn, _, _, _⟩ | ⟨hacc, _⟩
    · rw [h4]
      exact ⟨rfl, rfl⟩
    · exact absurd (Or.inl int32_of_size_zero) hn
    · exact absurd int32_of_size_zero hacc.1
  · rw [h2, h3]
    rcases height_map_initialize_outcome
      (JoltHeightMapShape3D.clear (JoltHeightMapShape3D.mk base heights width depth))
      heights width depth with
      ⟨hs, _⟩ | ⟨hn, _, _, _⟩ | ⟨_, h4⟩
    · exact absurd hs (by
        rintro (h | h)
        · exact hacc.1 h
        · exact hacc.2.1 h)
    · rcases ‹_ ∨ _ ∨ _› with h | h | h
      · exact absurd hacc.2.2.1 h
      · exact absurd hacc.2.2.2.1 h
      · rw [hacc.2.2.2.2] at h; cases h
    · rw [h4]
      exact ⟨rfl, rfl⟩

theorem Shape.settled_with_base (s : Shape F H) (b : JoltShape3D H) :
    (s.with_base b).settled ↔ s.settled := by
  cases s <;> exact Iff.rfl

theorem Shape.get_data_with_base {F H : Type} (s : Shape F H) (b : JoltShape3D H) :
    (s.with_base b).get_data = s.get_data := by
  cases s <;> rfl

theorem Shape.settled_set_data (s : Shape F H) (p_data : Variant F) (p_lock : Bool) :
    (s.set_data p_data p_lock).shape.settled := by
  cases s with
  | world_boundary k => exact world_boundary_settled_set_data_body k p_data
  | separation_ray k => exact separation_ray_settled_set_data_body k p_data
  | sphere k => exact sphere_settled_set_data_body k p_data
  | box k => exact box_settled_set_data_body k p_data
  | capsule k => exact capsule_settled_set_data_body k p_data
  | cylinder k => exact cylinder_settled_set_data_body k p_data
  | convex_polygon k => exact convex_polygon_settled_set_data_body k p_data
  | concave_polygon k => exact concave_polygon_settled_set_data_body k p_data
  | height_map k => exact height_map_settled_set_data_body k p_data

theorem Shape.settled_set_margin (s : Shape F H) (p_margin : F) (p_lock : Bool)
    (r : Mutation (Shape F H)) (hr : s.set_margin p_margin p_lock = some r) :
    r.shape.settled := by
  cases s with
  | box k =>
    simp only [Shape.set_margin, Option.some.injEq] at hr
    subst hr
    exact box_settled_set_margin_body k p_margin
  | cylinder k =>
    simp only [Shape.set_margin, Option.some.injEq] at hr
    subst hr
    exact cylinder_settled_set_margin_body k p_margin
  | convex_polygon k =>
    simp only [Shape.set_margin, Option.some.injEq] at hr
    subst hr
    exact convex_polygon_settled_set_margin_body k p_margin
  | world_boundary k => simp [Shape.set_margin] at hr
  | separation_ray k => simp [Shape.set_margin] at hr
  | sphere k => simp [Shape.set_margin] at hr
  | capsule k => simp [Shape.set_margin] at hr
  | concave_polygon k => simp [Shape.set_margin] at hr
  | height_map k => simp [Shape.set_margin] at hr

theorem Shape.settled_try_build {W : Type} (is_valid : Shape F H → Bool)
    (engine : Engine F H W) (s : Shape F H) (p_extra_margin : F) (world : W)
    (h : s.settled) : (s.try_build is_valid engine p_extra_margin world).shape.settled := by
  unfold Shape.try_build
  split
  · exact h
  · split
    · exact h
    · split
      · exact (Shape.settled_with_base s _).2 h
      · exact h

theorem Shape.settled_of_configured {W : Type} (is_valid : Shape F H → Bool)
    (engine : Engine F H W) (s : Shape F H) (hs : Configured is_valid engine s) :
    s.settled := by
  induction hs with
  | set_data t v l => exact Shape.settled_set_data t v l
  | set_margin t m l r hr => exact Shape.settled_set_margin t m l r hr
  | try_build t em w _ ih => exact Shape.settled_try_build is_valid engine t em w ih
  | add_owner t o _ ih => exact (Shape.settled_with_base t _).2 ih
  | remove_owner t o _ ih => exact (Shape.settled_with_base t _).2 ih

theorem Shape.round_trip_of_settled (s : Shape F H) (p_lock : Bool) (h : s.settled) :
    (s.set_data s.get_data p_lock).reports = [] ∧
    (s.set_data s.get_data p_lock).shape = s.with_jolt_ref none := by
  cases s with
  | world_boundary k =>
    have hk := world_boundary_round_trip k h
    refine ⟨?_, ?_⟩
    · show (k.set_data_body k.get_data).2 = _
      rw [hk]
    · show Shape.world_boundary (k.set_data_body k.get_data).1 = _
      rw [hk]
      rfl
  | separation_ray k =>
    have hk := separation_ray_round_trip k h
    refine ⟨?_, ?_⟩
    · show (k.set_data_body k.get_data).2 = _
      rw [hk]
    · show Shape.separation_ray (k.set_data_body k.get_data).1 = _
      rw [hk]
      rfl
  | sphere k =>
    have hk := sphere_round_trip k h
    refine ⟨?_, ?_⟩
    · show (k.set_data_body k.get_data).2 = _
      rw [hk]
    · show Shape.sphere (k.set_data_body k.get_data).1 = _
      rw [hk]
      rfl
  | box k =>
    have hk := box_round_trip k h
    refine ⟨?_, ?_⟩
    · show (k.set_data_body k.get_data).2 = _
      rw [hk]
    · show Shape.box (k.set_data_body k.get_data).1 = _
      rw [hk]
      rfl
  | capsule k =>
    have hk := capsule_round_trip k h
    refine ⟨?_, ?_⟩
    · show (k.set_data_body k.get_data).2 = _
      rw [hk]
    · show Shape.capsule (k.set_data_body k.get_data).1 = _
      rw [hk]
      rfl
  | cylinder k =>
    have hk := cylinder_round_trip k h
    refine ⟨?_, ?_⟩
    · show (k.set_data_body k.get_data).2 = _
      rw [hk]
    · show Shape.cylinder (k.set_data_body k.get_data).1 = _
      rw [hk]
      rfl
  | convex_polygon k =>
    have hk := convex_polygon_round_trip k h
    refine ⟨?_, ?_⟩
    · show (k.set_data_body k.get_data).2 = _
      rw [hk]
    · show Shape.convex_polygon (k.set_data_body k.get_data).1 = _
      rw [hk]
      rfl
  | concave_polygon k =>
    have hk := concave_polygon_round_trip k h
    refine ⟨?_, ?_⟩
    · show (k.set_data_body k.get_data).2 = _
      rw [hk]
    · show Shape.concave_polygon (k.set_data_body k.get_data).1 = _
      rw [hk]
      rfl
  | height_map k =>
    have hk := height_map_round_trip k h
    refine ⟨?_, ?_⟩
    · show (k.set_data_body k.get_data).2 = _
      rw [hk]
    · show Shape.height_map (k.set_data_body k.get_data).1 = _
      rw [hk]
      rfl

/-- C9. Round trip. For every shape of any kind in a state whose parameters
were stored by `set_data` or `set_margin` (on any earlier state, also followed
by `try_build`, `add_owner` and `remove_owner` calls): `set_data(get_data())`
reports nothing and yields the same shape with an empty cache slot, so with
the same stored parameters. Hence the value of `get_data()` is the same, every
`build` hands the same arguments to the native engine, and an `is_valid` that
reads parameters only gives the same answer. -/
theorem set_data_get_data_round_trip {W : Type} (is_valid : Shape F H → Bool)
    (engine : Engine F H W) (s : Shape F H) (p_lock : Bool)
    (hs : Configured is_valid engine s) :
    (s.set_data s.get_data p_lock).reports = [] ∧
    (s.set_data s.get_data p_lock).shape = s.with_jolt_ref none ∧
    (s.set_data s.get_data p_lock).shape.get_data = s.get_data ∧
    (∀ (p_extra_margin : F) (world : W),
      (s.set_data s.get_data p_lock).shape.build engine p_extra_margin world
        = s.build engine p_extra_margin world) ∧
    ((∀ (t : Shape F H) (r : Option H), is_valid (t.with_jolt_ref r) = is_valid t) →
      is_valid (s.set_data s.get_data p_lock).shape = is_valid s) := by
  have h := Shape.round_trip_of_settled s p_lock
    (Shape.settled_of_configured is_valid engine s hs)
  refine ⟨h.1, h.2, ?_, ?_, ?_⟩
  · rw [h.2]
    exact Shape.get_data_with_base s _
  · intro em w
    rw [h.2]
    exact Shape.build_with_jolt_ref s none engine em w
  · intro hcache
    rw [h.2, hcache]

/-- Witness for C9: the sample sphere after `set_data(2.0)`; writing back what
`get_data` returns reports nothing. -/
theorem set_data_get_data_round_trip_witness :
    Configured always_valid (counting_engine ℚ) (sample_sphere.set_data (.FLOAT 2) true).shape ∧
    ((sample_sphere.set_data (.FLOAT 2) true).shape.set_data
      (sample_sphere.set_data (.FLOAT 2) true).shape.get_data true).reports = [] :=
  ⟨Configured.set_data _ _ _,
    (set_data_get_data_round_trip always_valid (counting_engine ℚ) _ true
      (Configured.set_data sample_sphere (.FLOAT 2) true)).1⟩

end round_trip

/-! ## Height map validation -/

section height_map

theorem is_power_of_2_iff (n : Nat) : is_power_of_2 n = true ↔ ∃ k : Nat, n = 2 ^ k := by
  unfold is_power_of_2
  rw [decide_eq_true_iff]
  constructor
  · intro h
    exact ⟨Nat.log2 n, h.symm⟩
  · rintro ⟨k, rfl⟩
    rw [Nat.log2_two_pow]

theorem int32_of_size_small (n : Nat) (h : n < 2147483648) : int32_of_size n = (n : Int) := by
  unfold int32_of_size
  have h1 : n % 4294967296 = n := Nat.mod_eq_of_lt (by omega)
  simp only [h1]
  rw [if_pos h]

theorem int32_of_small (i : Int) (h1 : -2147483648 ≤ i) (h2 : i < 2147483648) :
    int32_of i = i := by
  unfold int32_of
  omega

theorem uint32_of_small (i : Int) (h1 : 0 ≤ i) (h2 : i < 4294967296) :
    ((uint32_of i : Nat) : Int) = i := by
  unfold uint32_of
  rw [Int.emod_eq_of_lt h1 h2]
  exact Int.toNat_of_nonneg h1

theorem power_of_two_width (w : Int) (h1 : 2 < w) (h2 : w < 2147483648) :
    is_power_of_2 (uint32_of w) = true ↔ ∃ k : Nat, w = 2 ^ k := by
  have hc := uint32_of_small w (by omega) (by omega)
  rw [is_power_of_2_iff]
  constructor
  · rintro ⟨k, hk⟩
    refine ⟨k, ?_⟩
    rw [← hc, hk]
    push_cast
    rfl
  · rintro ⟨k, hk⟩
    refine ⟨k, ?_⟩
    have : ((uint32_of w : Nat) : Int) = ((2 ^ k : Nat) : Int) := by
      rw [hc, hk]; push_cast; rfl
    exact_mod_cast this

theorem power_of_two_square_cast (w : Int) (k : Nat) (hk : w = 2 ^ k) (h2 : w < 2147483648) :
    int32_of (w * w) = w * w ∨ int32_of (w * w) = 0 := by
  have hk31 : k < 31 := by
    by_contra hcon
    have h31 : (2 : Int) ^ 31 ≤ 2 ^ k := by
      apply pow_le_pow_right₀ (by norm_num)
      omega
    rw [← hk] at h31
    norm_num at h31
    omega
  subst hk
  unfold int32_of
  interval_cases k <;> norm_num

theorem height_map_error_condition (n : Nat) (w d : Int) (hn : n < 2147483648)
    (hn0 : n ≠ 0) (hw2 : 2 < w) (hw : w < 2147483648) (hd2 : 2 < d) (hd : d < 2147483648) :
    (int32_of_size n ≠ int32_of (w * d) ∨ w ≠ d ∨ is_power_of_2 (uint32_of w) = false) ↔
    ((n : Int) ≠ w * d ∨ w ≠ d ∨ ¬ ∃ k : Nat, w = 2 ^ k) := by
  rw [int32_of_size_small n hn]
  have hpow := power_of_two_width w hw2 hw
  constructor
  · rintro (h | h | h)
    · left
      intro hcon
      apply h
      rw [← hcon, int32_of_small _ (by omega) (by omega)]
    · exact Or.inr (Or.inl h)
    · right; right
      intro hex
      rw [hpow.2 hex] at h
      cases h
  · rintro (h | h | h)
    · by_cases hwd : w = d
      · by_cases hp : is_power_of_2 (uint32_of w) = true
        · left
          obtain ⟨k, hk⟩ := hpow.1 hp
          subst hwd
          rcases power_of_two_square_cast w k hk hw with h1 | h1
          · rw [h1]; exact h
          · rw [h1]
            exact_mod_cast hn0
        · right; right
          simpa using hp
      · exact Or.inr (Or.inl hwd)
    · exact Or.inr (Or.inl h)
    · right; right
      cases hp : is_power_of_2 (uint32_of w) with
      | false => rfl
      | true => exact absurd (hpow.1 hp) h

/-- C11. Height field validation. For samples, width and depth of the expected
types (a sample array whose size fits the cast `(int32_t)size()`, 32-bit width
and depth), handed to `initialize` on the cleared shape as `set_data` does:
no error is reported and the shape stays cleared iff the sample count is 0 or
width <= 2 or depth <= 2; outside that case an error is reported iff the
sample count differs from width*depth (the product of the integers) or
width != depth or width is not a power of two, and the shape then stays
cleared (no samples, width = depth = 0); in every remaining case samples,
width and depth are stored unchanged and nothing is reported. -/
theorem height_map_validation {F H : Type} (s : JoltHeightMapShape3D F H)
    (p_heights : List F) (p_width p_depth : Int)
    (hsize : p_heights.length < 2147483648)
    (hw : -2147483648 ≤ p_width ∧ p_width < 2147483648)
    (hd : -2147483648 ≤ p_depth ∧ p_depth < 2147483648) :
    ((( s.clear.initialize p_heights p_width p_depth).reports = [] ∧
        ( s.clear.initialize p_heights p_width p_depth).shape = s.clear) ↔
      (p_heights.length = 0 ∨ p_width ≤ 2 ∨ p_depth ≤ 2)) ∧
    (¬ (p_heights.length = 0 ∨ p_width ≤ 2 ∨ p_depth ≤ 2) →
      ((∃ message : String,
          ( s.clear.initialize p_heights p_width p_depth).reports = [Report.error message]) ↔
        ((p_heights.length : Int) ≠ p_width * p_depth ∨ p_width ≠ p_depth ∨
          ¬ ∃ k : Nat, p_width = 2 ^ k))) ∧
    ((∃ message : String,
        ( s.clear.initialize p_heights p_width p_depth).reports = [Report.error message]) →
      ( s.clear.initialize p_heights p_width p_depth).shape = s.clear) ∧
    (¬ (p_heights.length = 0 ∨ p_width ≤ 2 ∨ p_depth ≤ 2) →
      ¬ ((p_heights.length : Int) ≠ p_width * p_depth ∨ p_width ≠ p_depth ∨
          ¬ ∃ k : Nat, p_width = 2 ^ k) →
      s.clear.initialize p_heights p_width p_depth
        = { shape := { s.clear with heights := p_heights, width := p_width, depth := p_depth }
            ok := true
            reports := [] }) ∧
    (s.clear.heights = [] ∧ s.clear.width = 0 ∧ s.clear.depth = 0) ∧
    (∀ data : Dictionary F,
      Dictionary.get data "heights" = Variant.PACKED_FLOAT32_ARRAY p_heights →
      Dictionary.get data "width" = Variant.INT p_width →
      Dictionary.get data "depth" = Variant.INT p_depth →
      s.set_data_body (Variant.DICTIONARY data)
        = (( s.clear.initialize p_heights p_width p_depth).shape,
            ( s.clear.initialize p_heights p_width p_depth).reports)) := by
  have hsz : int32_of_size p_heights.length = 0 ↔ p_heights.length = 0 := by
    rw [int32_of_size_small _ hsize]
    omega
  have hsilent : (int32_of_size p_heights.length = 0 ∨ p_width ≤ 2 ∨ p_depth ≤ 2) ↔
      (p_heights.length = 0 ∨ p_width ≤ 2 ∨ p_depth ≤ 2) := by
    rw [hsz]
  have herr : ¬ (p_heights.length = 0 ∨ p_width ≤ 2 ∨ p_depth ≤ 2) →
      ((int32_of_size p_heights.length ≠ int32_of (p_width * p_depth) ∨ p_width ≠ p_depth ∨
          is_power_of_2 (uint32_of p_width) = false) ↔
        ((p_heights.length : Int) ≠ p_width * p_depth ∨ p_width ≠ p_depth ∨
          ¬ ∃ k : Nat, p_width = 2 ^ k)) := by
    intro hns
    have h0 : p_heights.length ≠ 0 := fun h => hns (Or.inl h)
    have h1 : 2 < p_width := by
      by_contra hc
      exact hns (Or.inr (Or.inl (by omega)))
    have h2 : 2 < p_depth := by
      by_contra hc
      exact hns (Or.inr (Or.inr (by omega)))
    exact height_map_error_condition _ _ _ hsize h0 h1 hw.2 h2 hd.2
  have hclear : s.clear.heights = [] ∧ s.clear.width = 0 ∧ s.clear.depth = 0 :=
    ⟨rfl, rfl, rfl⟩
  have hbody : ∀ data : Dictionary F,
      Dictionary.get data "heights" = Variant.PACKED_FLOAT32_ARRAY p_heights →
      Dictionary.get data "width" = Variant.INT p_width →
      Dictionary.get data "depth" = Variant.INT p_depth →
      s.set_data_body (Variant.DICTIONARY data)
        = (( s.clear.initialize p_heights p_width p_depth).shape,
            ( s.clear.initialize p_heights p_width p_depth).reports) := by
    intro data g1 g2 g3
    unfold JoltHeightMapShape3D.set_data_body
    simp only [g1, g2, g3]
    rw [int32_of_small _ hw.1 hw.2, int32_of_small _ hd.1 hd.2]
  rcases height_map_initialize_outcome s.clear p_heights p_width p_depth with
    ⟨hs, h⟩ | ⟨hns, he, message, h⟩ | ⟨hacc, h⟩
  · have hs2 := hsilent.1 hs
    rw [h]
    refine ⟨⟨fun _ => hs2, fun _ => ⟨rfl, rfl⟩⟩, fun hn => absurd hs2 hn, fun _ => rfl,
      fun hn => absurd hs2 hn, hclear, ?_⟩
    rw [← h]
    exact hbody
  · have hns2 : ¬ (p_heights.length = 0 ∨ p_width ≤ 2 ∨ p_depth ≤ 2) :=
      fun hc => hns (hsilent.2 hc)
    have he2 := (herr hns2).1 he
    rw [h]
    refine ⟨⟨fun hc => ?_, fun hc => absurd hc hns2⟩, fun _ => ⟨fun _ => he2, fun _ => ⟨message, rfl⟩⟩,
      fun _ => rfl, fun _ hn => absurd he2 hn, hclear, ?_⟩
    · have := hc.1
      simp at this
    · rw [← h]
      exact hbody
  · have hns2 : ¬ (p_heights.length = 0 ∨ p_width ≤ 2 ∨ p_depth ≤ 2) := by
      intro hc
      rcases hsilent.2 hc with h1 | h1
      · exact hacc.1 h1
      · exact hacc.2.1 h1
    have hne : ¬ ((p_heights.length : Int) ≠ p_width * p_depth ∨ p_width ≠ p_depth ∨
          ¬ ∃ k : Nat, p_width = 2 ^ k) := by
      intro hc
      rcases (herr hns2).2 hc with h1 | h1 | h1
      · exact h1 hacc.2.2.1
      · exact h1 hacc.2.2.2.1
      · rw [hacc.2.2.2.2] at h1; cases h1
    have hw2 : p_width ≠ 0 := by
      intro h0
      apply hns2
      right; left
      omega
    rw [h]
    refine ⟨⟨fun hc => ?_, fun hc => absurd hc hns2⟩,
      fun _ => ⟨fun hex => ?_, fun hc => absurd hc hne⟩, fun hex => ?_,
      fun _ _ => rfl, hclear, ?_⟩
    · exfalso
      have hwid := congrArg JoltHeightMapShape3D.width hc.2
      exact hw2 hwid
    · obtain ⟨m, hm⟩ := hex
      simp at hm
    · obtain ⟨m, hm⟩ := hex
      simp at hm
    · rw [← h]
      exact hbody

/-- Witness for C11: 16 samples with width 4 and depth 4 are stored; 32
samples with width 4 and depth 8 are an error (width differs from depth); 9
samples with width 3 and depth 3 are an error (3 is not a power of two). -/
theorem height_map_validation_witness :
    (List.replicate 16 (0 : ℚ)).length < 2147483648 ∧
    (-2147483648 ≤ (4 : Int) ∧ (4 : Int) < 2147483648) ∧
    sample_height_map.clear.initialize (List.replicate 16 0) 4 4
      = { shape := { sample_height_map.clear with heights := List.replicate 16 0, width := 4, depth := 4 }
          ok := true
          reports := [] } ∧
    (∃ message : String,
      ( sample_height_map.clear.initialize (List.replicate 32 0) 4 8).reports
        = [Report.error message]) ∧
    (∃ message : String,
      ( sample_height_map.clear.initialize (List.replicate 9 0) 3 3).reports
        = [Report.error message]) :=
  ⟨by simp, by decide,
    (height_map_validation sample_height_map (List.replicate 16 0) 4 4 (by simp) (by decide)
      (by decide)).2.2.2.1 (by simp)
      (not_or.2 ⟨by simp, not_or.2 ⟨by simp, not_not.2 ⟨2, by norm_num⟩⟩⟩),
    ((height_map_validation sample_height_map (List.replicate 32 0) 4 8 (by simp) (by decide)
      (by decide)).2.1 (by simp)).2 (Or.inr (Or.inl (by decide))),
    ((height_map_validation sample_height_map (List.replicate 9 0) 3 3 (by simp) (by decide)
      (by decide)).2.1 (by simp)).2 (Or.inr (Or.inr (by
        rintro ⟨k, hk⟩
        rcases k with _ | _ | k
        · simp at hk
        · simp at hk
        · rw [pow_succ, pow_succ] at hk
          omega)))⟩

end height_map

/-! ## Capsule and concave polygon validation -/

section validation

variable {F H : Type} [Float32Ops F]

theorem capsule_initialize_outcome (s : JoltCapsuleShape3D F H) (p_height p_radius : F) :
    ((Float32Ops.le p_height Float32Ops.zero = true ∨
        Float32Ops.le p_radius Float32Ops.zero = true) ∧
      s.initialize p_height p_radius = { shape := s, ok := false, reports := [] }) ∨
    (¬ (Float32Ops.le p_height Float32Ops.zero = true ∨
        Float32Ops.le p_radius Float32Ops.zero = true) ∧
      Float32Ops.lt (Float32Ops.half p_height) p_radius = true ∧
      ∃ message : String, s.initialize p_height p_radius
        = { shape := s, ok := false, reports := [Report.error message] }) ∨
    (¬ (Float32Ops.le p_height Float32Ops.zero = true ∨
        Float32Ops.le p_radius Float32Ops.zero = true) ∧
      Float32Ops.lt (Float32Ops.half p_height) p_radius = false ∧
      s.initialize p_height p_radius
        = { shape := { s with height := p_height, radius := p_radius }
            ok := true
            reports := [] }) := by
  unfold JoltCapsuleShape3D.initialize
  by_cases h1 : Float32Ops.le p_height Float32Ops.zero = true ∨
      Float32Ops.le p_radius Float32Ops.zero = true
  · left
    refine ⟨h1, ?_⟩
    have : (Float32Ops.le p_height Float32Ops.zero || Float32Ops.le p_radius Float32Ops.zero)
        = true := by simpa using h1
    simp [this]
  · right
    have : (Float32Ops.le p_height Float32Ops.zero || Float32Ops.le p_radius Float32Ops.zero)
        = false := by simpa using h1
    cases h2 : Float32Ops.lt (Float32Ops.half p_height) p_radius with
    | true =>
      left
      exact ⟨h1, rfl, "Half height must be equal to or greater than radius.",
        by simp [this, h2]⟩
    | false =>
      right
      exact ⟨h1, rfl, by simp [this, h2]⟩

/-- C12. Capsule validation. For every height and radius handed to
`initialize` on the cleared shape, as `set_data` does with a well-typed record:
no error is reported and the shape stays cleared iff height <= 0 or
radius <= 0; otherwise an error is reported iff height / 2 < radius, and the
shape then stays cleared (height = radius = 0); otherwise (height / 2 is not
below the radius, equality included) height and radius are stored unchanged
and nothing is reported. -/
theorem capsule_validation (s : JoltCapsuleShape3D F H) (p_height p_radius : F) :
    (( s.clear.initialize p_height p_radius).ok = false ∧
        ( s.clear.initialize p_height p_radius).reports = [] ↔
      (Float32Ops.le p_height Float32Ops.zero = true ∨
        Float32Ops.le p_radius Float32Ops.zero = true)) ∧
    (¬ (Float32Ops.le p_height Float32Ops.zero = true ∨
        Float32Ops.le p_radius Float32Ops.zero = true) →
      ((∃ message : String,
          ( s.clear.initialize p_height p_radius).reports = [Report.error message]) ↔
        Float32Ops.lt (Float32Ops.half p_height) p_radius = true)) ∧
    (( s.clear.initialize p_height p_radius).ok = false →
      ( s.clear.initialize p_height p_radius).shape = s.clear) ∧
    (¬ (Float32Ops.le p_height Float32Ops.zero = true ∨
        Float32Ops.le p_radius Float32Ops.zero = true) →
      Float32Ops.lt (Float32Ops.half p_height) p_radius = false →
      s.clear.initialize p_height p_radius
        = { shape := { s.clear with height := p_height, radius := p_radius }
            ok := true
            reports := [] }) ∧
    (s.clear.height = Float32Ops.zero ∧ s.clear.radius = Float32Ops.zero) ∧
    (∀ data : Dictionary F,
      Dictionary.get data "height" = Variant.FLOAT p_height →
      Dictionary.get data "radius" = Variant.FLOAT p_radius →
      s.set_data_body (Variant.DICTIONARY data)
        = (( s.clear.initialize p_height p_radius).shape,
            ( s.clear.initialize p_height p_radius).reports)) := by
  have hbody : ∀ data : Dictionary F,
      Dictionary.get data "height" = Variant.FLOAT p_height →
      Dictionary.get data "radius" = Variant.FLOAT p_radius →
      s.set_data_body (Variant.DICTIONARY data)
        = (( s.clear.initialize p_height p_radius).shape,
            ( s.clear.initialize p_height p_radius).reports) := by
    intro data g1 g2
    unfold JoltCapsuleShape3D.set_data_body
    simp only [g1, g2]
  rcases capsule_initialize_outcome s.clear p_height p_radius with
    ⟨hs, h⟩ | ⟨hns, hlt, message, h⟩ | ⟨hns, hlt, h⟩
  · rw [h]
    exact ⟨⟨fun _ => hs, fun _ => ⟨rfl, rfl⟩⟩, fun hn => absurd hs hn, fun _ => rfl,
      fun hn => absurd hs hn, ⟨rfl, rfl⟩, by rw [← h]; exact hbody⟩
  · rw [h]
    refine ⟨⟨fun hc => ?_, fun hc => absurd hc hns⟩,
      fun _ => ⟨fun _ => hlt, fun _ => ⟨message, rfl⟩⟩, fun _ => rfl,
      fun _ hf => ?_, ⟨rfl, rfl⟩, by rw [← h]; exact hbody⟩
    · have := hc.2
      simp at this
    · rw [hlt] at hf; cases hf
  · rw [h]
    refine ⟨⟨fun hc => ?_, fun hc => absurd hc hns⟩,
      fun _ => ⟨fun hex => ?_, fun hc => ?_⟩, fun hc => ?_,
      fun _ _ => rfl, ⟨rfl, rfl⟩, by rw [← h]; exact hbody⟩
    · have := hc.1
      simp at this
    · obtain ⟨m, hm⟩ := hex
      simp at hm
    · rw [hlt] at hc; cases hc
    · simp at hc

/-- Witness for C12, in exact arithmetic: height 4 and radius 3 report an
error (half height 2 is below 3); height 10 and radius 3 are stored; height 6
and radius 3 (half height equal to the radius) are stored. -/
theorem capsule_validation_witness :
    ¬ (Float32Ops.le (4 : ℚ) Float32Ops.zero = true ∨
      Float32Ops.le (3 : ℚ) Float32Ops.zero = true) ∧
    (∃ message : String,
      ( sample_capsule_fields.clear.initialize 4 3).reports = [Report.error message]) ∧
    sample_capsule_fields.clear.initialize 10 3
      = { shape := { sample_capsule_fields.clear with height := 10, radius := 3 }
          ok := true
          reports := [] } ∧
    sample_capsule_fields.clear.initialize 6 3
      = { shape := { sample_capsule_fields.clear with height := 6, radius := 3 }
          ok := true
          reports := [] } :=
  ⟨by decide,
    ((capsule_validation sample_capsule_fields 4 3).2.1 (by decide)).2
      (by norm_num [Float32Ops.lt, Float32Ops.half]),
    (capsule_validation sample_capsule_fields 10 3).2.2.2.1 (by decide)
      (by norm_num [Float32Ops.lt, Float32Ops.half]),
    (capsule_validation sample_capsule_fields 6 3).2.2.2.1 (by decide)
      (by norm_num [Float32Ops.lt, Float32Ops.half])⟩

theorem concave_polygon_initialize_outcome {F H : Type} (s : JoltConcavePolygonShape3D F H)
    (p_faces : List (Vector3 F)) (p_backface_collision : Bool) :
    (p_faces.length = 0 ∧
      s.initialize p_faces p_backface_collision = { shape := s, ok := false, reports := [] }) ∨
    (p_faces.length ≠ 0 ∧ p_faces.length % 3 ≠ 0 ∧
      ∃ message : String, s.initialize p_faces p_backface_collision
        = { shape := s, ok := false, reports := [Report.error message] }) ∨
    (p_faces.length ≠ 0 ∧ p_faces.length % 3 = 0 ∧
      s.initialize p_faces p_backface_collision
        = { shape := { s with faces := p_faces, backface_collision := p_backface_collision }
            ok := true
            reports := [] }) := by
  unfold JoltConcavePolygonShape3D.initialize
  by_cases h1 : p_faces.length = 0
  · left
    exact ⟨h1, by simp [h1]⟩
  · right
    by_cases h2 : p_faces.length % 3 = 0
    · right
      have h3 : ¬ p_faces.length / 3 = 0 := by omega
      refine ⟨h1, h2, ?_⟩
      simp only [h1, h2, h3, if_false, ne_eq, not_true_eq_false]
    · left
      refine ⟨h1, h2, "Expected a vertex count divisible by 3.", ?_⟩
      simp only [h1, h2, if_false, ne_eq, not_false_eq_true, if_true]

/-- C13. Concave polygon validation. For every face list and flag handed to
`initialize` on the cleared shape, as `set_data` does with a well-typed record:
no error is reported and the shape stays cleared iff the vertex count is 0; an
error is reported iff the vertex count is non-zero and not divisible by 3, and
the shape then stays cleared (empty face list, flag false); in every remaining
case the face list and the flag are stored unchanged and nothing is
reported. -/
theorem concave_polygon_validation {F H : Type} (s : JoltConcavePolygonShape3D F H)
    (p_faces : List (Vector3 F)) (p_backface_collision : Bool) :
    (( s.clear.initialize p_faces p_backface_collision).ok = false ∧
        ( s.clear.initialize p_faces p_backface_collision).reports = [] ↔
      p_faces.length = 0) ∧
    ((∃ message : String,
        ( s.clear.initialize p_faces p_backface_collision).reports = [Report.error message]) ↔
      (p_faces.length ≠ 0 ∧ p_faces.length % 3 ≠ 0)) ∧
    (( s.clear.initialize p_faces p_backface_collision).ok = false →
      ( s.clear.initialize p_faces p_backface_collision).shape = s.clear) ∧
    (p_faces.length ≠ 0 → p_faces.length % 3 = 0 →
      s.clear.initialize p_faces p_backface_collision
        = { shape := { s.clear with faces := p_faces, backface_collision := p_backface_collision }
            ok := true
            reports := [] }) ∧
    (s.clear.faces = [] ∧ s.clear.backface_collision = false) ∧
    (∀ data : Dictionary F,
      Dictionary.get data "faces" = Variant.PACKED_VECTOR3_ARRAY p_faces →
      Dictionary.get data "backface_collision" = Variant.BOOL p_backface_collision →
      s.set_data_body (Variant.DICTIONARY data)
        = (( s.clear.initialize p_faces p_backface_collision).shape,
            ( s.clear.initialize p_faces p_backface_collision).reports)) := by
  have hbody : ∀ data : Dictionary F,
      Dictionary.get data "faces" = Variant.PACKED_VECTOR3_ARRAY p_faces →
      Dictionary.get data "backface_collision" = Variant.BOOL p_backface_collision →
      s.set_data_body (Variant.DICTIONARY data)
        = (( s.clear.initialize p_faces p_backface_collision).shape,
            ( s.clear.initialize p_faces p_backface_collision).reports) := by
    intro data g1 g2
    unfold JoltConcavePolygonShape3D.set_data_body
    simp only [g1, g2]
  rcases concave_polygon_initialize_outcome s.clear p_faces p_backface_collision with
    ⟨h0, h⟩ | ⟨h0, h3, message, h⟩ | ⟨h0, h3, h⟩
  · rw [h]
    exact ⟨⟨fun _ => h0, fun _ => ⟨rfl, rfl⟩⟩,
      ⟨fun hex => by obtain ⟨m, hm⟩ := hex; simp at hm, fun hc => absurd h0 hc.1⟩,
      fun _ => rfl, fun hn => absurd h0 hn, ⟨rfl, rfl⟩, by rw [← h]; exact hbody⟩
  · rw [h]
    refine ⟨⟨fun hc => ?_, fun hc => absurd hc h0⟩,
      ⟨fun _ => ⟨h0, h3⟩, fun _ => ⟨message, rfl⟩⟩, fun _ => rfl,
      fun _ hd => absurd hd h3, ⟨rfl, rfl⟩, by rw [← h]; exact hbody⟩
    have := hc.2
    simp at this
  · rw [h]
    refine ⟨⟨fun hc => ?_, fun hc => absurd hc h0⟩,
      ⟨fun hex => ?_, fun hc => absurd h3 hc.2⟩, fun hc => ?_,
      fun _ _ => rfl, ⟨rfl, rfl⟩, by rw [← h]; exact hbody⟩
    · have := hc.1
      simp at this
    · obtain ⟨m, hm⟩ := hex
      simp at hm
    · simp at hc

/-- Witness for C13: a face list of 4 vertices is rejected with an error; a
face list of 3 vertices is stored with its flag. -/
theorem concave_polygon_validation_witness :
    (∃ message : String,
      ( sample_concave_polygon.clear.initialize (List.replicate 4 Vector3.zero) true).reports
        = [Report.error message]) ∧
    (List.replicate 3 (Vector3.zero : Vector3 ℚ)).length ≠ 0 ∧
    (List.replicate 3 (Vector3.zero : Vector3 ℚ)).length % 3 = 0 ∧
    sample_concave_polygon.clear.initialize (List.replicate 3 Vector3.zero) true
      = { shape := { sample_concave_polygon.clear with faces := List.replicate 3 Vector3.zero, backface_collision := true }
          ok := true
          reports := [] } :=
  ⟨(concave_polygon_validation sample_concave_polygon (List.replicate 4 Vector3.zero) true).2.1.2
      ⟨by simp, by simp⟩,
    by simp, by simp,
    (concave_polygon_validation sample_concave_polygon (List.replicate 3 Vector3.zero)
      true).2.2.2.1 (by simp) (by simp)⟩

end validation

/-! ## Triangles of the concave polygon -/

section concave_build

variable {F H W : Type} [Float32Ops F]

theorem emitted_triangles_length {F : Type} (backface_collision : Bool) (n : Nat) :
    ∀ faces : List (Vector3 F), faces.length = 3 * n →
      (emitted_triangles backface_collision faces).length
        = if backface_collision then 2 * n else n := by
  induction n with
  | zero =>
    intro faces h
    have : faces = [] := List.length_eq_zero.1 (by omega)
    subst this
    cases backface_collision <;> simp [emitted_triangles]
  | succ m ih =>
    intro faces h
    match faces, h with
    | v0 :: v1 :: v2 :: rest, h =>
      have hr : rest.length = 3 * m := by simp at h; omega
      have := ih rest hr
      cases backface_collision
      · simp [emitted_triangles] at this ⊢
        exact this
      · simp [emitted_triangles] at this ⊢
        omega

theorem emitted_triangles_front {F : Type} (n : Nat) :
    ∀ (faces : List (Vector3 F)) (i : Nat), faces.length = 3 * n → i < n →
      ∃ v0 v1 v2 : Vector3 F,
        faces[3 * i]? = some v0 ∧ faces[3 * i + 1]? = some v1 ∧ faces[3 * i + 2]? = some v2 ∧
        (emitted_triangles false faces)[i]? = some { v1 := v2, v2 := v1, v3 := v0 } := by
  induction n with
  | zero => intro faces i _ hi; omega
  | succ m ih =>
    intro faces i h hi
    match faces, h with
    | v0 :: v1 :: v2 :: rest, h =>
      have hr : rest.length = 3 * m := by simp at h; omega
      cases i with
      | zero => exact ⟨v0, v1, v2, by simp [emitted_triangles]⟩
      | succ j =>
        obtain ⟨a, b, c, h0, h1, h2, h3⟩ := ih rest j hr (by omega)
        refine ⟨a, b, c, ?_, ?_, ?_, ?_⟩
        · have : 3 * (j + 1) = 3 * j + 1 + 1 + 1 := by ring
          rw [this]; simpa using h0
        · have : 3 * (j + 1) + 1 = (3 * j + 1) + 1 + 1 + 1 := by ring
          rw [this]; simpa using h1
        · have : 3 * (j + 1) + 2 = (3 * j + 2) + 1 + 1 + 1 := by ring
          rw [this]; simpa using h2
        · simpa [emitted_triangles] using h3

theorem emitted_triangles_both {F : Type} (n : Nat) :
    ∀ (faces : List (Vector3 F)) (i : Nat), faces.length = 3 * n → i < n →
      ∃ v0 v1 v2 : Vector3 F,
        faces[3 * i]? = some v0 ∧ faces[3 * i + 1]? = some v1 ∧ faces[3 * i + 2]? = some v2 ∧
        (emitted_triangles true faces)[2 * i]? = some { v1 := v2, v2 := v1, v3 := v0 } ∧
        (emitted_triangles true faces)[2 * i + 1]? = some { v1 := v0, v2 := v1, v3 := v2 } := by
  induction n with
  | zero => intro faces i _ hi; omega
  | succ m ih =>
    intro faces i h hi
    match faces, h with
    | v0 :: v1 :: v2 :: rest, h =>
      have hr : rest.length = 3 * m := by simp at h; omega
      cases i with
      | zero => exact ⟨v0, v1, v2, by simp [emitted_triangles]⟩
      | succ j =>
        obtain ⟨a, b, c, h0, h1, h2, h3, h4⟩ := ih rest j hr (by omega)
        refine ⟨a, b, c, ?_, ?_, ?_, ?_, ?_⟩
        · have : 3 * (j + 1) = 3 * j + 1 + 1 + 1 := by ring
          rw [this]; simpa using h0
        · have : 3 * (j + 1) + 1 = (3 * j + 1) + 1 + 1 + 1 := by ring
          rw [this]; simpa using h1
        · have : 3 * (j + 1) + 2 = (3 * j + 2) + 1 + 1 + 1 := by ring
          rw [this]; simpa using h2
        · have : 2 * (j + 1) = 2 * j + 1 + 1 := by ring
          rw [this]; simpa [emitted_triangles] using h3
        · have : 2 * (j + 1) + 1 = (2 * j + 1) + 1 + 1 := by ring
          rw [this]; simpa [emitted_triangles] using h4

theorem concave_faces_loop_emits {F : Type} (backface_collision : Bool) (n : Nat) :
    ∀ (front rest : List (Vector3 F)) (fuel : Nat) (jolt_faces : List (Triangle F)),
      rest.length = 3 * n → n ≤ fuel →
      concave_faces_loop (front ++ rest) backface_collision ((front ++ rest).length : Nat) fuel
          front.length jolt_faces
        = some (jolt_faces ++ emitted_triangles backface_collision rest) := by
  induction n with
  | zero =>
    intro front rest fuel acc h _
    have : rest = [] := List.length_eq_zero.1 (by omega)
    subst this
    unfold concave_faces_loop
    simp [emitted_triangles]
  | succ m ih =>
    intro front rest fuel acc h hf
    match rest, h with
    | v0 :: v1 :: v2 :: more, h =>
      have hr : more.length = 3 * m := by simp at h; omega
      obtain ⟨f, rfl⟩ : ∃ f, fuel = f + 1 := ⟨fuel - 1, by omega⟩
      have hrec := ih (front ++ [v0, v1, v2]) more f
        (if backface_collision then
          acc ++ [{ v1 := v2, v2 := v1, v3 := v0 }] ++ [{ v1 := v0, v2 := v1, v3 := v2 }]
        else acc ++ [{ v1 := v2, v2 := v1, v3 := v0 }])
        hr (by omega)
      have hlist : front ++ [v0, v1, v2] ++ more = front ++ v0 :: v1 :: v2 :: more := by simp
      rw [hlist] at hrec
      have hlen : (front ++ [v0, v1, v2]).length = front.length + 3 := by simp
      rw [hlen] at hrec
      unfold concave_faces_loop
      have hne : ¬ (front.length : Int) = ((front ++ v0 :: v1 :: v2 :: more).length : Nat) := by
        simp only [List.length_append, List.length_cons]
        omega
      simp only [hne, if_false]
      have g0 : (front ++ v0 :: v1 :: v2 :: more)[front.length + 0]? = some v0 := by
        rw [Nat.add_zero, List.getElem?_append_right (le_refl _)]; simp
      have g1 : (front ++ v0 :: v1 :: v2 :: more)[front.length + 1]? = some v1 := by
        rw [List.getElem?_append_right (by omega)]; simp
      have g2 : (front ++ v0 :: v1 :: v2 :: more)[front.length + 2]? = some v2 := by
        rw [List.getElem?_append_right (by omega)]; simp
      simp only [g0, g1, g2]
      cases backface_collision
      · simp only [Bool.false_eq_true, if_false] at hrec ⊢
        rw [hrec]
        simp [emitted_triangles]
      · simp only [if_true] at hrec ⊢
        rw [hrec]
        simp [emitted_triangles]

/-- C14. Concave polygon triangle emission. For every stored face list of `3n`
vertices (`n >= 1`, a size that fits the cast `(int32_t)size()`), every extra margin and every engine, `build` hands the
native engine exactly one request, a mesh whose triangle list has `n`
triangles without backface collision and `2n` with it. Without backface
collision the triangle at position `i` is `(v[3i+2], v[3i+1], v[3i])`; with
it the triangles at positions `2i` and `2i+1` are `(v[3i+2], v[3i+1], v[3i])`
and `(v[3i], v[3i+1], v[3i+2])`. The request does not depend on the extra
margin, which only adds a warning in front of the reports when it is greater
than zero. -/
theorem concave_polygon_build_triangles (s : JoltConcavePolygonShape3D F H)
    (engine : Engine F H W) (p_extra_margin : F) (world : W) (n : Nat) (hn : 1 ≤ n)
    (hlen : s.faces.length = 3 * n) (hfit : s.faces.length < 2147483648) :
    s.build engine p_extra_margin world
      = { shape := (create_or_fail engine
            (.mesh (emitted_triangles s.backface_collision s.faces))
            "Failed to build concave polygon shape. " world).shape
          reports :=
            extra_margin_warning p_extra_margin
              "Concave polygon shapes with extra margin are not supported by Godot Jolt." ++
            (create_or_fail engine (.mesh (emitted_triangles s.backface_collision s.faces))
              "Failed to build concave polygon shape. " world).reports
          world := (create_or_fail engine
            (.mesh (emitted_triangles s.backface_collision s.faces))
            "Failed to build concave polygon shape. " world).world } ∧
    (emitted_triangles s.backface_collision s.faces).length
      = (if s.backface_collision then 2 * n else n) ∧
    (s.backface_collision = false → ∀ i : Nat, i < n →
      ∃ v0 v1 v2 : Vector3 F,
        s.faces[3 * i]? = some v0 ∧ s.faces[3 * i + 1]? = some v1 ∧
        s.faces[3 * i + 2]? = some v2 ∧
        (emitted_triangles s.backface_collision s.faces)[i]?
          = some { v1 := v2, v2 := v1, v3 := v0 }) ∧
    (s.backface_collision = true → ∀ i : Nat, i < n →
      ∃ v0 v1 v2 : Vector3 F,
        s.faces[3 * i]? = some v0 ∧ s.faces[3 * i + 1]? = some v1 ∧
        s.faces[3 * i + 2]? = some v2 ∧
        (emitted_triangles s.backface_collision s.faces)[2 * i]?
          = some { v1 := v2, v2 := v1, v3 := v0 } ∧
        (emitted_triangles s.backface_collision s.faces)[2 * i + 1]?
          = some { v1 := v0, v2 := v1, v3 := v2 }) ∧
    (∀ other_margin : F,
      (s.build engine other_margin world).shape = (s.build engine p_extra_margin world).shape ∧
      (s.build engine other_margin world).world
        = (s.build engine p_extra_margin world).world) := by
  have hloop := concave_faces_loop_emits s.backface_collision n [] s.faces s.faces.length []
    hlen (by omega)
  simp only [List.nil_append, List.length_nil] at hloop
  have hne : ¬ s.faces.length = 0 := by omega
  have hbuild : ∀ m : F, s.build engine m world
      = { shape := (create_or_fail engine
            (.mesh (emitted_triangles s.backface_collision s.faces))
            "Failed to build concave polygon shape. " world).shape
          reports :=
            extra_margin_warning m
              "Concave polygon shapes with extra margin are not supported by Godot Jolt." ++
            (create_or_fail engine (.mesh (emitted_triangles s.backface_collision s.faces))
              "Failed to build concave polygon shape. " world).reports
          world := (create_or_fail engine
            (.mesh (emitted_triangles s.backface_collision s.faces))
            "Failed to build concave polygon shape. " world).world } := by
    intro m
    unfold JoltConcavePolygonShape3D.build
    simp only [int32_of_size_small s.faces.length hfit, hne, if_false, hloop]
  refine ⟨hbuild p_extra_margin, emitted_triangles_length _ n s.faces hlen, ?_, ?_, ?_⟩
  · intro hb i hi
    rw [hb]
    exact emitted_triangles_front n s.faces i hlen hi
  · intro hb i hi
    rw [hb]
    exact emitted_triangles_both n s.faces i hlen hi
  · intro m
    rw [hbuild m, hbuild p_extra_margin]
    exact ⟨rfl, rfl⟩

/-- Witness for C14: nine vertices give three triangles, or six with backface
collision. -/
theorem concave_polygon_build_triangles_witness :
    1 ≤ 3 ∧
    (sample_nine_vertices false).faces.length = 3 * 3 ∧
    (sample_nine_vertices false).faces.length < 2147483648 ∧
    (emitted_triangles (sample_nine_vertices false).backface_collision
      (sample_nine_vertices false).faces).length = 3 ∧
    (emitted_triangles (sample_nine_vertices true).backface_collision
      (sample_nine_vertices true).faces).length = 6 :=
  ⟨by decide, rfl, by decide,
    (concave_polygon_build_triangles (sample_nine_vertices false) (counting_engine ℚ) 0 7 3
      (by decide) rfl (by decide)).2.1,
    (concave_polygon_build_triangles (sample_nine_vertices true) (counting_engine ℚ) 0 7 3
      (by decide) rfl (by decide)).2.1⟩

end concave_build

/-! ## Wrapping adapters -/

section adapter_theorems

variable {F H W : Type} [Float32Ops F]

/-- C15, what the code does on a null base shape. `with_scale`,
`with_basis_origin`, `with_transform`, `with_center_of_mass_offset` and
`with_center_of_mass` report the failed `ERR_FAIL_NULL_D(p_shape)` and return
the empty handle without a request to the engine. `with_user_data` has no such
check: it hands the engine a request that wraps the null pointer, and its
result is whatever the engine answers; an engine that accepts the request
makes it return a handle without any report. -/
theorem adapters_on_null_shape (engine : Engine F H W) (p_scale p_origin p_offset : Vector3 F)
    (p_basis : Basis F) (p_transform : Transform3D F) (p_user_data : Nat) (world : W) :
    with_scale engine none p_scale world = fail_null world ∧
    with_basis_origin engine none p_basis p_origin world = fail_null world ∧
    with_transform engine none p_transform p_scale world = fail_null world ∧
    with_center_of_mass_offset engine none p_offset world = fail_null world ∧
    with_center_of_mass engine none p_offset world = fail_null world ∧
    (fail_null world : BuildResult H W)
      = { shape := none, reports := [Report.error "Parameter p_shape is null."], world := world } ∧
    with_user_data engine none p_user_data world
      = create_or_fail engine (.override_user_data none p_user_data)
          "Failed to override user data. " world ∧
    (∀ (handle : H) (world1 : W),
      engine.create (.override_user_data none p_user_data) world = (.ok handle, world1) →
      with_user_data engine none p_user_data world
        = { shape := some handle, reports := [], world := world1 }) := by
  refine ⟨rfl, rfl, rfl, rfl, rfl, rfl, rfl, ?_⟩
  intro handle world1 h
  simp [with_user_data, create_or_fail, h]

/-- Witness for C15: with an engine that accepts every request and hands out
serial numbers, `with_user_data(nullptr, 5)` returns handle 7 without a report
and the engine has created a shape, while `with_scale(nullptr, ...)` returns
the empty handle with an error and the engine untouched. -/
theorem adapters_on_null_shape_witness :
    with_user_data (counting_engine ℚ) none 5 7 = { shape := some 7, reports := [], world := 8 } ∧
    with_scale (counting_engine ℚ) none Vector3.one 7
      = { shape := none, reports := [Report.error "Parameter p_shape is null."], world := 7 } :=
  ⟨(adapters_on_null_shape (counting_engine ℚ) Vector3.one Vector3.one Vector3.one
      Basis.identity Transform3D.identity 5 7).2.2.2.2.2.2.2 7 8 rfl,
    ((adapters_on_null_shape (counting_engine ℚ) Vector3.one Vector3.one Vector3.one
      Basis.identity Transform3D.identity 5 7).1).trans
      (adapters_on_null_shape (counting_engine ℚ) Vector3.one Vector3.one Vector3.one
      Basis.identity Transform3D.identity 5 7).2.2.2.2.2.1⟩

/-- C16. `with_transform` on a non-null shape `s`. With scale exactly
`(1, 1, 1)` and transform exactly the identity the result is `s` itself and
the engine gets no request; with only the transform the identity it is
`with_scale(s, k)`; with only the scale the unit it is
`with_basis_origin(s, t.basis, t.origin)`; otherwise it is
`with_basis_origin(with_scale(s, k), t.basis, t.origin)`, the scale wrap
innermost, made on the state of the engine that the scale step left. If the
scale step fails, the result is the empty handle and the engine gets no
request for the rotate and translate wrap. -/
theorem with_transform_composition (engine : Engine F H W) (shape : H)
    (p_transform : Transform3D F) (p_scale : Vector3 F) (world : W) :
    (Vector3.ne p_scale Vector3.one = false →
      Transform3D.ne p_transform Transform3D.identity = false →
      with_transform engine (some shape) p_transform p_scale world
        = { shape := some shape, reports := [], world := world }) ∧
    (Vector3.ne p_scale Vector3.one = true →
      Transform3D.ne p_transform Transform3D.identity = false →
      with_transform engine (some shape) p_transform p_scale world
        = with_scale engine (some shape) p_scale world) ∧
    (Vector3.ne p_scale Vector3.one = false →
      Transform3D.ne p_transform Transform3D.identity = true →
      with_transform engine (some shape) p_transform p_scale world
        = with_basis_origin engine (some shape) p_transform.basis p_transform.origin world) ∧
    (Vector3.ne p_scale Vector3.one = true →
      Transform3D.ne p_transform Transform3D.identity = true →
      with_transform engine (some shape) p_transform p_scale world
        = { shape := (with_basis_origin engine (with_scale engine (some shape) p_scale world).shape
              p_transform.basis p_transform.origin
              (with_scale engine (some shape) p_scale world).world).shape
            reports := (with_scale engine (some shape) p_scale world).reports ++
              (with_basis_origin engine (with_scale engine (some shape) p_scale world).shape
                p_transform.basis p_transform.origin
                (with_scale engine (some shape) p_scale world).world).reports
            world := (with_basis_origin engine (with_scale engine (some shape) p_scale world).shape
              p_transform.basis p_transform.origin
              (with_scale engine (some shape) p_scale world).world).world }) ∧
    (Vector3.ne p_scale Vector3.one = true →
      (with_scale engine (some shape) p_scale world).shape = none →
      with_transform engine (some shape) p_transform p_scale world
        = { shape := none
            reports := (with_scale engine (some shape) p_scale world).reports ++
              (if Transform3D.ne p_transform Transform3D.identity then
                [Report.error "Parameter p_shape is null."] else [])
            world := (with_scale engine (some shape) p_scale world).world }) := by
  refine ⟨?_, ?_, ?_, ?_, ?_⟩
  · intro hk ht
    simp [with_transform, hk, ht]
  · intro hk ht
    simp [with_transform, hk, ht]
  · intro hk ht
    simp [with_transform, hk, ht]
  · intro hk ht
    simp [with_transform, hk, ht]
  · intro hk hs
    cases ht : Transform3D.ne p_transform Transform3D.identity with
    | false => simp [with_transform, hk, ht, hs]
    | true => simp [with_transform, hk, ht, hs, with_basis_origin, fail_null]

/-- Witness for C16, in exact arithmetic: with unit scale and identity
transform the shape 3 comes back untouched; with scale 2 and a translation the
engine (serial numbers from 7) builds the scale wrap 7 and then the rotate and
translate wrap 8. -/
theorem with_transform_composition_witness :
    Vector3.ne (Vector3.one : Vector3 ℚ) Vector3.one = false ∧
    Transform3D.ne (Transform3D.identity : Transform3D ℚ) Transform3D.identity = false ∧
    with_transform (counting_engine ℚ) (some 3) Transform3D.identity Vector3.one 7
      = { shape := some 3, reports := [], world := 7 } ∧
    Vector3.ne (sample_scale : Vector3 ℚ) Vector3.one = true ∧
    Transform3D.ne sample_translation Transform3D.identity = true ∧
    (with_transform (counting_engine ℚ) (some 3) sample_translation sample_scale 7).shape
      = some 8 :=
  ⟨by decide, by decide,
    (with_transform_composition (counting_engine ℚ) 3 Transform3D.identity Vector3.one 7).1
      (by decide) (by decide),
    by decide, by decide,
    (congrArg BuildResult.shape
      ((with_transform_composition (counting_engine ℚ) 3 sample_translation sample_scale
        7).2.2.2.1 (by decide) (by decide))).trans rfl⟩

end adapter_theorems

/-! ## Arguments of the native constructors -/

section constructor_arguments

/-- C17. Capsule clamping, in exact arithmetic. When `initialize` accepts a
height and a radius on the cleared capsule (as `set_data` does), then
height > 0, radius > 0 and height / 2 >= radius, and for every extra margin
`>= 0` the `build` of the stored state asks the engine for a capsule with half
height `max(height / 2 - radius, epsilon) + extra_margin` and the stored
radius. The epsilon is greater than zero, so the half height is strictly
positive; when height / 2 equals the radius the clamped value is the
epsilon. -/
theorem capsule_build_clamps {H W : Type} (s : JoltCapsuleShape3D ℚ H) (engine : Engine ℚ H W)
    (p_height p_radius p_extra_margin : ℚ) (world : W)
    (hok : ( s.clear.initialize p_height p_radius).ok = true)
    (hm : 0 ≤ p_extra_margin) :
    0 < p_height ∧ 0 < p_radius ∧ p_radius ≤ p_height / 2 ∧
    ( s.clear.initialize p_height p_radius).shape.height = p_height ∧
    ( s.clear.initialize p_height p_radius).shape.radius = p_radius ∧
    ( s.clear.initialize p_height p_radius).shape.build engine p_extra_margin world
      = create_or_fail engine
          (.capsule (max (p_height / 2 - p_radius) Float32Ops.cmp_epsilon + p_extra_margin)
            p_radius)
          "Failed to build capsule shape. " world ∧
    (0 : ℚ) < Float32Ops.cmp_epsilon ∧
    0 < max (p_height / 2 - p_radius) Float32Ops.cmp_epsilon + p_extra_margin ∧
    (p_height / 2 = p_radius →
      max (p_height / 2 - p_radius) (Float32Ops.cmp_epsilon : ℚ) = Float32Ops.cmp_epsilon) := by
  have heps : (0 : ℚ) < Float32Ops.cmp_epsilon := by
    norm_num [Float32Ops.cmp_epsilon]
  have hmax : ∀ a b : ℚ, Float32Ops.max a b = max a b := by
    intro a b
    simp only [Float32Ops.max, max_def]
    by_cases hab : a < b
    · rw [if_pos hab, if_pos (le_of_lt hab)]
    · rw [if_neg hab]
      by_cases hle : a ≤ b
      · rw [if_pos hle]
        exact le_antisymm hle (not_lt.1 hab)
      · rw [if_neg hle]
  rcases capsule_initialize_outcome s.clear p_height p_radius with
    ⟨_, h⟩ | ⟨_, _, _, h⟩ | ⟨hpos, hhalf, h⟩
  · rw [h] at hok
    cases hok
  · rw [h] at hok
    cases hok
  · have hh : 0 < p_height := by
      by_contra hcon
      exact hpos (Or.inl (by simpa [Float32Ops.le, Float32Ops.zero] using hcon))
    have hr : 0 < p_radius := by
      by_contra hcon
      exact hpos (Or.inr (by simpa [Float32Ops.le, Float32Ops.zero] using hcon))
    have hge : p_radius ≤ p_height / 2 := by
      simpa [Float32Ops.lt, Float32Ops.half] using hhalf
    have hpositive : 0 < max (p_height / 2 - p_radius) Float32Ops.cmp_epsilon + p_extra_margin :=
      add_pos_of_pos_of_nonneg (lt_of_lt_of_le heps (le_max_right _ _)) hm
    refine ⟨hh, hr, hge, ?_, ?_, ?_, heps, hpositive, ?_⟩
    · rw [h]
    · rw [h]
    · rw [h]
      unfold JoltCapsuleShape3D.build
      dsimp only
      rw [hmax]
      rfl
    · intro heq
      rw [heq, sub_self]
      exact max_eq_right (le_of_lt heps)

/-- Witness for C17: height 10, radius 3 and extra margin 0 ask the engine for
a capsule with half height 2 and radius 3. -/
theorem capsule_build_clamps_witness :
    ( sample_capsule_fields.clear.initialize 10 3).ok = true ∧
    (0 : ℚ) ≤ 0 ∧
    ( sample_capsule_fields.clear.initialize 10 3).shape.build (counting_engine ℚ) 0 7
      = create_or_fail (counting_engine ℚ) (.capsule 2 3) "Failed to build capsule shape. " 7 :=
  ⟨by norm_num [ JoltCapsuleShape3D.initialize, JoltCapsuleShape3D.clear, Float32Ops.le,
      Float32Ops.lt, Float32Ops.half, Float32Ops.zero],
    le_refl 0,
    (capsule_build_clamps sample_capsule_fields (counting_engine ℚ) 10 3 0 7
      (by norm_num [ JoltCapsuleShape3D.initialize, JoltCapsuleShape3D.clear, Float32Ops.le,
        Float32Ops.lt, Float32Ops.half, Float32Ops.zero])
      (le_refl 0)).2.2.2.2.2.1.trans
      (by norm_num [Float32Ops.cmp_epsilon])⟩

end constructor_arguments

/-! ## Height map and world boundary `build` -/

section height_map_build

variable {F H W : Type} [Float32Ops F]

theorem int32_of_range (i : Int) : -2147483648 ≤ int32_of i ∧ int32_of i < 2147483648 := by
  unfold int32_of
  omega

theorem height_map_build_eq (s : JoltHeightMapShape3D F H) (engine : Engine F H W)
    (p_extra_margin : F) (world : W) (h2 : 2 < s.width) (hw : s.width < 2147483648)
    (hd : s.depth = s.width) :
    s.build engine p_extra_margin world
      = { shape := (create_or_fail engine
            (.height_field s.heights
              { x := Float32Ops.neg (Float32Ops.half (Float32Ops.of_int32 (s.width - 1)))
                y := Float32Ops.zero
                z := Float32Ops.neg (Float32Ops.half (Float32Ops.of_int32 (s.width - 1))) }
              { x := Float32Ops.one, y := Float32Ops.one, z := Float32Ops.one }
              s.width.toNat)
            "Failed to build height map shape. " world).shape
          reports :=
            extra_margin_warning p_extra_margin
              "Height map shapes with extra margin are not supported by Godot Jolt." ++
            (create_or_fail engine
              (.height_field s.heights
                { x := Float32Ops.neg (Float32Ops.half (Float32Ops.of_int32 (s.width - 1)))
                  y := Float32Ops.zero
                  z := Float32Ops.neg (Float32Ops.half (Float32Ops.of_int32 (s.width - 1))) }
                { x := Float32Ops.one, y := Float32Ops.one, z := Float32Ops.one }
                s.width.toNat)
              "Failed to build height map shape. " world).reports
          world := (create_or_fail engine
            (.height_field s.heights
              { x := Float32Ops.neg (Float32Ops.half (Float32Ops.of_int32 (s.width - 1)))
                y := Float32Ops.zero
                z := Float32Ops.neg (Float32Ops.half (Float32Ops.of_int32 (s.width - 1))) }
              { x := Float32Ops.one, y := Float32Ops.one, z := Float32Ops.one }
              s.width.toNat)
            "Failed to build height map shape. " world).world } := by
  have h1 : int32_of (s.width - 1) = s.width - 1 := int32_of_small _ (by omega) (by omega)
  have h3 : uint32_of s.width = s.width.toNat := by
    unfold uint32_of
    rw [Int.emod_eq_of_lt (by omega) (by omega)]
  unfold JoltHeightMapShape3D.build
  dsimp only
  rw [hd, h1, h3]

/-- C18. Height field centering. When `initialize` accepts samples, width and
depth on the cleared height map, called as `set_data` calls it (with the
32-bit casts of the two integers of the record), then depth equals width (call
it `w`), the samples and `w` are stored, and for every extra margin `build` on
the stored state asks the engine for a height field with the stored samples,
the offset `(-(w - 1) / 2, 0, -(w - 1) / 2)`, the scale `(1, 1, 1)` and the
sample count `w`. The request, the returned handle and the state of the engine
do not depend on the extra margin, which only adds a warning in front of the
reports when it is greater than zero. -/
theorem height_map_build_centered (s : JoltHeightMapShape3D F H) (engine : Engine F H W)
    (p_heights : List F) (width depth : Int) (p_extra_margin : F) (world : W)
    (hok : ( s.clear.initialize p_heights (int32_of width) (int32_of depth)).ok = true) :
    int32_of depth = int32_of width ∧
    ( s.clear.initialize p_heights (int32_of width) (int32_of depth)).shape.heights
      = p_heights ∧
    ( s.clear.initialize p_heights (int32_of width) (int32_of depth)).shape.width
      = int32_of width ∧
    ( s.clear.initialize p_heights (int32_of width) (int32_of depth)).shape.depth
      = int32_of width ∧
    ( s.clear.initialize p_heights (int32_of width) (int32_of depth)).shape.build engine
        p_extra_margin world
      = { shape := (create_or_fail engine
            (.height_field p_heights
              { x := Float32Ops.neg (Float32Ops.half (Float32Ops.of_int32 (int32_of width - 1)))
                y := Float32Ops.zero
                z := Float32Ops.neg (Float32Ops.half (Float32Ops.of_int32 (int32_of width - 1))) }
              { x := Float32Ops.one, y := Float32Ops.one, z := Float32Ops.one }
              (int32_of width).toNat)
            "Failed to build height map shape. " world).shape
          reports :=
            extra_margin_warning p_extra_margin
              "Height map shapes with extra margin are not supported by Godot Jolt." ++
            (create_or_fail engine
              (.height_field p_heights
                { x := Float32Ops.neg (Float32Ops.half (Float32Ops.of_int32 (int32_of width - 1)))
                  y := Float32Ops.zero
                  z := Float32Ops.neg
                    (Float32Ops.half (Float32Ops.of_int32 (int32_of width - 1))) }
                { x := Float32Ops.one, y := Float32Ops.one, z := Float32Ops.one }
                (int32_of width).toNat)
              "Failed to build height map shape. " world).reports
          world := (create_or_fail engine
            (.height_field p_heights
              { x := Float32Ops.neg (Float32Ops.half (Float32Ops.of_int32 (int32_of width - 1)))
                y := Float32Ops.zero
                z := Float32Ops.neg (Float32Ops.half (Float32Ops.of_int32 (int32_of width - 1))) }
              { x := Float32Ops.one, y := Float32Ops.one, z := Float32Ops.one }
              (int32_of width).toNat)
            "Failed to build height map shape. " world).world } ∧
    (∀ other_margin : F,
      (( s.clear.initialize p_heights (int32_of width) (int32_of depth)).shape.build engine
          other_margin world).shape
        = (( s.clear.initialize p_heights (int32_of width) (int32_of depth)).shape.build engine
          p_extra_margin world).shape ∧
      (( s.clear.initialize p_heights (int32_of width) (int32_of depth)).shape.build engine
          other_margin world).world
        = (( s.clear.initialize p_heights (int32_of width) (int32_of depth)).shape.build engine
          p_extra_margin world).world) := by
  rcases height_map_initialize_outcome s.clear p_heights (int32_of width) (int32_of depth) with
    ⟨_, h⟩ | ⟨_, _, _, h⟩ | ⟨hacc, h⟩
  · rw [h] at hok
    cases hok
  · rw [h] at hok
    cases hok
  · have hwide : 2 < int32_of width := by
      have := hacc.2.1
      omega
    have hsame : int32_of width = int32_of depth := hacc.2.2.2.1
    have hstored : ∀ m : F,
        (JoltHeightMapShape3D.mk s.clear.toJoltShape3D p_heights (int32_of width)
          (int32_of depth)).build engine m world = _ :=
      fun m => height_map_build_eq
        (JoltHeightMapShape3D.mk s.clear.toJoltShape3D p_heights (int32_of width)
          (int32_of depth)) engine m world hwide (int32_of_range width).2 hsame.symm
    rw [h]
    refine ⟨hsame.symm, rfl, rfl, hsame.symm, hstored p_extra_margin, ?_⟩
    intro m
    dsimp only
    rw [hstored m, hstored p_extra_margin]
    exact ⟨rfl, rfl⟩

/-- Witness for C18, in exact arithmetic: 16 samples with width 4 and depth 4
are accepted, and `build` asks the engine for the offset `(-3/2, 0, -3/2)`,
the scale `(1, 1, 1)` and the sample count 4. -/
theorem height_map_build_centered_witness :
    ( sample_height_map.clear.initialize (List.replicate 16 0) (int32_of 4) (int32_of 4)).ok
      = true ∧
    ( sample_height_map.clear.initialize (List.replicate 16 0) (int32_of 4)
        (int32_of 4)).shape.build (counting_engine ℚ) 0 7
      = { shape := (create_or_fail (counting_engine ℚ)
            (.height_field (List.replicate 16 0) { x := -3 / 2, y := 0, z := -3 / 2 }
              { x := 1, y := 1, z := 1 } 4)
            "Failed to build height map shape. " 7).shape
          reports := []
          world := 8 } :=
  ⟨by simp [ JoltHeightMapShape3D.initialize, JoltHeightMapShape3D.clear, int32_of,
      int32_of_size, uint32_of, is_power_of_2, Nat.log2],
    ((height_map_build_centered sample_height_map (counting_engine ℚ) (List.replicate 16 0)
      4 4 0 7
      (by simp [ JoltHeightMapShape3D.initialize, JoltHeightMapShape3D.clear, int32_of,
        int32_of_size, uint32_of, is_power_of_2, Nat.log2])).2.2.2.2.1).trans
      (by
        have h4 : int32_of 4 = 4 := by decide
        rw [h4]
        norm_num [extra_margin_warning, create_or_fail, counting_engine, Float32Ops.lt,
          Float32Ops.zero, Float32Ops.neg, Float32Ops.half, Float32Ops.of_int32,
          Float32Ops.one])⟩

end height_map_build

/-! ## The world boundary is never built -/

section world_boundary_build

variable {F H W : Type} [Float32Ops F]

theorem reachable_slot_empty_or_built (is_valid : Shape F H → Bool) (engine : Engine F H W)
    (s : Shape F H) (hs : Reachable is_valid engine s) :
    s.jolt_ref = none ∨ ∃ w : W, s.jolt_ref = (s.build engine Float32Ops.zero w).shape := by
  induction hs with
  | created t h => exact Or.inl h
  | set_data t v l _ _ => exact Or.inl (Shape.jolt_ref_set_data t v l)
  | set_margin t m l r _ hr _ => exact Or.inl (Shape.jolt_ref_set_margin t m l r hr)
  | try_build t em w _ ih => exact cache_invariant_try_build is_valid engine t em w ih
  | add_owner t o _ ih =>
    unfold Shape.add_owner
    rcases ih with h | ⟨w, h⟩
    · left
      simpa [Shape.jolt_ref, Shape.base_with_base, JoltShape3D.add_owner] using h
    · right
      refine ⟨w, ?_⟩
      rw [Shape.build_with_base]
      simpa [Shape.jolt_ref, Shape.base_with_base, JoltShape3D.add_owner] using h
  | remove_owner t o _ ih =>
    unfold Shape.remove_owner
    rcases ih with h | ⟨w, h⟩
    · left
      simpa [Shape.jolt_ref, Shape.base_with_base, JoltShape3D.remove_owner] using h
    · right
      refine ⟨w, ?_⟩
      rw [Shape.build_with_base]
      simpa [Shape.jolt_ref, Shape.base_with_base, JoltShape3D.remove_owner] using h

/-- C19. The world boundary is never built. For every state of a world
boundary, every engine and every extra margin, `build` reports the error that
the kind is not supported, returns the empty handle and makes no request to
the engine. In every state that a world boundary reaches from an empty cache
slot, the slot is empty, and every `try_build` returns the empty handle,
leaves the shape (its empty slot included) and the engine as they were, and,
when the shape is valid, called `build` once and reports the error again; on a
shape that is not valid it reports nothing. -/
theorem world_boundary_never_built (is_valid : Shape F H → Bool) (engine : Engine F H W)
    (k : JoltWorldBoundaryShape3D F H) (p_extra_margin : F) (world : W)
    (hs : Reachable is_valid engine (Shape.world_boundary k)) :
    k.build engine p_extra_margin world
      = { shape := none
          reports := [Report.error "WorldBoundaryShape3D is not supported by Godot Jolt."]
          world := world } ∧
    (Shape.world_boundary k).jolt_ref = none ∧
    ((Shape.world_boundary k).try_build is_valid engine p_extra_margin world).result = none ∧
    ((Shape.world_boundary k).try_build is_valid engine p_extra_margin world).shape
      = Shape.world_boundary k ∧
    ((Shape.world_boundary k).try_build is_valid engine p_extra_margin world).world = world ∧
    (is_valid (Shape.world_boundary k) = true →
      ((Shape.world_boundary k).try_build is_valid engine p_extra_margin world).reports
        = [Report.error "WorldBoundaryShape3D is not supported by Godot Jolt."] ∧
      ((Shape.world_boundary k).try_build is_valid engine p_extra_margin world).build_calls.length
        = 1) ∧
    (is_valid (Shape.world_boundary k) = false →
      ((Shape.world_boundary k).try_build is_valid engine p_extra_margin world).reports = [] ∧
      ((Shape.world_boundary k).try_build is_valid engine p_extra_margin world).build_calls
        = []) := by
  have hslot : (Shape.world_boundary k).jolt_ref = none := by
    rcases reachable_slot_empty_or_built is_valid engine _ hs with h | ⟨w, h⟩
    · exact h
    · rw [h]
      rfl
  have hk : k.jolt_ref = none := hslot
  have hself : (Shape.world_boundary k).with_jolt_ref none = Shape.world_boundary k := by
    obtain ⟨⟨r, m⟩, p⟩ := k
    simp only at hk
    subst hk
    rfl
  refine ⟨rfl, hslot, ?_, ?_, ?_, ?_, ?_⟩
  all_goals unfold Shape.try_build
  all_goals cases hv : is_valid (Shape.world_boundary k)
  all_goals cases hm : Float32Ops.lt Float32Ops.zero p_extra_margin
  all_goals simp [hv, hm, hslot, hself, Shape.build, JoltWorldBoundaryShape3D.build]

/-- Witness for C19: the sample boundary plane, with an `is_valid` that holds,
gets the empty handle from `try_build(0)` and the error is reported; the shape
is as before, so the next call does the same. -/
theorem world_boundary_never_built_witness :
    Reachable always_valid (counting_engine ℚ) (Shape.world_boundary sample_world_boundary) ∧
    ((Shape.world_boundary sample_world_boundary).try_build always_valid (counting_engine ℚ)
      0 7).result = none ∧
    ((Shape.world_boundary sample_world_boundary).try_build always_valid (counting_engine ℚ)
      0 7).shape = Shape.world_boundary sample_world_boundary ∧
    ((Shape.world_boundary sample_world_boundary).try_build always_valid (counting_engine ℚ)
      0 7).reports = [Report.error "WorldBoundaryShape3D is not supported by Godot Jolt."] :=
  ⟨Reachable.created _ rfl,
    (world_boundary_never_built always_valid (counting_engine ℚ) sample_world_boundary 0 7
      (Reachable.created _ rfl)).2.2.1,
    (world_boundary_never_built always_valid (counting_engine ℚ) sample_world_boundary 0 7
      (Reachable.created _ rfl)).2.2.2.1,
    ((world_boundary_never_built always_valid (counting_engine ℚ) sample_world_boundary 0 7
      (Reachable.created _ rfl)).2.2.2.2.2.1 rfl).1⟩

end world_boundary_build

/-! ## The stored height map -/

section height_map_state

theorem int32_of_size_negative (n : Nat) (h1 : 2147483648 ≤ n) (h2 : n < 4294967296) :
    int32_of_size n < 0 := by
  unfold int32_of_size
  have hmod : n % 4294967296 = n := Nat.mod_eq_of_lt h2
  simp only [hmod]
  rw [if_neg (by omega)]
  omega

theorem height_map_accepts_product (n : Nat) (w d : Int) (hn : n < 4294967296)
    (hw : w < 2147483648) (hacc : height_map_accepts n w d) :
    w = d ∧ (∃ e : Nat, w = 2 ^ e) ∧ 4 ≤ w ∧ (n : Int) = w * d := by
  obtain ⟨hcount, hsmall, hprod, hwd, hpow⟩ := hacc
  have h2 : 2 < w := by omega
  obtain ⟨e, he⟩ := (power_of_two_width w h2 hw).1 hpow
  have h4 : 4 ≤ w := by
    rcases e with _ | _ | e
    · simp at he; omega
    · simp at he; omega
    · rw [he, pow_succ, pow_succ]
      have : (1 : Int) ≤ 2 ^ e := one_le_pow₀ (by norm_num)
      omega
  subst hwd
  refine ⟨rfl, ⟨e, he⟩, h4, ?_⟩
  have hsq : 0 < w * w := mul_pos (by omega) (by omega)
  rcases power_of_two_square_cast w e he hw with h | h
  · rw [h] at hprod
    by_cases hlt : n < 2147483648
    · rw [int32_of_size_small n hlt] at hprod
      exact hprod
    · have := int32_of_size_negative n (by omega) hn
      omega
  · rw [h] at hprod
    exact absurd hprod hcount

theorem height_map_wrapping_rejected {F H : Type} (s : JoltHeightMapShape3D F H)
    (p_heights : List F) (p_width p_depth : Int) (hw : p_width < 2147483648)
    (hwrap : int32_of (p_width * p_depth) ≠ p_width * p_depth) :
    ( s.initialize p_heights p_width p_depth).ok = false := by
  rcases height_map_initialize_outcome s p_heights p_width p_depth with
    ⟨_, h⟩ | ⟨_, _, _, h⟩ | ⟨hacc, _⟩
  · rw [h]
  · rw [h]
  · exfalso
    obtain ⟨hcount, hsmall, hprod, hwd, hpow⟩ := hacc
    have h2 : 2 < p_width := by omega
    obtain ⟨e, he⟩ := (power_of_two_width p_width h2 hw).1 hpow
    subst hwd
    rcases power_of_two_square_cast p_width e he hw with h | h
    · exact hwrap h
    · rw [h] at hprod
      exact hcount hprod

theorem height_map_invariant_step {F H : Type} (k : JoltHeightMapShape3D F H) (v : Variant F)
    (hfit : heights_fit v) :
    ((k.set_data_body v).1.heights = [] ∧ (k.set_data_body v).1.width = 0 ∧
      (k.set_data_body v).1.depth = 0) ∨
    ((k.set_data_body v).1.width = (k.set_data_body v).1.depth ∧
      (∃ e : Nat, (k.set_data_body v).1.width = 2 ^ e) ∧ 4 ≤ (k.set_data_body v).1.width ∧
      ((k.set_data_body v).1.heights.length : Int)
        = (k.set_data_body v).1.width * (k.set_data_body v).1.depth) := by
  rcases height_map_set_data_body_cases k v with
    ⟨message, h⟩ | ⟨data, heights, width, depth, hv, hh, _, _, h⟩
  · rw [h]
    exact Or.inl ⟨rfl, rfl, rfl⟩
  · rw [h]
    rcases height_map_initialize_outcome k.clear heights (int32_of width)
      (int32_of depth) with ⟨_, h2⟩ | ⟨_, _, _, h2⟩ | ⟨hacc, h2⟩
    · rw [h2]
      exact Or.inl ⟨rfl, rfl, rfl⟩
    · rw [h2]
      exact Or.inl ⟨rfl, rfl, rfl⟩
    · rw [h2]
      exact Or.inr (height_map_accepts_product heights.length (int32_of width) (int32_of depth)
        (hfit data heights hv hh) (int32_of_range width).2 hacc)

/-- C20. State of the height map. Start from a cleared height map and make any
sequence of `set_data` calls whose sample arrays have fewer than `2^32`
elements. The state reached is cleared (no samples, width = depth = 0), or
width equals depth, width is a power of two, width >= 4 and the number of
stored samples is the product width * depth of the integers. Whenever the
32-bit product that `initialize` compares with wraps around, `initialize`
rejects its arguments. -/
theorem height_map_state_invariant {F H : Type} (s : JoltHeightMapShape3D F H)
    (calls : List (Variant F × Bool)) (hfit : ∀ call ∈ calls, heights_fit call.1) :
    (((s.clear.after_set_data calls).heights = [] ∧ (s.clear.after_set_data calls).width = 0 ∧
        (s.clear.after_set_data calls).depth = 0) ∨
      ((s.clear.after_set_data calls).width = (s.clear.after_set_data calls).depth ∧
        (∃ e : Nat, (s.clear.after_set_data calls).width = 2 ^ e) ∧
        4 ≤ (s.clear.after_set_data calls).width ∧
        ((s.clear.after_set_data calls).heights.length : Int)
          = (s.clear.after_set_data calls).width * (s.clear.after_set_data calls).depth)) ∧
    (∀ (t : JoltHeightMapShape3D F H) (p_heights : List F) (width depth : Int),
      int32_of (int32_of width * int32_of depth) ≠ int32_of width * int32_of depth →
      ( t.initialize p_heights (int32_of width) (int32_of depth)).ok = false) := by
  refine ⟨?_, fun t p_heights width depth hwrap =>
    height_map_wrapping_rejected t p_heights _ _ (int32_of_range width).2 hwrap⟩
  have key : ∀ (calls : List (Variant F × Bool)) (t : JoltHeightMapShape3D F H),
      (∀ call ∈ calls, heights_fit call.1) →
      ((t.heights = [] ∧ t.width = 0 ∧ t.depth = 0) ∨
        (t.width = t.depth ∧ (∃ e : Nat, t.width = 2 ^ e) ∧ 4 ≤ t.width ∧
          (t.heights.length : Int) = t.width * t.depth)) →
      (((t.after_set_data calls).heights = [] ∧ (t.after_set_data calls).width = 0 ∧
          (t.after_set_data calls).depth = 0) ∨
        ((t.after_set_data calls).width = (t.after_set_data calls).depth ∧
          (∃ e : Nat, (t.after_set_data calls).width = 2 ^ e) ∧
          4 ≤ (t.after_set_data calls).width ∧
          ((t.after_set_data calls).heights.length : Int)
            = (t.after_set_data calls).width * (t.after_set_data calls).depth)) := by
    intro calls
    induction calls with
    | nil =>
      intro t _ ht
      exact ht
    | cons call rest ih =>
      intro t hall _
      have hstep := height_map_invariant_step t call.1 (hall call (List.mem_cons_self _ _))
      exact ih (t.set_data call.1 call.2).shape
        (fun c hc => hall c (List.mem_cons_of_mem _ hc)) hstep
  exact key calls s.clear hfit (Or.inl ⟨rfl, rfl, rfl⟩)

/-- Witness for C20: after a record with width = depth = 65536 and 16 samples
(the 32-bit product wraps to 0) the sample height map is cleared; after a
record with width = depth = 4 and 16 samples it stores width 4, depth 4 and 16
samples. -/
theorem height_map_state_invariant_witness :
    (∀ call ∈ [(sample_height_record 65536 65536 16, true), (sample_height_record 4 4 16, true)],
      heights_fit call.1) ∧
    (sample_height_map.clear.after_set_data [(sample_height_record 65536 65536 16, true)]).width
      = 0 ∧
    (sample_height_map.clear.after_set_data
      [(sample_height_record 65536 65536 16, true), (sample_height_record 4 4 16, true)]).width
      = 4 ∧
    (((sample_height_map.clear.after_set_data
        [(sample_height_record 65536 65536 16, true),
          (sample_height_record 4 4 16, true)]).heights.length : Int)
      = (sample_height_map.clear.after_set_data
          [(sample_height_record 65536 65536 16, true), (sample_height_record 4 4 16, true)]).width
        * (sample_height_map.clear.after_set_data
          [(sample_height_record 65536 65536 16, true),
            (sample_height_record 4 4 16, true)]).depth) := by
  have hfit : ∀ call ∈ [(sample_height_record 65536 65536 16, true),
      (sample_height_record 4 4 16, true)], heights_fit call.1 := by
    intro call hc data heights hd hh
    simp only [List.mem_cons, List.mem_singleton, List.not_mem_nil, or_false] at hc
    rcases hc with rfl | rfl
    · simp only [sample_height_record, Variant.DICTIONARY.injEq] at hd
      subst hd
      simp [Dictionary.get] at hh
      subst hh
      simp
    · simp only [sample_height_record, Variant.DICTIONARY.injEq] at hd
      subst hd
      simp [Dictionary.get] at hh
      subst hh
      simp
  have hwrapped : ∀ t : JoltHeightMapShape3D ℚ Nat,
      (t.set_data_body (sample_height_record 65536 65536 16)).1.width = 0 := by
    intro t
    have hrej := height_map_wrapping_rejected t.clear (List.replicate 16 (0 : ℚ))
      (int32_of 65536) (int32_of 65536) (int32_of_range 65536).2 (by decide)
    simp only [JoltHeightMapShape3D.set_data_body, sample_height_record, Dictionary.get]
    simp only [String.reduceEq, if_false, if_true]
    rcases height_map_initialize_cases t.clear (List.replicate 16 (0 : ℚ)) (int32_of 65536)
      (int32_of 65536) with h | h
    · rw [h]
      rfl
    · rw [h] at hrej
      cases hrej
  have hsquare : ∀ t : JoltHeightMapShape3D ℚ Nat,
      (t.set_data_body (sample_height_record 4 4 16)).1.width = 4 := by
    intro t
    simp [JoltHeightMapShape3D.set_data_body, sample_height_record, Dictionary.get,
      JoltHeightMapShape3D.initialize, JoltHeightMapShape3D.clear, int32_of, int32_of_size,
      uint32_of, is_power_of_2, Nat.log2]
  have hfirst : (sample_height_map.clear.after_set_data
      [(sample_height_record 65536 65536 16, true)]).width = 0 := by
    simp only [JoltHeightMapShape3D.after_set_data, List.foldl_cons, List.foldl_nil,
      JoltHeightMapShape3D.set_data, on_scope_exit]
    exact hwrapped _
  have hsecond : (sample_height_map.clear.after_set_data
      [(sample_height_record 65536 65536 16, true), (sample_height_record 4 4 16, true)]).width
      = 4 := by
    simp only [JoltHeightMapShape3D.after_set_data, List.foldl_cons, List.foldl_nil,
      JoltHeightMapShape3D.set_data, on_scope_exit]
    exact hsquare _
  refine ⟨hfit, hfirst, hsecond, ?_⟩
  rcases (height_map_state_invariant sample_height_map _ hfit).1 with h | h
  · rw [h.2.1] at hsecond
    cases hsecond
  · exact h.2.2.2

end height_map_state

/-! ## `set_margin` -/

section margin_theorems

variable {F H : Type} [Float32Ops F]

theorem shortest_axis_zero : (Vector3.zero : Vector3 F).shortest_axis = Float32Ops.zero := by
  simp [Vector3.shortest_axis, Vector3.zero, Float32Ops.lt_zero_zero]

theorem box_set_margin_body_eq (s : JoltBoxShape3D F H) (p_margin : F) :
    (s.set_margin_body p_margin).1
      = { s with jolt_ref := none, half_extents := Vector3.zero, margin := p_margin } := by
  unfold JoltBoxShape3D.set_margin_body JoltBoxShape3D.initialize JoltBoxShape3D.clear
  dsimp only
  split <;> rfl

theorem cylinder_set_margin_body_eq (s : JoltCylinderShape3D F H) (p_margin : F) :
    (s.set_margin_body p_margin).1
      = { s with
          jolt_ref := none, height := Float32Ops.zero, radius := Float32Ops.zero
          margin := p_margin } := by
  unfold JoltCylinderShape3D.set_margin_body JoltCylinderShape3D.initialize
    JoltCylinderShape3D.clear
  dsimp only
  split <;> rfl

theorem convex_polygon_set_margin_body_eq {F H : Type} (s : JoltConvexPolygonShape3D F H) (p_margin : F) :
    (s.set_margin_body p_margin).1
      = { s with jolt_ref := none, vertices := [], margin := p_margin } := by
  unfold JoltConvexPolygonShape3D.set_margin_body JoltConvexPolygonShape3D.initialize
    JoltConvexPolygonShape3D.clear
  dsimp only
  split <;> rfl

/-- C21. `set_margin` discards the dimension parameters. For a box, a cylinder
and a convex polygon in any state and every margin `m`: after `set_margin(m)`
the stored margin is `m`, the cache slot is empty, the owner map is as before
and the dimension parameters are the cleared defaults (zero half extents;
height = radius = 0; no vertices), whatever they were before. With `m >= 0`
the box is not valid afterwards, and the convex polygon is never valid
afterwards (validity as the spec defines it for the two kinds). -/
theorem set_margin_discards_parameters (box : JoltBoxShape3D F H)
    (cylinder : JoltCylinderShape3D F H) (convex : JoltConvexPolygonShape3D F H)
    (p_margin : F) (p_lock : Bool) :
    (box.set_margin p_margin p_lock).shape
      = { box with jolt_ref := none, half_extents := Vector3.zero, margin := p_margin } ∧
    (cylinder.set_margin p_margin p_lock).shape
      = { cylinder with
          jolt_ref := none, height := Float32Ops.zero, radius := Float32Ops.zero
          margin := p_margin } ∧
    (convex.set_margin p_margin p_lock).shape
      = { convex with jolt_ref := none, vertices := [], margin := p_margin } ∧
    (Float32Ops.le Float32Ops.zero p_margin = true →
      (box.set_margin p_margin p_lock).shape.is_valid = false) ∧
    (convex.set_margin p_margin p_lock).shape.is_valid = false := by
  have hbox := box_set_margin_body_eq box p_margin
  have hconvex := convex_polygon_set_margin_body_eq convex p_margin
  refine ⟨hbox, cylinder_set_margin_body_eq cylinder p_margin, hconvex, ?_, ?_⟩
  · intro hm
    have hshape : (box.set_margin p_margin p_lock).shape = (box.set_margin_body p_margin).1 := rfl
    rw [hshape, hbox]
    simp [JoltBoxShape3D.is_valid, shortest_axis_zero, hm]
  · have hshape : (convex.set_margin p_margin p_lock).shape
        = (convex.set_margin_body p_margin).1 := rfl
    rw [hshape, hconvex]
    simp [JoltConvexPolygonShape3D.is_valid]

/-- Witness for C21: the valid sample box, cylinder and convex polygon lose
their half extents, height, radius and vertices in `set_margin(1/10)`, and the
box is not valid afterwards. -/
theorem set_margin_discards_parameters_witness :
    sample_box.is_valid = true ∧
    (sample_box.set_margin (1 / 10) true).shape.half_extents = { x := 0, y := 0, z := 0 } ∧
    (sample_box.set_margin (1 / 10) true).shape.margin = 1 / 10 ∧
    (sample_cylinder.set_margin (1 / 10) true).shape.height = 0 ∧
    (sample_convex_polygon.set_margin (1 / 10) true).shape.vertices = [] ∧
    Float32Ops.le Float32Ops.zero (1 / 10 : ℚ) = true ∧
    (sample_box.set_margin (1 / 10) true).shape.is_valid = false :=
  ⟨by norm_num [JoltBoxShape3D.is_valid, sample_box, Vector3.shortest_axis, Float32Ops.le,
      Float32Ops.lt],
    congrArg JoltBoxShape3D.half_extents
      (set_margin_discards_parameters sample_box sample_cylinder sample_convex_polygon
        (1 / 10) true).1,
    congrArg JoltBoxShape3D.margin
      (set_margin_discards_parameters sample_box sample_cylinder sample_convex_polygon
        (1 / 10) true).1,
    congrArg JoltCylinderShape3D.height
      (set_margin_discards_parameters sample_box sample_cylinder sample_convex_polygon
        (1 / 10) true).2.1,
    congrArg JoltConvexPolygonShape3D.vertices
      (set_margin_discards_parameters sample_box sample_cylinder sample_convex_polygon
        (1 / 10) true).2.2.1,
    by norm_num [Float32Ops.le, Float32Ops.zero],
    (set_margin_discards_parameters sample_box sample_cylinder sample_convex_polygon
      (1 / 10) true).2.2.2.1 (by norm_num [Float32Ops.le, Float32Ops.zero])⟩

end margin_theorems

/-! ## The loop of the concave polygon `build` -/

section concave_loop

variable {F H W : Type} [Float32Ops F]

theorem concave_faces_loop_needs_fuel {F : Type} (backface_collision : Bool) (fuel : Nat) :
    ∀ (n : Nat) (front rest : List (Vector3 F)) (jolt_faces : List (Triangle F)),
      rest.length = 3 * n → fuel < n →
      concave_faces_loop (front ++ rest) backface_collision ((front ++ rest).length : Nat) fuel
          front.length jolt_faces
        = none := by
  induction fuel with
  | zero =>
    intro n front rest acc h hf
    have hne : ¬ (front.length : Int) = ((front ++ rest).length : Nat) := by
      simp only [List.length_append]
      omega
    unfold concave_faces_loop
    simp only [hne, if_false]
  | succ f ih =>
    intro n front rest acc h hf
    obtain ⟨m, rfl⟩ : ∃ m, n = m + 1 := ⟨n - 1, by omega⟩
    match rest, h with
    | v0 :: v1 :: v2 :: more, h =>
      have hr : more.length = 3 * m := by simp at h; omega
      have hrec := ih m (front ++ [v0, v1, v2]) more
        (if backface_collision then
          acc ++ [{ v1 := v2, v2 := v1, v3 := v0 }] ++ [{ v1 := v0, v2 := v1, v3 := v2 }]
        else acc ++ [{ v1 := v2, v2 := v1, v3 := v0 }])
        hr (by omega)
      have hlist : front ++ [v0, v1, v2] ++ more = front ++ v0 :: v1 :: v2 :: more := by simp
      rw [hlist] at hrec
      have hlen : (front ++ [v0, v1, v2]).length = front.length + 3 := by simp
      rw [hlen] at hrec
      unfold concave_faces_loop
      have hne : ¬ (front.length : Int) = ((front ++ v0 :: v1 :: v2 :: more).length : Nat) := by
        simp only [List.length_append, List.length_cons]
        omega
      simp only [hne, if_false]
      have g0 : (front ++ v0 :: v1 :: v2 :: more)[front.length + 0]? = some v0 := by
        rw [Nat.add_zero, List.getElem?_append_right (le_refl _)]; simp
      have g1 : (front ++ v0 :: v1 :: v2 :: more)[front.length + 1]? = some v1 := by
        rw [List.getElem?_append_right (by omega)]; simp
      have g2 : (front ++ v0 :: v1 :: v2 :: more)[front.length + 2]? = some v2 := by
        rw [List.getElem?_append_right (by omega)]; simp
      simp only [g0, g1, g2]
      cases backface_collision
      · simp only [Bool.false_eq_true, if_false] at hrec ⊢
        exact hrec
      · simp only [if_true] at hrec ⊢
        exact hrec

/-- C22. The concave polygon `build` is total on the states that `set_data`
leaves. After `set_data` on any state with any argument the number of stored
vertices is divisible by 3. When it is not zero (and fits the cast
`(int32_t)size()`), the loop of `build`, which advances by 3 and stops only
when it is at the end offset, ends with a triangle list when it is given fuel
for `length / 3` iterations and does not end with less; the three reads of
iteration `i` (offsets `3i`, `3i + 1`, `3i + 2`) are inside the face list; and
`build` goes on to its one request to the engine, without an index out of
range. A silent rejection by `initialize` (no report) happens only for an
empty face list, so its later check `face_count == 0` never fires. -/
theorem concave_polygon_build_total (k : JoltConcavePolygonShape3D F H) (p_data : Variant F)
    (p_lock : Bool) (engine : Engine F H W) (p_extra_margin : F) (world : W)
    (hfit : (k.set_data p_data p_lock).shape.faces.length < 2147483648) :
    (k.set_data p_data p_lock).shape.faces.length % 3 = 0 ∧
    ((k.set_data p_data p_lock).shape.faces.length ≠ 0 →
      (∃ jolt_faces : List (Triangle F),
        concave_faces_loop (k.set_data p_data p_lock).shape.faces
            (k.set_data p_data p_lock).shape.backface_collision
            (int32_of_size (k.set_data p_data p_lock).shape.faces.length)
            ((k.set_data p_data p_lock).shape.faces.length / 3) 0 []
          = some jolt_faces ∧
        (k.set_data p_data p_lock).shape.build engine p_extra_margin world
          = { shape := (create_or_fail engine (.mesh jolt_faces)
                "Failed to build concave polygon shape. " world).shape
              reports :=
                extra_margin_warning p_extra_margin
                  "Concave polygon shapes with extra margin are not supported by Godot Jolt." ++
                (create_or_fail engine (.mesh jolt_faces)
                  "Failed to build concave polygon shape. " world).reports
              world := (create_or_fail engine (.mesh jolt_faces)
                "Failed to build concave polygon shape. " world).world }) ∧
      (∀ fuel : Nat, fuel < (k.set_data p_data p_lock).shape.faces.length / 3 →
        concave_faces_loop (k.set_data p_data p_lock).shape.faces
            (k.set_data p_data p_lock).shape.backface_collision
            (int32_of_size (k.set_data p_data p_lock).shape.faces.length) fuel 0 []
          = none) ∧
      (∀ i : Nat, i < (k.set_data p_data p_lock).shape.faces.length / 3 →
        3 * i + 2 < (k.set_data p_data p_lock).shape.faces.length ∧
        ∃ v0 v1 v2 : Vector3 F,
          (k.set_data p_data p_lock).shape.faces[3 * i]? = some v0 ∧
          (k.set_data p_data p_lock).shape.faces[3 * i + 1]? = some v1 ∧
          (k.set_data p_data p_lock).shape.faces[3 * i + 2]? = some v2)) ∧
    (∀ (t : JoltConcavePolygonShape3D F H) (p_faces : List (Vector3 F))
        (p_backface_collision : Bool),
      ( t.initialize p_faces p_backface_collision).ok = false →
      ( t.initialize p_faces p_backface_collision).reports = [] → p_faces.length = 0) := by
  have hsettled : (k.set_data p_data p_lock).shape.settled :=
    concave_polygon_settled_set_data_body k p_data
  generalize (k.set_data p_data p_lock).shape = s at hsettled hfit ⊢
  have hmod : s.faces.length % 3 = 0 := by
    rcases hsettled with ⟨h, _⟩ | ⟨_, h⟩
    · rw [h]
      rfl
    · exact h
  refine ⟨hmod, ?_, ?_⟩
  · intro hne
    have hlen : s.faces.length = 3 * (s.faces.length / 3) := by omega
    have hcast := int32_of_size_small s.faces.length hfit
    have hloop := concave_faces_loop_emits s.backface_collision (s.faces.length / 3) []
      s.faces (s.faces.length / 3) [] hlen (le_refl _)
    have hfull := concave_faces_loop_emits s.backface_collision (s.faces.length / 3) []
      s.faces s.faces.length [] hlen (by omega)
    simp only [List.nil_append, List.length_nil] at hloop hfull
    refine ⟨⟨emitted_triangles s.backface_collision s.faces, ?_, ?_⟩, ?_, ?_⟩
    · rw [hcast]
      exact hloop
    · unfold JoltConcavePolygonShape3D.build
      simp only [hcast, hne, if_false, hfull]
    · intro fuel hfuel
      have hnone := concave_faces_loop_needs_fuel s.backface_collision fuel
        (s.faces.length / 3) [] s.faces [] hlen hfuel
      simp only [List.nil_append, List.length_nil] at hnone
      rw [hcast]
      exact hnone
    · intro i hi
      obtain ⟨v0, v1, v2, h0, h1, h2, _⟩ :=
        emitted_triangles_front (s.faces.length / 3) s.faces i hlen hi
      exact ⟨by omega, v0, v1, v2, h0, h1, h2⟩
  · intro t p_faces b hok hreports
    rcases concave_polygon_initialize_outcome t p_faces b with
      ⟨h, _⟩ | ⟨_, _, message, h⟩ | ⟨_, _, h⟩
    · exact h
    · rw [h] at hreports
      cases hreports
    · rw [h] at hok
      cases hok

/-- Witness for C22: a record with nine vertices leaves nine stored vertices;
the loop ends with fuel for three iterations and not with fuel for two. -/
theorem concave_polygon_build_total_witness :
    (sample_concave_polygon.set_data sample_nine_record true).shape.faces.length = 9 ∧
    (sample_concave_polygon.set_data sample_nine_record true).shape.faces.length < 2147483648 ∧
    (∃ jolt_faces : List (Triangle ℚ),
      concave_faces_loop (sample_concave_polygon.set_data sample_nine_record true).shape.faces
          (sample_concave_polygon.set_data sample_nine_record true).shape.backface_collision
          (int32_of_size
            (sample_concave_polygon.set_data sample_nine_record true).shape.faces.length)
          ((sample_concave_polygon.set_data sample_nine_record true).shape.faces.length / 3) 0 []
        = some jolt_faces) ∧
    concave_faces_loop (sample_concave_polygon.set_data sample_nine_record true).shape.faces
        (sample_concave_polygon.set_data sample_nine_record true).shape.backface_collision
        (int32_of_size
          (sample_concave_polygon.set_data sample_nine_record true).shape.faces.length) 2 0 []
      = none := by
  have hlength : (sample_concave_polygon.set_data sample_nine_record true).shape.faces.length
      = 9 := by decide
  have hfit : (sample_concave_polygon.set_data sample_nine_record true).shape.faces.length
      < 2147483648 := by
    rw [hlength]
    decide
  have hne : (sample_concave_polygon.set_data sample_nine_record true).shape.faces.length ≠ 0 := by
    rw [hlength]
    decide
  have hall := (concave_polygon_build_total sample_concave_polygon sample_nine_record true
    (counting_engine ℚ) 0 7 hfit).2.1 hne
  obtain ⟨jolt_faces, hloop, _⟩ := hall.1
  exact ⟨hlength, hfit, ⟨jolt_faces, hloop⟩, hall.2.1 2 (by rw [hlength]; decide)⟩

end concave_loop

end GodotJolt
